import Mathlib

/-!
Verification of the Wi-Fi Display (Miracast) RTSP source control plane
(`gst/rtsp-server`): the WFD parameter-message codec (`gstwfdmessage.c`),
the multicast address pool (`rtsp-address-pool.c`) and the WFD client
negotiation / keep-alive logic (`rtsp-client-wfd.c`), shallowly embedded
in Lean.  C strings are modelled as lists of byte values (`Nat` below
256), machine integers as `Nat` (with explicit `% 2^w` or `Int`
comparisons where the C arithmetic makes that visible), `NULL`-able
pointers as `Option`.

The header `gstwfdmessage.h` is not part of the sources; the enum values
and attribute-name strings it declares are modelled from the spec
(sections 3.1, 3.2 and 8), which states them explicitly (LPCM=1, AAC=2,
AC3=4; CEA modes bit 0 = 640x480p60 ... bit 16 = 1920x1080p24, etc.).
-/

/-! # Byte-string basics -/

/-- Bytes of a literal ASCII string. -/
def strBytes (s : String) : List Nat := s.data.map Char.toNat

/-- Carriage return + line feed, the WFD line terminator. -/
def crlf : List Nat := [13, 10]

/-- Model of `g_ascii_isspace`: space, TAB, LF, VT, FF, CR. -/
def isSpaceByte (c : Nat) : Bool :=
  c = 32 || c = 9 || c = 10 || c = 11 || c = 12 || c = 13

/-- Model of `g_ascii_ispunct`: printable ASCII that is neither
alphanumeric nor space. -/
def isPunctByte (c : Nat) : Bool :=
  (33 ≤ c && c ≤ 47) || (58 ≤ c && c ≤ 64) || (91 ≤ c && c ≤ 96) ||
    (123 ≤ c && c ≤ 126)

/-- Reading a byte of a C buffer, index past the terminator yields the
zero bytes the surrounding zero-initialised buffer holds. -/
def charAt (s : List Nat) (i : Nat) : Nat := s.getD i 0

/-! # Number formatting (printf) and scanning (strtoul) -/

/-- Lowercase hex digit character for a nibble, as printf `%x` emits. -/
def hexDigitChar (d : Nat) : Nat := if d < 10 then 48 + d else 87 + d

/-- Digit loop of printf `%x` with explicit fuel (any fuel at least the
number of digits above the last gives the same result; `n` itself
always suffices). -/
def toHexDigitsGo : Nat → Nat → List Nat
  | 0, n => [hexDigitChar n]
  | fuel + 1, n =>
    if n < 16 then [hexDigitChar n]
    else toHexDigitsGo fuel (n / 16) ++ [hexDigitChar (n % 16)]

/-- Hex digits of `n`, most significant first (printf `%x`, so `0`
prints as "0"). -/
def toHexDigits (n : Nat) : List Nat := toHexDigitsGo n n

/-- Zero-padding to a minimum width, as printf `%0Nx`. -/
def zeroPad (w : Nat) (ds : List Nat) : List Nat :=
  List.replicate (w - ds.length) 48 ++ ds

/-- printf `%0wx` of `n` (lowercase, zero padded to width `w`). -/
def hexPad (w n : Nat) : List Nat := zeroPad w (toHexDigits n)

/-- Digit loop of printf `%d` with explicit fuel. -/
def toDecDigitsGo : Nat → Nat → List Nat
  | 0, n => [48 + n]
  | fuel + 1, n =>
    if n < 10 then [48 + n]
    else toDecDigitsGo fuel (n / 10) ++ [48 + n % 10]

/-- Decimal digits of `n`, most significant first (printf `%d` for
non-negative values). -/
def toDecDigits (n : Nat) : List Nat := toDecDigitsGo n n

/-- Value of a hex digit character, `none` when the character is not a
hex digit (where `strtoul` base 16 stops). -/
def hexDigitVal (c : Nat) : Option Nat :=
  if 48 ≤ c ∧ c ≤ 57 then some (c - 48)
  else if 97 ≤ c ∧ c ≤ 102 then some (c - 87)
  else if 65 ≤ c ∧ c ≤ 70 then some (c - 55)
  else none

/-- Digit-accumulation loop of `strtoul(_, NULL, 16)`. -/
def strtoul16Go : List Nat → Nat → Nat
  | [], acc => acc
  | c :: rest, acc =>
    match hexDigitVal c with
    | some d => strtoul16Go rest (acc * 16 + d)
    | none => acc

/-- Model of `strtoul (s, NULL, 16)` on the tokens this codec produces
(no leading white space, sign or `0x` prefix ever reaches it: tokens
come from `_read_string_space_ended` on serializer output). -/
def strtoul16 (s : List Nat) : Nat := strtoul16Go s 0

/-- Value of a decimal digit character, `none` when not a digit. -/
def decDigitVal (c : Nat) : Option Nat :=
  if 48 ≤ c ∧ c ≤ 57 then some (c - 48) else none

/-- Digit-accumulation loop of `strtoul(_, NULL, 10)` / `atoi`. -/
def strtoul10Go : List Nat → Nat → Nat
  | [], acc => acc
  | c :: rest, acc =>
    match decDigitVal c with
    | some d => strtoul10Go rest (acc * 10 + d)
    | none => acc

/-- Model of `strtoul (s, NULL, 10)` on the tokens this codec produces. -/
def strtoul10 (s : List Nat) : Nat := strtoul10Go s 0

/-! # Address pool (`rtsp-address-pool.c`)

An `Addr` is the `bytes[16]/size/port` record; `bytes` holds `size`
meaningful big-endian bytes, so the model stores just that list. -/

structure Addr where
  bytes : List Nat
  port : Nat
deriving Repr, DecidableEq

structure AddrRange where
  min : Addr
  max : Addr
  ttl : Nat
deriving Repr, DecidableEq

/-- The free (`addresses`) and `allocated` lists of a pool. -/
structure Pool where
  addresses : List AddrRange
  allocated : List AddrRange
deriving Repr, DecidableEq

/-- The `GstRTSPAddressFlags` bits used by `acquire`. -/
structure AddressFlags where
  ipv4 : Bool
  ipv6 : Bool
  even_port : Bool
deriving Repr, DecidableEq

/-- `ADDR_IS_IPV4`: `size == 4`. -/
def addrIsIPv4 (a : Addr) : Bool := a.bytes.length = 4

/-- `ADDR_IS_IPV6`: `size == 16`. -/
def addrIsIPv6 (a : Addr) : Bool := a.bytes.length = 16

/-- `ADDR_IS_EVEN_PORT`: `(port & 1) == 0`. -/
def addrIsEvenPort (a : Addr) : Bool := a.port % 2 = 0

/-- Carry loop of `inc_address` on the byte list reversed
(least-significant byte first). -/
def incBytesRev : List Nat → List Nat
  | [] => []
  | b :: rest => if b + 1 = 256 then 0 :: incBytesRev rest else (b + 1) :: rest

/-- `inc_address`: add one to the big-endian address with carry
propagating leftward (carry past the top byte is dropped). -/
def inc_address (a : Addr) : Addr :=
  { a with bytes := (incBytesRev a.bytes.reverse).reverse }

/-- `RANGE_IS_SINGLE`: min and max have the same address bytes. -/
def rangeIsSingle (r : AddrRange) : Bool := r.min.bytes = r.max.bytes

/-- The `skip` computed in `acquire`: 1 when `EVEN_PORT` is requested
and the range starts on an odd port, else 0. -/
def addrSkip (flags : AddressFlags) (r : AddrRange) : Nat :=
  if flags.even_port && !(addrIsEvenPort r.min) then 1 else 0

/-- Loop-body filter of `acquire`: the address-family checks and the
`ports - skip < n_ports` check (`gint` arithmetic, hence `Int`). -/
def rangeMatches (flags : AddressFlags) (n_ports : Nat) (r : AddrRange) :
    Bool :=
  if flags.ipv4 && !(addrIsIPv4 r.min) then false
  else if flags.ipv6 && !(addrIsIPv6 r.min) then false
  else
    let ports : Int := (r.max.port : Int) - (r.min.port : Int) + 1
    let skip : Int := (addrSkip flags r : Int)
    !(ports - skip < (n_ports : Int))

/-- `split_range`: cut the chosen allocation out of `range`.  Returns
the allocated fragment and the fragments put back into the free list,
in the head order the successive `g_list_prepend` calls produce
(trailing-ports fragment, then skipped-ports fragment, then
other-addresses remainder). -/
def split_range (range : AddrRange) (skip n_ports : Nat) :
    AddrRange × List AddrRange :=
  let step1 :=
    if rangeIsSingle range then (range, ([] : List AddrRange))
    else
      let temp := { range with min := inc_address range.min }
      ({ range with max := { range.max with bytes := range.min.bytes } },
        [temp])
  let range1 := step1.1
  let step2 :=
    if skip > 0 then
      let temp :=
        { range1 with max := { range1.max with port := range1.min.port + skip } }
      ({ range1 with min := { range1.min with port := range1.min.port + skip } },
        [temp])
    else (range1, ([] : List AddrRange))
  let range2 := step2.1
  let step3 :=
    if (range2.max.port : Int) - (range2.min.port : Int) + 1 > (n_ports : Int)
    then
      let temp :=
        { range2 with min := { range2.min with port := range2.min.port + n_ports } }
      ({ range2 with
          max := { range2.max with port := range2.min.port + n_ports - 1 } },
        [temp])
    else (range2, ([] : List AddrRange))
  (step3.1, step3.2 ++ step2.2 ++ step1.2)

/-- Scan of the free list in `acquire`: first matching range, split into
the part walked past, the match, and the rest. -/
def acquireFind (flags : AddressFlags) (n_ports : Nat) :
    List AddrRange → Option (List AddrRange × AddrRange × List AddrRange)
  | [] => none
  | r :: rest =>
    if rangeMatches flags n_ports r then some ([], r, rest)
    else
      match acquireFind flags n_ports rest with
      | none => none
      | some (pre, m, post) => some (r :: pre, m, post)

/-- `gst_rtsp_address_pool_acquire_address`: find the first matching
free range, remove it, split it, prepend the remainders to the free
list and the allocated fragment to the allocated list.  `n_ports = 0`
models the `g_return_val_if_fail (n_ports > 0, NULL)` guard. -/
def gst_rtsp_address_pool_acquire_address (pool : Pool)
    (flags : AddressFlags) (n_ports : Nat) : Option AddrRange × Pool :=
  if n_ports = 0 then (none, pool)
  else
    match acquireFind flags n_ports pool.addresses with
    | none => (none, pool)
    | some (pre, r, post) =>
      let skip := addrSkip flags r
      let res := split_range r skip n_ports
      (some res.1,
        { addresses := res.2 ++ pre ++ post,
          allocated := res.1 :: pool.allocated })

/-- `gst_rtsp_address_pool_release_address`: a known handle moves from
`allocated` back to the head of the free list; an unknown handle is a
warned no-op. -/
def gst_rtsp_address_pool_release_address (pool : Pool) (id : AddrRange) :
    Pool :=
  if pool.allocated.contains id then
    { addresses := id :: pool.addresses,
      allocated := pool.allocated.erase id }
  else pool

/-- Lexicographic `memcmp`-style order on equal-length byte lists. -/
def memcmpLe : List Nat → List Nat → Bool
  | [], _ => true
  | _ :: _, [] => true
  | a :: as, b :: bs =>
    if a < b then true else if b < a then false else memcmpLe as bs

/-- Whether the (address, port) tuple lies in the range covered by `r`. -/
def inRange (r : AddrRange) (addr : List Nat) (p : Nat) : Bool :=
  r.min.bytes.length = addr.length && memcmpLe r.min.bytes addr &&
    memcmpLe addr r.max.bytes && r.min.port ≤ p && p ≤ r.max.port

/-- Multiplicity of the (address, port) tuple in the multiset covered by
a list of ranges. -/
def coverCount (rs : List AddrRange) (addr : List Nat) (p : Nat) : Nat :=
  (rs.filter (fun r => inRange r addr p)).length

/-- Fixed example pools used by the concrete theorems. -/
def evenPortFlags : AddressFlags :=
  { ipv4 := false, ipv6 := false, even_port := true }

/-- Single IPv4 address `10.0.0.1`, ports 5001-5004 (odd start, so an
even-port acquire must skip). -/
def poolOddStart : Pool :=
  { addresses :=
      [{ min := { bytes := [10, 0, 0, 1], port := 5001 },
         max := { bytes := [10, 0, 0, 1], port := 5004 }, ttl := 1 }],
    allocated := [] }

/-- The spec's scenario-4 pool: `10.0.0.1`-`10.0.0.4`, ports 5000-5009,
ttl 1. -/
def poolScenario4 : Pool :=
  { addresses :=
      [{ min := { bytes := [10, 0, 0, 1], port := 5000 },
         max := { bytes := [10, 0, 0, 4], port := 5009 }, ttl := 1 }],
    allocated := [] }

/-- Helper for the exhausted-pool theorem: when no range passes the
loop-body filter, the scan of the free list finds nothing. -/
theorem acquireFind_eq_none (flags : AddressFlags) (n_ports : Nat)
    (l : List AddrRange)
    (h : ∀ r ∈ l, rangeMatches flags n_ports r = false) :
    acquireFind flags n_ports l = none := by
  induction l with
  | nil => rfl
  | cons r rest ih =>
    have hr : rangeMatches flags n_ports r = false := h r (by simp)
    have hrest : ∀ x ∈ rest, rangeMatches flags n_ports x = false :=
      fun x hx => h x (by simp [hx])
    simp [acquireFind, hr, ih hrest]

/-- C6: with `EVEN_PORT` on a range starting at the odd port 5001,
`split_range` stores a skipped-ports fragment whose `max.port` is
`min.port + skip` (one port too many), so after the acquire the
(10.0.0.1, 5002) tuple is covered twice by `free ++ allocated` while it
was covered once before: the covered multiset is not invariant, contrary
to the claim and to the code's own comment ("make a range with the
skipped ports"). -/
theorem pool_even_port_skip_duplicates_port :
    coverCount (poolOddStart.addresses ++ poolOddStart.allocated)
        [10, 0, 0, 1] 5002 = 1 ∧
      coverCount
        (((gst_rtsp_address_pool_acquire_address poolOddStart evenPortFlags
                2).2).addresses ++
          ((gst_rtsp_address_pool_acquire_address poolOddStart evenPortFlags
                2).2).allocated)
        [10, 0, 0, 1] 5002 = 2 := by decide

/-- C7: acquiring `(EVEN_PORT, 2)` from the pool holding
`10.0.0.1-10.0.0.4 : 5000-5009 ttl 1` hands out `10.0.0.1 : 5000-5001`
and leaves exactly the trailing fragment `10.0.0.1 : 5002-5009` and the
remainder `10.0.0.2-10.0.0.4 : 5000-5009` on the free list. -/
theorem pool_scenario4_split :
    gst_rtsp_address_pool_acquire_address poolScenario4 evenPortFlags 2 =
      (some { min := { bytes := [10, 0, 0, 1], port := 5000 },
              max := { bytes := [10, 0, 0, 1], port := 5001 }, ttl := 1 },
        { addresses :=
            [{ min := { bytes := [10, 0, 0, 1], port := 5002 },
               max := { bytes := [10, 0, 0, 1], port := 5009 }, ttl := 1 },
             { min := { bytes := [10, 0, 0, 2], port := 5000 },
               max := { bytes := [10, 0, 0, 4], port := 5009 }, ttl := 1 }],
          allocated :=
            [{ min := { bytes := [10, 0, 0, 1], port := 5000 },
               max := { bytes := [10, 0, 0, 1], port := 5001 },
               ttl := 1 }] }) := by decide

/-- C10: when no free range passes the family/port-count filter (with
the even-port skip accounted for), `acquire` returns `NULL` and the
free and allocated lists are exactly as before the call. -/
theorem acquire_no_match_leaves_pool_unchanged (pool : Pool)
    (flags : AddressFlags) (n_ports : Nat)
    (h : ∀ r ∈ pool.addresses, rangeMatches flags n_ports r = false) :
    gst_rtsp_address_pool_acquire_address pool flags n_ports =
      (none, pool) := by
  unfold gst_rtsp_address_pool_acquire_address
  by_cases h0 : n_ports = 0
  · simp [h0]
  · simp [h0, acquireFind_eq_none flags n_ports pool.addresses h]

/-- Witness for C10: asking for 11 consecutive ports from a pool whose
only range offers 10 matches nothing and leaves the pool unchanged. -/
theorem acquire_no_match_leaves_pool_unchanged_witness :
    (∀ r ∈ poolScenario4.addresses,
        rangeMatches evenPortFlags 11 r = false) ∧
      gst_rtsp_address_pool_acquire_address poolScenario4 evenPortFlags 11 =
        (none, poolScenario4) :=
  ⟨by decide,
    acquire_no_match_leaves_pool_unchanged poolScenario4 evenPortFlags 11
      (by decide)⟩

/-! # WFD enums and attribute names

Modelled from the spec: `gstwfdmessage.h` is not among the sources, so
the enum values come from spec section 3.1 (audio formats LPCM=1 AAC=2
AC3=4 as a bitmask, frequencies 44100=1 48000=2, channel masks
2/4/6/8 encoded 1/2/4/8, native families CEA=0 VESA=1 HH=2, H264
profiles Base=1 High=2, levels 3.1=1 ... 4.2=16, resolution bitmasks in
the standard Miracast mode order with bit 0 the first listed mode) and
the attribute-name strings from spec section 3.2. -/

def GST_WFD_AUDIO_UNKNOWN : Nat := 0
def GST_WFD_AUDIO_LPCM : Nat := 1
def GST_WFD_AUDIO_AAC : Nat := 2
def GST_WFD_AUDIO_AC3 : Nat := 4

def GST_WFD_FREQ_44100 : Nat := 1
def GST_WFD_FREQ_48000 : Nat := 2

def GST_WFD_CHANNEL_2 : Nat := 1
def GST_WFD_CHANNEL_4 : Nat := 2
def GST_WFD_CHANNEL_6 : Nat := 4
def GST_WFD_CHANNEL_8 : Nat := 8

def GST_WFD_VIDEO_UNKNOWN : Nat := 0
def GST_WFD_VIDEO_H264 : Nat := 1

def GST_WFD_VIDEO_CEA_RESOLUTION : Nat := 0
def GST_WFD_VIDEO_VESA_RESOLUTION : Nat := 1
def GST_WFD_VIDEO_HH_RESOLUTION : Nat := 2

def GST_WFD_H264_BASE_PROFILE : Nat := 1
def GST_WFD_H264_HIGH_PROFILE : Nat := 2
def GST_WFD_H264_LEVEL_3_1 : Nat := 1

def GST_WFD_HDCP_NONE : Nat := 0
def GST_WFD_HDCP_2_0 : Nat := 1
def GST_WFD_HDCP_2_1 : Nat := 2

def GST_WFD_RTSP_TRANS_UNKNOWN : Nat := 0
def GST_WFD_RTSP_TRANS_RTP : Nat := 1
def GST_WFD_RTSP_TRANS_RDT : Nat := 2
def GST_WFD_RTSP_PROFILE_UNKNOWN : Nat := 0
def GST_WFD_RTSP_PROFILE_AVP : Nat := 1
def GST_WFD_RTSP_PROFILE_SAVP : Nat := 2
def GST_WFD_RTSP_LOWER_TRANS_UNKNOWN : Nat := 0
def GST_WFD_RTSP_LOWER_TRANS_UDP : Nat := 1
def GST_WFD_RTSP_LOWER_TRANS_UDP_MCAST : Nat := 2
def GST_WFD_RTSP_LOWER_TRANS_TCP : Nat := 4
def GST_WFD_RTSP_LOWER_TRANS_HTTP : Nat := 8

/-- CEA resolution bitmask constants, bit 0 = 640x480p60 through
bit 16 = 1920x1080p24 (17 modes). -/
def GST_WFD_CEA_640x480P60 : Nat := 1 <<< 0
def GST_WFD_CEA_720x480P60 : Nat := 1 <<< 1
def GST_WFD_CEA_720x480I60 : Nat := 1 <<< 2
def GST_WFD_CEA_720x576P50 : Nat := 1 <<< 3
def GST_WFD_CEA_720x576I50 : Nat := 1 <<< 4
def GST_WFD_CEA_1280x720P30 : Nat := 1 <<< 5
def GST_WFD_CEA_1280x720P60 : Nat := 1 <<< 6
def GST_WFD_CEA_1920x1080P30 : Nat := 1 <<< 7
def GST_WFD_CEA_1920x1080P60 : Nat := 1 <<< 8
def GST_WFD_CEA_1920x1080I60 : Nat := 1 <<< 9
def GST_WFD_CEA_1280x720P25 : Nat := 1 <<< 10
def GST_WFD_CEA_1280x720P50 : Nat := 1 <<< 11
def GST_WFD_CEA_1920x1080P25 : Nat := 1 <<< 12
def GST_WFD_CEA_1920x1080P50 : Nat := 1 <<< 13
def GST_WFD_CEA_1920x1080I50 : Nat := 1 <<< 14
def GST_WFD_CEA_1280x720P24 : Nat := 1 <<< 15
def GST_WFD_CEA_1920x1080P24 : Nat := 1 <<< 16

/-- VESA resolution bitmask constants, bit 0 = 800x600p30 through
bit 29 = 1920x1200p60 (30 modes, spec section 3.1: "VESA from
800x600p30 through 1920x1200p60"). -/
def GST_WFD_VESA_800x600P30 : Nat := 1 <<< 0
def GST_WFD_VESA_800x600P60 : Nat := 1 <<< 1
def GST_WFD_VESA_1024x768P30 : Nat := 1 <<< 2
def GST_WFD_VESA_1024x768P60 : Nat := 1 <<< 3
def GST_WFD_VESA_1152x864P30 : Nat := 1 <<< 4
def GST_WFD_VESA_1152x864P60 : Nat := 1 <<< 5
def GST_WFD_VESA_1280x768P30 : Nat := 1 <<< 6
def GST_WFD_VESA_1280x768P60 : Nat := 1 <<< 7
def GST_WFD_VESA_1280x800P30 : Nat := 1 <<< 8
def GST_WFD_VESA_1280x800P60 : Nat := 1 <<< 9
def GST_WFD_VESA_1360x768P30 : Nat := 1 <<< 10
def GST_WFD_VESA_1360x768P60 : Nat := 1 <<< 11
def GST_WFD_VESA_1366x768P30 : Nat := 1 <<< 12
def GST_WFD_VESA_1366x768P60 : Nat := 1 <<< 13
def GST_WFD_VESA_1280x1024P30 : Nat := 1 <<< 14
def GST_WFD_VESA_1280x1024P60 : Nat := 1 <<< 15
def GST_WFD_VESA_1400x1050P30 : Nat := 1 <<< 16
def GST_WFD_VESA_1400x1050P60 : Nat := 1 <<< 17
def GST_WFD_VESA_1440x900P30 : Nat := 1 <<< 18
def GST_WFD_VESA_1440x900P60 : Nat := 1 <<< 19
def GST_WFD_VESA_1600x900P30 : Nat := 1 <<< 20
def GST_WFD_VESA_1600x900P60 : Nat := 1 <<< 21
def GST_WFD_VESA_1600x1200P30 : Nat := 1 <<< 22
def GST_WFD_VESA_1600x1200P60 : Nat := 1 <<< 23
def GST_WFD_VESA_1680x1024P30 : Nat := 1 <<< 24
def GST_WFD_VESA_1680x1024P60 : Nat := 1 <<< 25
def GST_WFD_VESA_1680x1050P30 : Nat := 1 <<< 26
def GST_WFD_VESA_1680x1050P60 : Nat := 1 <<< 27
def GST_WFD_VESA_1920x1200P30 : Nat := 1 <<< 28
def GST_WFD_VESA_1920x1200P60 : Nat := 1 <<< 29

/-- HH resolution bitmask constants, bit 0 = 800x480p30 through
bit 11 = 848x480p60 (12 modes). -/
def GST_WFD_HH_800x480P30 : Nat := 1 <<< 0
def GST_WFD_HH_800x480P60 : Nat := 1 <<< 1
def GST_WFD_HH_854x480P30 : Nat := 1 <<< 2
def GST_WFD_HH_854x480P60 : Nat := 1 <<< 3
def GST_WFD_HH_864x480P30 : Nat := 1 <<< 4
def GST_WFD_HH_864x480P60 : Nat := 1 <<< 5
def GST_WFD_HH_640x360P30 : Nat := 1 <<< 6
def GST_WFD_HH_640x360P60 : Nat := 1 <<< 7
def GST_WFD_HH_960x540P30 : Nat := 1 <<< 8
def GST_WFD_HH_960x540P60 : Nat := 1 <<< 9
def GST_WFD_HH_848x480P30 : Nat := 1 <<< 10
def GST_WFD_HH_848x480P60 : Nat := 1 <<< 11

/-! # WFD message data model (`gstwfdmessage.c`)

The embedded fragment carries the attributes that have setters in
`gstwfdmessage.c` (the message shapes a program can build), plus
everything the claims touch: audio codecs, video formats, content
protection, display EDID, presentation URL, client RTP ports and AV
format-change timing.  The remaining attributes (3D formats, coupled
sink, trigger method, route, I2C, preferred display mode, standby,
connector type, idr request) have no setters in this file and no claim
about their codec paths.  `count` fields are represented by list
lengths (the C keeps them equal on every modelled path). -/

structure GstWFDAudioCodec where
  audio_format : Option (List Nat)
  modes : Nat
  latency : Nat
deriving Repr, DecidableEq

structure GstWFDAudioCodeclist where
  list : Option (List GstWFDAudioCodec)
deriving Repr, DecidableEq

structure GstWFDVideoH264MiscParams where
  CEA_Support : Nat
  VESA_Support : Nat
  HH_Support : Nat
  latency : Nat
  min_slice_size : Nat
  slice_enc_params : Nat
  frame_rate_control_support : Nat
deriving Repr, DecidableEq

structure GstWFDVideoH264Codec where
  profile : Nat
  level : Nat
  misc_params : GstWFDVideoH264MiscParams
  max_hres : Nat
  max_vres : Nat
deriving Repr, DecidableEq

structure GstWFDVideoCodec where
  native : Nat
  preferred_display_mode_supported : Nat
  H264_codec : GstWFDVideoH264Codec
deriving Repr, DecidableEq

structure GstWFDVideoCodeclist where
  list : Option GstWFDVideoCodec
deriving Repr, DecidableEq

structure GstWFDHdcp2Spec where
  hdcpversion : Option (List Nat)
  TCPPort : Option (List Nat)
deriving Repr, DecidableEq

structure GstWFDContentProtection where
  hdcp2_spec : Option GstWFDHdcp2Spec
deriving Repr, DecidableEq

structure GstWFDDisplayEdid where
  edid_supported : Nat
  edid_block_count : Nat
  edid_payload : Option (List Nat)
deriving Repr, DecidableEq

structure GstWFDPresentationUrl where
  wfd_url0 : Option (List Nat)
  wfd_url1 : Option (List Nat)
deriving Repr, DecidableEq

structure GstWFDClientRtpPorts where
  profile : Option (List Nat)
  rtp_port0 : Nat
  rtp_port1 : Nat
  mode : Option (List Nat)
deriving Repr, DecidableEq

structure GstWFDAVFormatChangeTiming where
  PTS : Nat
  DTS : Nat
deriving Repr, DecidableEq

structure GstWFDMessage where
  audio_codecs : Option GstWFDAudioCodeclist
  video_formats : Option GstWFDVideoCodeclist
  content_protection : Option GstWFDContentProtection
  display_edid : Option GstWFDDisplayEdid
  presentation_url : Option GstWFDPresentationUrl
  client_rtp_ports : Option GstWFDClientRtpPorts
  av_format_change_timing : Option GstWFDAVFormatChangeTiming
deriving Repr, DecidableEq

/-- `gst_wfd_message_new` / `gst_wfd_message_init`: the all-absent
message. -/
def gst_wfd_message_new : GstWFDMessage :=
  { audio_codecs := none, video_formats := none, content_protection := none,
    display_edid := none, presentation_url := none, client_rtp_ports := none,
    av_format_change_timing := none }

/-! # Message setters (`gstwfdmessage.c`) -/

/-- `gst_wfd_message_set_prefered_audio_format`: one-element codec list
whose shape depends on an exact enum comparison of `a_codec`; any other
value leaves the `g_new0` element untouched (NULL format name). -/
def gst_wfd_message_set_prefered_audio_format (msg : GstWFDMessage)
    (a_codec a_freq a_channels _a_bitwidth a_latency : Nat) : GstWFDMessage :=
  let entry : GstWFDAudioCodec :=
    if a_codec = GST_WFD_AUDIO_LPCM then
      { audio_format := some (strBytes "LPCM"), modes := a_freq,
        latency := a_latency }
    else if a_codec = GST_WFD_AUDIO_AAC then
      { audio_format := some (strBytes "AAC"), modes := a_channels,
        latency := a_latency }
    else if a_codec = GST_WFD_AUDIO_AC3 then
      { audio_format := some (strBytes "AC3"), modes := a_channels,
        latency := a_latency }
    else { audio_format := none, modes := 0, latency := 0 }
  { msg with audio_codecs := some { list := some [entry] } }

/-- Shift loop of `while (temp) { nativeindex++; temp >>= 1 }` with
explicit fuel (`n` itself always suffices). -/
def bitLengthGo : Nat → Nat → Nat
  | 0, _ => 0
  | fuel + 1, n => if n = 0 then 0 else bitLengthGo fuel (n / 2) + 1

/-- Number of iterations of `while (temp) { nativeindex++; temp >>= 1 }`:
the binary length of `n`. -/
def bitLength (n : Nat) : Nat := bitLengthGo n n

/-- Native field computed by `gst_wfd_message_set_supported_video_format`:
`(nativeindex - 1) << 3` in `guint` arithmetic (wrapping when the
native-resolution mask is 0), or-ed with the family bits. -/
def supportedNativeField (v_native v_native_resolution : Nat) : Nat :=
  let ni := bitLength v_native_resolution
  let base := (((ni + 4294967295) % 4294967296) <<< 3) % 4294967296
  if v_native = GST_WFD_VIDEO_VESA_RESOLUTION then base ||| 1
  else if v_native = GST_WFD_VIDEO_HH_RESOLUTION then base ||| 2
  else base

/-- Native field computed by `gst_wfd_message_set_prefered_video_format`,
which guards the decrement with `if (nativeindex)`. -/
def preferedNativeField (v_native v_native_resolution : Nat) : Nat :=
  let ni := bitLength v_native_resolution
  let base := (if ni = 0 then 0 else ni - 1) <<< 3
  if v_native = GST_WFD_VIDEO_VESA_RESOLUTION then base ||| 1
  else if v_native = GST_WFD_VIDEO_HH_RESOLUTION then base ||| 2
  else base

/-- `gst_wfd_message_set_supported_video_format`: fills the single-entry
video list with `preferred_display_mode_supported = 1`; with
`v_codec = GST_WFD_VIDEO_UNKNOWN` only the (empty) list container is
allocated.  Note the source stores `v_max_height` into `max_hres` and
`v_max_width` into `max_vres`.  The `guint32` struct fields truncate the
`guint64` mask arguments. -/
def gst_wfd_message_set_supported_video_format (msg : GstWFDMessage)
    (v_codec v_native v_native_resolution v_cea_resolution v_vesa_resolution
      v_hh_resolution v_profile v_level v_latency v_max_height v_max_width
      min_slice_size slice_enc_params frame_rate_control : Nat) :
    GstWFDMessage :=
  let vf0 := msg.video_formats.getD { list := none }
  if v_codec ≠ GST_WFD_VIDEO_UNKNOWN then
    { msg with
        video_formats := some
          { list := some
              { native := supportedNativeField v_native v_native_resolution,
                preferred_display_mode_supported := 1,
                H264_codec :=
                  { profile := v_profile, level := v_level,
                    misc_params :=
                      { CEA_Support := v_cea_resolution % 4294967296,
                        VESA_Support := v_vesa_resolution % 4294967296,
                        HH_Support := v_hh_resolution % 4294967296,
                        latency := v_latency,
                        min_slice_size := min_slice_size,
                        slice_enc_params := slice_enc_params,
                        frame_rate_control_support := frame_rate_control },
                    max_hres := v_max_height,
                    max_vres := v_max_width } } } }
  else { msg with video_formats := some vf0 }

/-- `gst_wfd_message_set_prefered_video_format`: same record but with
`preferred_display_mode_supported = 0`, and no codec guard. -/
def gst_wfd_message_set_prefered_video_format (msg : GstWFDMessage)
    (_v_codec v_native v_native_resolution v_cea_resolution v_vesa_resolution
      v_hh_resolution v_profile v_level v_latency v_max_height v_max_width
      min_slice_size slice_enc_params frame_rate_control : Nat) :
    GstWFDMessage :=
  { msg with
      video_formats := some
        { list := some
            { native := preferedNativeField v_native v_native_resolution,
              preferred_display_mode_supported := 0,
              H264_codec :=
                { profile := v_profile, level := v_level,
                  misc_params :=
                    { CEA_Support := v_cea_resolution % 4294967296,
                      VESA_Support := v_vesa_resolution % 4294967296,
                      HH_Support := v_hh_resolution % 4294967296,
                      latency := v_latency,
                      min_slice_size := min_slice_size,
                      slice_enc_params := slice_enc_params,
                      frame_rate_control_support := frame_rate_control },
                  max_hres := v_max_height,
                  max_vres := v_max_width } } } }

/-- `gst_wfd_message_set_display_edid`: stores block count and a
`128 * blockcount`-byte payload copy; an unsupported flag or an
out-of-range block count forces `edid_supported` to 0. -/
def gst_wfd_message_set_display_edid (msg : GstWFDMessage)
    (edid_supported edid_blockcount : Nat)
    (edid_payload : Option (List Nat)) : GstWFDMessage :=
  let d0 := msg.display_edid.getD
    { edid_supported := 0, edid_block_count := 0, edid_payload := none }
  if edid_supported = 0 then
    { msg with display_edid := some { d0 with edid_supported := 0 } }
  else if 0 < edid_blockcount ∧ edid_blockcount ≤ 256 then
    { msg with
        display_edid := some
          { edid_supported := edid_supported,
            edid_block_count := edid_blockcount,
            edid_payload :=
              some ((edid_payload.getD []).take (128 * edid_blockcount)) } }
  else { msg with display_edid := some { d0 with edid_supported := 0 } }

/-- `gst_wfd_message_set_contentprotection_type`: rejects ports above
65535, allocates the spec record only for a non-`NONE` version and
stores the version name plus a `port=N` string. -/
def gst_wfd_message_set_contentprotection_type (msg : GstWFDMessage)
    (hdcpversion TCPPort : Nat) : GstWFDMessage :=
  if TCPPort > 65535 then msg
  else
    let cp0 := msg.content_protection.getD { hdcp2_spec := none }
    if hdcpversion = GST_WFD_HDCP_NONE then
      { msg with content_protection := some cp0 }
    else
      let ver : Option (List Nat) :=
        if hdcpversion = GST_WFD_HDCP_2_0 then some (strBytes "HDCP2.0")
        else if hdcpversion = GST_WFD_HDCP_2_1 then some (strBytes "HDCP2.1")
        else none
      { msg with
          content_protection := some
            { hdcp2_spec := some
                { hdcpversion := ver,
                  TCPPort := some (strBytes "port=" ++ toDecDigits TCPPort) } } }

/-- `gst_wfd_messge_set_prefered_rtp_ports` (name as in the source): the
profile string is concatenated from the transport, profile and
lower-transport selectors; nothing is filled in for
`GST_WFD_RTSP_TRANS_UNKNOWN`. -/
def gst_wfd_messge_set_prefered_rtp_ports (msg : GstWFDMessage)
    (trans rtspProfileSel lowertrans rtp_port0 rtp_port1 : Nat) :
    GstWFDMessage :=
  let rp0 := msg.client_rtp_ports.getD
    { profile := none, rtp_port0 := 0, rtp_port1 := 0, mode := none }
  if trans ≠ GST_WFD_RTSP_TRANS_UNKNOWN then
    let s1 :=
      if trans = GST_WFD_RTSP_TRANS_RTP then strBytes "RTP"
      else if trans = GST_WFD_RTSP_TRANS_RDT then strBytes "RDT" else []
    let s2 :=
      if rtspProfileSel = GST_WFD_RTSP_PROFILE_AVP then s1 ++ strBytes "/AVP"
      else if rtspProfileSel = GST_WFD_RTSP_PROFILE_SAVP then
        s1 ++ strBytes "/SAVP"
      else s1
    let s3 :=
      if lowertrans = GST_WFD_RTSP_LOWER_TRANS_UDP then
        s2 ++ strBytes "/UDP;unicast"
      else if lowertrans = GST_WFD_RTSP_LOWER_TRANS_UDP_MCAST then
        s2 ++ strBytes "/UDP;multicast"
      else if lowertrans = GST_WFD_RTSP_LOWER_TRANS_TCP then
        s2 ++ strBytes "/TCP;unicast"
      else if lowertrans = GST_WFD_RTSP_LOWER_TRANS_HTTP then
        s2 ++ strBytes "/HTTP"
      else s2
    { msg with
        client_rtp_ports := some
          { profile := some s3, rtp_port0 := rtp_port0,
            rtp_port1 := rtp_port1, mode := some (strBytes "mode=play") } }
  else { msg with client_rtp_ports := some rp0 }

/-- `gst_wfd_message_set_presentation_url`: each URL is copied only when
non-NULL. -/
def gst_wfd_message_set_presentation_url (msg : GstWFDMessage)
    (wfd_url0 wfd_url1 : Option (List Nat)) : GstWFDMessage :=
  let u0 := msg.presentation_url.getD { wfd_url0 := none, wfd_url1 := none }
  let u1 := match wfd_url0 with
    | some s => { u0 with wfd_url0 := some s }
    | none => u0
  let u2 := match wfd_url1 with
    | some s => { u1 with wfd_url1 := some s }
    | none => u1
  { msg with presentation_url := some u2 }

/-- `gst_wfd_message_set_av_format_change_timing`. -/
def gst_wfd_message_set_av_format_change_timing (msg : GstWFDMessage)
    (pts dts : Nat) : GstWFDMessage :=
  { msg with av_format_change_timing := some { PTS := pts, DTS := dts } }

/-! # Serializer (`gst_wfd_message_as_text`) -/

/-- printf `%s` of a possibly NULL C string: glib prints "(null)" for a
NULL pointer, and a non-null byte string is emitted up to its first NUL
byte. -/
def percentS (s : Option (List Nat)) : List Nat :=
  match s with
  | none => strBytes "(null)"
  | some b => b.takeWhile (fun c => c ≠ 0)

/-- One audio-codec entry of the `wfd_audio_codecs` line: name, modes as
`%08x`, latency as `%02x`, comma between entries. -/
def audioEntryText (count i : Nat) (e : GstWFDAudioCodec) : List Nat :=
  strBytes " " ++ percentS e.audio_format ++ strBytes " " ++
    hexPad 8 e.modes ++ strBytes " " ++ hexPad 2 e.latency ++
    (if i + 1 < count then strBytes "," else [])

/-- Loop over the audio-codec entries, tracking the index for the
comma. -/
def audioEntriesText (count : Nat) : Nat → List GstWFDAudioCodec → List Nat
  | _, [] => []
  | i, e :: rest => audioEntryText count i e ++ audioEntriesText count (i + 1) rest

/-- `wfd_audio_codecs` line: the `:` and values only when a list exists. -/
def audioCodecsText (ac : GstWFDAudioCodeclist) : List Nat :=
  strBytes "wfd_audio_codecs" ++
    (match ac.list with
     | none => []
     | some l => strBytes ":" ++ audioEntriesText l.length 0 l)

/-- `wfd_video_formats` line: eleven fixed-width hex fields followed by
`max_hres`/`max_vres`, each replaced by `none` when zero. -/
def videoFormatsText (vf : GstWFDVideoCodeclist) : List Nat :=
  strBytes "wfd_video_formats" ++
    (match vf.list with
     | none => []
     | some v =>
       strBytes ":" ++
         strBytes " " ++ hexPad 2 v.native ++
         strBytes " " ++ hexPad 2 v.preferred_display_mode_supported ++
         strBytes " " ++ hexPad 2 v.H264_codec.profile ++
         strBytes " " ++ hexPad 2 v.H264_codec.level ++
         strBytes " " ++ hexPad 8 v.H264_codec.misc_params.CEA_Support ++
         strBytes " " ++ hexPad 8 v.H264_codec.misc_params.VESA_Support ++
         strBytes " " ++ hexPad 8 v.H264_codec.misc_params.HH_Support ++
         strBytes " " ++ hexPad 2 v.H264_codec.misc_params.latency ++
         strBytes " " ++ hexPad 4 v.H264_codec.misc_params.min_slice_size ++
         strBytes " " ++ hexPad 4 v.H264_codec.misc_params.slice_enc_params ++
         strBytes " " ++
           hexPad 2 v.H264_codec.misc_params.frame_rate_control_support ++
         (if v.H264_codec.max_hres ≠ 0 then
            strBytes " " ++ hexPad 4 v.H264_codec.max_hres
          else strBytes " none") ++
         (if v.H264_codec.max_vres ≠ 0 then
            strBytes " " ++ hexPad 4 v.H264_codec.max_vres
          else strBytes " none"))

/-- `wfd_content_protection` line. -/
def contentProtectionText (cp : GstWFDContentProtection) : List Nat :=
  strBytes "wfd_content_protection" ++ strBytes ":" ++
    (match cp.hdcp2_spec with
     | none => strBytes " none"
     | some sp =>
       match sp.hdcpversion with
       | none => strBytes " none"
       | some ver =>
         strBytes " " ++ ver.takeWhile (fun c => c ≠ 0) ++ strBytes " " ++
           percentS sp.TCPPort)

/-- `wfd_display_edid` line: the payload bytes are emitted through `%s`,
i.e. raw and truncated at the first NUL byte (the spec flags this as a
defect: it requires hex encoding on emit). -/
def displayEdidText (ed : GstWFDDisplayEdid) : List Nat :=
  strBytes "wfd_display_edid" ++ strBytes ":" ++
    (if ed.edid_supported ≠ 0 then
       if 0 < ed.edid_block_count ∧ ed.edid_block_count ≤ 256 then
         strBytes " " ++ hexPad 4 ed.edid_block_count ++ strBytes " " ++
           percentS ed.edid_payload
       else strBytes " none"
     else strBytes " none")

/-- `wfd_presentation_URL` line. -/
def presentationUrlText (u : GstWFDPresentationUrl) : List Nat :=
  strBytes "wfd_presentation_URL" ++ strBytes ":" ++
    (match u.wfd_url0 with
     | some s => strBytes " " ++ s.takeWhile (fun c => c ≠ 0)
     | none => strBytes " none") ++
    (match u.wfd_url1 with
     | some s => strBytes " " ++ s.takeWhile (fun c => c ≠ 0)
     | none => strBytes " none")

/-- `wfd_client_rtp_ports` line: ports print as decimal `%d`. -/
def clientRtpPortsText (rp : GstWFDClientRtpPorts) : List Nat :=
  strBytes "wfd_client_rtp_ports" ++
    (match rp.profile with
     | none => []
     | some p =>
       strBytes ":" ++ strBytes " " ++ p.takeWhile (fun c => c ≠ 0) ++
         strBytes " " ++ toDecDigits rp.rtp_port0 ++
         strBytes " " ++ toDecDigits rp.rtp_port1 ++
         strBytes " " ++ percentS rp.mode)

/-- `wfd_av_format_change_timing` line: PTS and DTS as `%010llx`. -/
def avFormatChangeTimingText (t : GstWFDAVFormatChangeTiming) : List Nat :=
  strBytes "wfd_av_format_change_timing" ++ strBytes ":" ++
    strBytes " " ++ hexPad 10 t.PTS ++ strBytes " " ++ hexPad 10 t.DTS

/-- The CRLF-terminated lines `gst_wfd_message_as_text` emits, one per
present attribute, in the source's emission order (each line body above
excludes its terminator). -/
def msgLineBodies (msg : GstWFDMessage) : List (List Nat) :=
  (match msg.audio_codecs with
   | some ac => [audioCodecsText ac]
   | none => []) ++
  (match msg.video_formats with
   | some vf => [videoFormatsText vf]
   | none => []) ++
  (match msg.content_protection with
   | some cp => [contentProtectionText cp]
   | none => []) ++
  (match msg.display_edid with
   | some ed => [displayEdidText ed]
   | none => []) ++
  (match msg.presentation_url with
   | some u => [presentationUrlText u]
   | none => []) ++
  (match msg.client_rtp_ports with
   | some rp => [clientRtpPortsText rp]
   | none => []) ++
  (match msg.av_format_change_timing with
   | some t => [avFormatChangeTimingText t]
   | none => [])

/-- Concatenation of lines, each terminated by CRLF. -/
def joinCrlf : List (List Nat) → List Nat
  | [] => []
  | l :: rest => l ++ crlf ++ joinCrlf rest

/-- `gst_wfd_message_as_text` on the embedded fragment. -/
def gst_wfd_message_as_text (msg : GstWFDMessage) : List Nat :=
  joinCrlf (msgLineBodies msg)

/-! # Parser (`gst_wfd_message_parse_buffer` / `gst_wfd_parse_attribute`)

Inside a value the cursor `v` only ever moves forward, so each
`WFD_READ_*` is modelled as a (token, rest) split.  The 8192-byte local
buffers never truncate because `gst_wfd_message_parse_buffer` already
caps each line at 254 bytes. -/

/-- `_read_string_space_ended` followed by `v += strlen (temp)`: the
token is the longest space-free prefix. -/
def readToken (v : List Nat) : List Nat × List Nat :=
  let t := v.takeWhile (fun c => !isSpaceByte c)
  (t, v.drop t.length)

/-- `WFD_SKIP_SPACE`: one character, and only when it is white space. -/
def skipSpace1 (v : List Nat) : List Nat :=
  match v with
  | [] => []
  | c :: rest => if isSpaceByte c then rest else v

/-- `WFD_SKIP_COMMA`: one character, and only when it is punctuation. -/
def skipComma1 (v : List Nat) : List Nat :=
  match v with
  | [] => []
  | c :: rest => if isPunctByte c then rest else v

/-- Whether `needle` occurs at the head of `hay`. -/
def listStarts : List Nat → List Nat → Bool
  | _, [] => true
  | [], _ :: _ => false
  | a :: as, b :: bs => a = b && listStarts as bs

/-- Model of `strstr (hay, needle) != NULL`. -/
def containsSeq : List Nat → List Nat → Bool
  | [], needle => needle.isEmpty
  | a :: rest, needle => listStarts (a :: rest) needle || containsSeq rest needle

/-- Parse loop of the `wfd_audio_codecs` branch: `count` entries of
name, hex modes, hex latency, separated by `WFD_SKIP_COMMA`. -/
def parseAudioEntries : Nat → List Nat → List GstWFDAudioCodec × List Nat
  | 0, v => ([], v)
  | n + 1, v =>
    let v1 := skipSpace1 v
    let fmt := readToken v1
    let v2 := skipSpace1 fmt.2
    let m := readToken v2
    let v3 := skipSpace1 m.2
    let lat := readToken v3
    let v4 := skipComma1 lat.2
    let rest := parseAudioEntries n v4
    ({ audio_format := some fmt.1, modes := strtoul16 m.1,
       latency := strtoul16 lat.1 } :: rest.1, rest.2)

/-- `wfd_audio_codecs` branch: the entry count is `strlen (v) / 16`
(`g_new0 (_, 0)` is NULL, hence no list when that quotient is 0). -/
def parseAudioCodecs (v : List Nat) : GstWFDAudioCodeclist :=
  if v.length = 0 then { list := none }
  else if v.length / 16 = 0 then { list := none }
  else { list := some (parseAudioEntries (v.length / 16) v).1 }

/-- `wfd_video_formats` branch: eleven hex fields, then `max_hres` and
`max_vres` only when the parsed `preferred_display_mode_supported`
equals 1. -/
def parseVideoFormats (v : List Nat) : GstWFDVideoCodeclist :=
  if v.length = 0 then { list := none }
  else
    let v1 := skipSpace1 v
    let native := readToken v1
    let v2 := skipSpace1 native.2
    let pdms := readToken v2
    let v3 := skipSpace1 pdms.2
    let prof := readToken v3
    let v4 := skipSpace1 prof.2
    let lev := readToken v4
    let v5 := skipSpace1 lev.2
    let cea := readToken v5
    let v6 := skipSpace1 cea.2
    let vesa := readToken v6
    let v7 := skipSpace1 vesa.2
    let hh := readToken v7
    let v8 := skipSpace1 hh.2
    let lat := readToken v8
    let v9 := skipSpace1 lat.2
    let mss := readToken v9
    let v10 := skipSpace1 mss.2
    let sep := readToken v10
    let v11 := skipSpace1 sep.2
    let frc := readToken v11
    let v12 := skipSpace1 frc.2
    let pdmsVal := strtoul16 pdms.1
    let maxres :=
      if pdmsVal = 1 then
        let hres := readToken v12
        let v13 := skipSpace1 hres.2
        let vres := readToken v13
        (strtoul16 hres.1, strtoul16 vres.1)
      else (0, 0)
    { list := some
        { native := strtoul16 native.1,
          preferred_display_mode_supported := pdmsVal,
          H264_codec :=
            { profile := strtoul16 prof.1, level := strtoul16 lev.1,
              misc_params :=
                { CEA_Support := strtoul16 cea.1,
                  VESA_Support := strtoul16 vesa.1,
                  HH_Support := strtoul16 hh.1,
                  latency := strtoul16 lat.1,
                  min_slice_size := strtoul16 mss.1,
                  slice_enc_params := strtoul16 sep.1,
                  frame_rate_control_support := strtoul16 frc.1 },
              max_hres := maxres.1, max_vres := maxres.2 } } }

/-- `wfd_content_protection` branch: a value containing "none" stores
the literal version string "none"; otherwise version and TCP-port
tokens are read. -/
def parseContentProtection (v : List Nat) : GstWFDContentProtection :=
  if v.length = 0 then { hdcp2_spec := none }
  else
    let v1 := skipSpace1 v
    if containsSeq v1 (strBytes "none") then
      { hdcp2_spec := some
          { hdcpversion := some (strBytes "none"), TCPPort := none } }
    else
      let ver := readToken v1
      let v2 := skipSpace1 ver.2
      let port := readToken v2
      { hdcp2_spec := some
          { hdcpversion := some ver.1, TCPPort := some port.1 } }

/-- Character-class nibble decoding of the EDID hex loop: note the C
ranges `0x29 < c < 0x40`, `0x60 < c < 0x67`, `0x40 < c < 0x47`; any
other byte (including the NUL bytes past the value) contributes 0. -/
def hexNibbleC (c : Nat) : Nat :=
  if 41 < c ∧ c < 64 then c - 48
  else if 96 < c ∧ c < 103 then c - 87
  else if 64 < c ∧ c < 71 then c - 55
  else 0

/-- The EDID payload loop: byte `j` comes from characters `2j` and
`2j+1`, reading zero bytes past the end of the value buffer. -/
def decodeEdidPayload (v : List Nat) (nbytes : Nat) : List Nat :=
  (List.range nbytes).map
    (fun j => (hexNibbleC (charAt v (2 * j)) <<< 4) ||| hexNibbleC (charAt v (2 * j + 1)))

/-- `wfd_display_edid` branch.  A value containing "none" leaves
`edid_supported` 0; otherwise it is set to 1, the hex block count is
read and `128 * count` payload bytes are decoded. -/
def parseDisplayEdid (v : List Nat) : GstWFDDisplayEdid :=
  if v.length = 0 then
    { edid_supported := 0, edid_block_count := 0, edid_payload := none }
  else
    let v1 := skipSpace1 v
    if containsSeq v1 (strBytes "none") then
      { edid_supported := 0, edid_block_count := 0, edid_payload := none }
    else
      let bc := readToken v1
      let bcVal := strtoul16 bc.1
      let v2 := skipSpace1 bc.2
      if bcVal ≠ 0 then
        { edid_supported := 1, edid_block_count := bcVal,
          edid_payload := some (decodeEdidPayload v2 (128 * bcVal)) }
      else
        { edid_supported := 1, edid_block_count := 0, edid_payload := none }

/-- `wfd_presentation_URL` branch: two string tokens. -/
def parsePresentationUrl (v : List Nat) : GstWFDPresentationUrl :=
  if v.length = 0 then { wfd_url0 := none, wfd_url1 := none }
  else
    let v1 := skipSpace1 v
    let u0 := readToken v1
    let v2 := skipSpace1 u0.2
    let u1 := readToken v2
    { wfd_url0 := some u0.1, wfd_url1 := some u1.1 }

/-- `wfd_client_rtp_ports` branch: profile string, two decimal ports,
mode string. -/
def parseClientRtpPorts (v : List Nat) : GstWFDClientRtpPorts :=
  if v.length = 0 then
    { profile := none, rtp_port0 := 0, rtp_port1 := 0, mode := none }
  else
    let v1 := skipSpace1 v
    let prof := readToken v1
    let v2 := skipSpace1 prof.2
    let p0 := readToken v2
    let v3 := skipSpace1 p0.2
    let p1 := readToken v3
    let v4 := skipSpace1 p1.2
    let md := readToken v4
    { profile := some prof.1, rtp_port0 := strtoul10 p0.1,
      rtp_port1 := strtoul10 p1.1, mode := some md.1 }

/-- `wfd_av_format_change_timing` branch: two hex fields. -/
def parseAvFormatChangeTiming (v : List Nat) : GstWFDAVFormatChangeTiming :=
  if v.length = 0 then { PTS := 0, DTS := 0 }
  else
    let v1 := skipSpace1 v
    let pts := readToken v1
    let v2 := skipSpace1 pts.2
    let dts := readToken v2
    { PTS := strtoul16 pts.1, DTS := strtoul16 dts.1 }

/-- `gst_wfd_parse_attribute` on the embedded fragment: split the line
at the first `:` and dispatch on the attribute name; unrecognized
attributes leave the message unchanged.  (When a line has no `:` the C
code reads stale bytes of its line buffer as the value; every line of
the embedded fragment contains a `:`, so the value is modelled as
empty there.) -/
def gst_wfd_parse_attribute (line : List Nat) (msg : GstWFDMessage) :
    GstWFDMessage :=
  let attr := line.takeWhile (fun c => c ≠ 58)
  let rest := line.drop attr.length
  let value := rest.drop 1
  if attr = strBytes "wfd_audio_codecs" then
    { msg with audio_codecs := some (parseAudioCodecs value) }
  else if attr = strBytes "wfd_video_formats" then
    { msg with video_formats := some (parseVideoFormats value) }
  else if attr = strBytes "wfd_content_protection" then
    { msg with content_protection := some (parseContentProtection value) }
  else if attr = strBytes "wfd_display_edid" then
    { msg with display_edid := some (parseDisplayEdid value) }
  else if attr = strBytes "wfd_presentation_URL" then
    { msg with presentation_url := some (parsePresentationUrl value) }
  else if attr = strBytes "wfd_client_rtp_ports" then
    { msg with client_rtp_ports := some (parseClientRtpPorts value) }
  else if attr = strBytes "wfd_av_format_change_timing" then
    { msg with av_format_change_timing := some (parseAvFormatChangeTiming value) }
  else msg

/-- Byte `c` ends a line of `gst_wfd_message_parse_buffer`. -/
def isLineEnd (c : Nat) : Bool := c = 10 || c = 13 || c = 0

/-- Dropping a prefix never lengthens a list (termination helper). -/
theorem length_dropWhile_le_self (p : Nat → Bool) (l : List Nat) :
    (l.dropWhile p).length ≤ l.length := by
  induction l with
  | nil => simp [List.dropWhile]
  | cons a rest ih =>
    by_cases h : p a
    · simp only [List.dropWhile, h]
      exact Nat.le_succ_of_le ih
    · simp [List.dropWhile, h]

/-- Line splitting of `gst_wfd_message_parse_buffer` with explicit fuel
(the remaining buffer shrinks by at least two per line, so the buffer
length always suffices as fuel): each line is copied into a 255-byte
buffer (so truncated to 254 characters), the loop stops at a NUL and
otherwise jumps two characters past the line (the CRLF). -/
def parseBufferLinesGo : Nat → List Nat → List (List Nat)
  | _, [] => []
  | 0, _ :: _ => []
  | fuel + 1, d :: ds =>
    let data := d :: ds
    let line := (data.takeWhile (fun c => !isLineEnd c)).take 254
    let rest := data.dropWhile (fun c => !isLineEnd c)
    match rest with
    | [] => [line]
    | 0 :: _ => [line]
    | _ :: [] => [line]
    | _ :: _ :: rest2 => line :: parseBufferLinesGo fuel rest2

/-- Line splitting of `gst_wfd_message_parse_buffer`. -/
def parseBufferLines (data : List Nat) : List (List Nat) :=
  parseBufferLinesGo data.length data

/-- `gst_wfd_message_parse_buffer`: parse every line into a fresh
message. -/
def gst_wfd_message_parse_buffer (data : List Nat) : GstWFDMessage :=
  (parseBufferLines data).foldl (fun m l => gst_wfd_parse_attribute l m)
    gst_wfd_message_new

/-! # Negotiation (`rtsp-client-wfd.c`) -/

/-- Loop of `wfd_get_prefered_audio_codec`: `i` from 0 while `i < 8`
(the fuel argument counts the remaining iterations, `8 - i`), testing
bit 7 of `sink << i` and `src << i`, i.e. bit `7 - i` of each mask, and
returning `1 << (7 - i)` at the first hit. -/
def prefAudioLoop (srcAudioCodec sinkAudioCodec : Nat) :
    Nat → Nat → Nat
  | 0, _ => 0
  | fuel + 1, i =>
    if (sinkAudioCodec <<< i) &&& 128 ≠ 0 ∧ (srcAudioCodec <<< i) &&& 128 ≠ 0
    then 1 <<< (7 - i)
    else prefAudioLoop srcAudioCodec sinkAudioCodec fuel (i + 1)

/-- `wfd_get_prefered_audio_codec`: the highest bit (among bits 7..0)
set in both masks. -/
def wfd_get_prefered_audio_codec (srcAudioCodec sinkAudioCodec : Nat) :
    Nat :=
  prefAudioLoop srcAudioCodec sinkAudioCodec 8 0

/-- Loop of `wfd_get_prefered_resolution`: `i` from 0 while `i < 32`
(the fuel argument counts the remaining iterations, `32 - i`), testing
bit 31 of `sink << i` and `src << i`, returning `1 << (31 - i)` at the
first hit. -/
def prefResolutionLoop (srcResolution sinkResolution : Nat) :
    Nat → Nat → Nat
  | 0, _ => 0
  | fuel + 1, i =>
    if (sinkResolution <<< i) &&& 2147483648 ≠ 0 ∧
        (srcResolution <<< i) &&& 2147483648 ≠ 0
    then 1 <<< (31 - i)
    else prefResolutionLoop srcResolution sinkResolution fuel (i + 1)

/-- Width/height/framerate/interleave tuple written through the out
parameters of `wfd_get_prefered_resolution`. -/
structure ResolutionInfo where
  cMaxWidth : Nat
  cMaxHeight : Nat
  cFramerate : Nat
  interleaved : Nat
deriving Repr, DecidableEq

/-- CEA branch of the resolution switch. -/
def ceaInfo (resolution : Nat) : ResolutionInfo :=
  if resolution = GST_WFD_CEA_640x480P60 then ⟨640, 480, 60, 0⟩
  else if resolution = GST_WFD_CEA_720x480P60 then ⟨720, 480, 60, 0⟩
  else if resolution = GST_WFD_CEA_720x480I60 then ⟨720, 480, 60, 1⟩
  else if resolution = GST_WFD_CEA_720x576P50 then ⟨720, 576, 50, 0⟩
  else if resolution = GST_WFD_CEA_720x576I50 then ⟨720, 576, 50, 1⟩
  else if resolution = GST_WFD_CEA_1280x720P30 then ⟨1280, 720, 30, 0⟩
  else if resolution = GST_WFD_CEA_1280x720P60 then ⟨1280, 720, 60, 0⟩
  else if resolution = GST_WFD_CEA_1920x1080P30 then ⟨1920, 1080, 30, 0⟩
  else if resolution = GST_WFD_CEA_1920x1080P60 then ⟨1920, 1080, 60, 0⟩
  else if resolution = GST_WFD_CEA_1920x1080I60 then ⟨1920, 1080, 60, 1⟩
  else if resolution = GST_WFD_CEA_1280x720P25 then ⟨1280, 720, 25, 0⟩
  else if resolution = GST_WFD_CEA_1280x720P50 then ⟨1280, 720, 50, 0⟩
  else if resolution = GST_WFD_CEA_1920x1080P25 then ⟨1920, 1080, 25, 0⟩
  else if resolution = GST_WFD_CEA_1920x1080P50 then ⟨1920, 1080, 50, 0⟩
  else if resolution = GST_WFD_CEA_1920x1080I50 then ⟨1920, 1080, 50, 1⟩
  else if resolution = GST_WFD_CEA_1280x720P24 then ⟨1280, 720, 24, 0⟩
  else if resolution = GST_WFD_CEA_1920x1080P24 then ⟨1920, 1080, 24, 0⟩
  else ⟨0, 0, 0, 0⟩

/-- VESA branch of the resolution switch. -/
def vesaInfo (resolution : Nat) : ResolutionInfo :=
  if resolution = GST_WFD_VESA_800x600P30 then ⟨800, 600, 30, 0⟩
  else if resolution = GST_WFD_VESA_800x600P60 then ⟨800, 600, 60, 0⟩
  else if resolution = GST_WFD_VESA_1024x768P30 then ⟨1024, 768, 30, 0⟩
  else if resolution = GST_WFD_VESA_1024x768P60 then ⟨1024, 768, 60, 0⟩
  else if resolution = GST_WFD_VESA_1152x864P30 then ⟨1152, 864, 30, 0⟩
  else if resolution = GST_WFD_VESA_1152x864P60 then ⟨1152, 864, 60, 0⟩
  else if resolution = GST_WFD_VESA_1280x768P30 then ⟨1280, 768, 30, 0⟩
  else if resolution = GST_WFD_VESA_1280x768P60 then ⟨1280, 768, 60, 0⟩
  else if resolution = GST_WFD_VESA_1280x800P30 then ⟨1280, 800, 30, 0⟩
  else if resolution = GST_WFD_VESA_1280x800P60 then ⟨1280, 800, 60, 0⟩
  else if resolution = GST_WFD_VESA_1360x768P30 then ⟨1360, 768, 30, 0⟩
  else if resolution = GST_WFD_VESA_1360x768P60 then ⟨1360, 768, 60, 0⟩
  else if resolution = GST_WFD_VESA_1366x768P30 then ⟨1366, 768, 30, 0⟩
  else if resolution = GST_WFD_VESA_1366x768P60 then ⟨1366, 768, 60, 0⟩
  else if resolution = GST_WFD_VESA_1280x1024P30 then ⟨1280, 1024, 30, 0⟩
  else if resolution = GST_WFD_VESA_1280x1024P60 then ⟨1280, 1024, 60, 0⟩
  else if resolution = GST_WFD_VESA_1400x1050P30 then ⟨1400, 1050, 30, 0⟩
  else if resolution = GST_WFD_VESA_1400x1050P60 then ⟨1400, 1050, 60, 0⟩
  else if resolution = GST_WFD_VESA_1440x900P30 then ⟨1440, 900, 30, 0⟩
  else if resolution = GST_WFD_VESA_1440x900P60 then ⟨1440, 900, 60, 0⟩
  else if resolution = GST_WFD_VESA_1600x900P30 then ⟨1600, 900, 30, 0⟩
  else if resolution = GST_WFD_VESA_1600x900P60 then ⟨1600, 900, 60, 0⟩
  else if resolution = GST_WFD_VESA_1600x1200P30 then ⟨1600, 1200, 30, 0⟩
  else if resolution = GST_WFD_VESA_1600x1200P60 then ⟨1600, 1200, 60, 0⟩
  else if resolution = GST_WFD_VESA_1680x1024P30 then ⟨1680, 1024, 30, 0⟩
  else if resolution = GST_WFD_VESA_1680x1024P60 then ⟨1680, 1024, 60, 0⟩
  else if resolution = GST_WFD_VESA_1680x1050P30 then ⟨1680, 1050, 30, 0⟩
  else if resolution = GST_WFD_VESA_1680x1050P60 then ⟨1680, 1050, 60, 0⟩
  else if resolution = GST_WFD_VESA_1920x1200P30 then ⟨1920, 1200, 30, 0⟩
  else if resolution = GST_WFD_VESA_1920x1200P60 then ⟨1920, 1200, 60, 0⟩
  else ⟨0, 0, 0, 0⟩

/-- HH branch of the resolution switch. -/
def hhInfo (resolution : Nat) : ResolutionInfo :=
  if resolution = GST_WFD_HH_800x480P30 then ⟨800, 480, 30, 0⟩
  else if resolution = GST_WFD_HH_800x480P60 then ⟨800, 480, 60, 0⟩
  else if resolution = GST_WFD_HH_854x480P30 then ⟨854, 480, 30, 0⟩
  else if resolution = GST_WFD_HH_854x480P60 then ⟨854, 480, 60, 0⟩
  else if resolution = GST_WFD_HH_864x480P30 then ⟨864, 480, 30, 0⟩
  else if resolution = GST_WFD_HH_864x480P60 then ⟨864, 480, 60, 0⟩
  else if resolution = GST_WFD_HH_640x360P30 then ⟨640, 360, 30, 0⟩
  else if resolution = GST_WFD_HH_640x360P60 then ⟨640, 360, 60, 0⟩
  else if resolution = GST_WFD_HH_960x540P30 then ⟨960, 540, 30, 0⟩
  else if resolution = GST_WFD_HH_960x540P60 then ⟨960, 540, 60, 0⟩
  else if resolution = GST_WFD_HH_848x480P30 then ⟨848, 480, 30, 0⟩
  else if resolution = GST_WFD_HH_848x480P60 then ⟨848, 480, 60, 0⟩
  else ⟨0, 0, 0, 0⟩

/-- `wfd_get_prefered_resolution`: MSB-first common bit of the two
32-bit masks, mapped to mode data through the family's table (unknown
values, in particular 0, map to all-zero). -/
def wfd_get_prefered_resolution (srcResolution sinkResolution native :
    Nat) : Nat × ResolutionInfo :=
  let resolution := prefResolutionLoop srcResolution sinkResolution 32 0
  let info :=
    if native = GST_WFD_VIDEO_CEA_RESOLUTION then ceaInfo resolution
    else if native = GST_WFD_VIDEO_VESA_RESOLUTION then vesaInfo resolution
    else if native = GST_WFD_VIDEO_HH_RESOLUTION then hhInfo resolution
    else ⟨0, 0, 0, 0⟩
  (resolution, info)

/-- Session fields of `GstRTSPWFDClientPrivate` that the M4 body
construction reads and writes. -/
structure WFDClientPriv where
  audio_codec : Nat
  caCodec : Nat
  cFreq : Nat
  cChanels : Nat
  cBitwidth : Nat
  caLatency : Nat
  video_native_resolution : Nat
  video_resolution_supported : Nat
  cCEAResolution : Nat
  cVESAResolution : Nat
  cHHResolution : Nat
  cvCodec : Nat
  cProfile : Nat
  cLevel : Nat
  cMaxWidth : Nat
  cMaxHeight : Nat
  cFramerate : Nat
  cInterleaved : Nat
  cvLatency : Nat
  cmin_slice_size : Nat
  cslice_enc_params : Nat
  cframe_rate_control : Nat
  crtp_port0 : Nat
  crtp_port1 : Nat
  host_address : Option (List Nat)
deriving Repr, DecidableEq

/-- Audio negotiation of the M4 branch of `_set_wfd_message_body`
(lines 1602-1628): codec by `wfd_get_prefered_audio_codec`, frequency
preferring 48000 then 44100, channels clamped to 2; the negotiated
values are stored back into the session. -/
def negotiateM4Audio (priv : WFDClientPriv) : WFDClientPriv × Nat × Nat × Nat :=
  let taudiocodec := wfd_get_prefered_audio_codec priv.audio_codec priv.caCodec
  let taudiofreq :=
    if priv.cFreq &&& GST_WFD_FREQ_48000 ≠ 0 then GST_WFD_FREQ_48000
    else if priv.cFreq &&& GST_WFD_FREQ_44100 ≠ 0 then GST_WFD_FREQ_44100
    else 0
  let taudiochannels :=
    if priv.cChanels &&& GST_WFD_CHANNEL_8 ≠ 0 then GST_WFD_CHANNEL_2
    else if priv.cChanels &&& GST_WFD_CHANNEL_6 ≠ 0 then GST_WFD_CHANNEL_2
    else if priv.cChanels &&& GST_WFD_CHANNEL_4 ≠ 0 then GST_WFD_CHANNEL_2
    else if priv.cChanels &&& GST_WFD_CHANNEL_2 ≠ 0 then GST_WFD_CHANNEL_2
    else 0
  ({ priv with
      caCodec := taudiocodec
      cFreq := taudiofreq
      cChanels := taudiochannels }, taudiocodec, taudiofreq, taudiochannels)

/-- Video negotiation of the M4 branch (lines 1634-1677): the family
selected by `video_native_resolution` is intersected with the source
mask; the other two family masks stay `UNKNOWN` (0); outside the three
known families nothing is negotiated and the session's current values
remain. -/
def negotiateM4Video (priv : WFDClientPriv) :
    WFDClientPriv × Nat × Nat × Nat :=
  let rs := priv.video_resolution_supported
  if priv.video_native_resolution = GST_WFD_VIDEO_CEA_RESOLUTION then
    let r := wfd_get_prefered_resolution rs priv.cCEAResolution
      priv.video_native_resolution
    ({ priv with
        cMaxWidth := r.2.cMaxWidth
        cMaxHeight := r.2.cMaxHeight
        cFramerate := r.2.cFramerate
        cInterleaved := r.2.interleaved }, r.1, 0, 0)
  else if priv.video_native_resolution = GST_WFD_VIDEO_VESA_RESOLUTION then
    let r := wfd_get_prefered_resolution rs priv.cVESAResolution
      priv.video_native_resolution
    ({ priv with
        cMaxWidth := r.2.cMaxWidth
        cMaxHeight := r.2.cMaxHeight
        cFramerate := r.2.cFramerate
        cInterleaved := r.2.interleaved }, 0, r.1, 0)
  else if priv.video_native_resolution = GST_WFD_VIDEO_HH_RESOLUTION then
    let r := wfd_get_prefered_resolution rs priv.cHHResolution
      priv.video_native_resolution
    ({ priv with
        cMaxWidth := r.2.cMaxWidth
        cMaxHeight := r.2.cMaxHeight
        cFramerate := r.2.cFramerate
        cInterleaved := r.2.interleaved }, 0, 0, r.1)
  else (priv, 0, 0, 0)

/-- M4 branch of `_set_wfd_message_body`: negotiate audio and video and
build the M4 `SET_PARAMETER` message; `none` models the error exit
taken when the host address is missing.  There is no failure path for
an empty capability intersection: the zero codec and zero resolution
flow into the message. -/
def set_wfd_message_body_M4 (priv : WFDClientPriv) :
    Option (WFDClientPriv × GstWFDMessage) :=
  match priv.host_address with
  | none => none
  | some host =>
    let url := strBytes "rtsp://" ++ host ++ strBytes "/wfd1.0/streamid=0"
    let msg0 := gst_wfd_message_set_presentation_url gst_wfd_message_new
      (some url) none
    let a := negotiateM4Audio priv
    let priv1 := a.1
    let msg1 := gst_wfd_message_set_prefered_audio_format msg0 a.2.1 a.2.2.1
      a.2.2.2 priv1.cBitwidth priv1.caLatency
    let priv2 := { priv1 with
      cvCodec := GST_WFD_VIDEO_H264
      cProfile := GST_WFD_H264_BASE_PROFILE
      cLevel := GST_WFD_H264_LEVEL_3_1 }
    let v := negotiateM4Video priv2
    let priv3 := v.1
    let msg2 := gst_wfd_message_set_prefered_video_format msg1 priv3.cvCodec
      priv3.video_native_resolution 0 v.2.1 v.2.2.1 v.2.2.2
      GST_WFD_H264_BASE_PROFILE GST_WFD_H264_LEVEL_3_1 priv3.cvLatency
      priv3.cMaxWidth priv3.cMaxHeight priv3.cmin_slice_size
      priv3.cslice_enc_params priv3.cframe_rate_control
    let msg3 := gst_wfd_messge_set_prefered_rtp_ports msg2
      GST_WFD_RTSP_TRANS_RTP GST_WFD_RTSP_PROFILE_AVP
      GST_WFD_RTSP_LOWER_TRANS_UDP priv3.crtp_port0 priv3.crtp_port1
    some (priv3, msg3)

/-- Bit-7 test of the audio scan: `x & 0x80` is nonzero exactly when
bit 7 of `x` is set. -/
theorem and128_ne_zero_iff (x : Nat) : x &&& 128 ≠ 0 ↔ x.testBit 7 = true := by
  have h : x &&& 128 = (x.testBit 7).toNat * 128 := by
    have h2 := Nat.and_two_pow x 7
    norm_num at h2
    exact h2
  rw [h]
  cases hx : x.testBit 7 <;> simp

/-- Bit-31 test of the resolution scan. -/
theorem and2pow31_ne_zero_iff (x : Nat) :
    x &&& 2147483648 ≠ 0 ↔ x.testBit 31 = true := by
  have h : x &&& 2147483648 = (x.testBit 31).toNat * 2147483648 := by
    have h2 := Nat.and_two_pow x 31
    norm_num at h2
    exact h2
  rw [h]
  cases hx : x.testBit 31 <;> simp

/-- With an empty mask intersection no iteration of the audio scan can
fire, so the negotiated codec is 0. -/
theorem prefAudioLoop_eq_zero (S K : Nat) (h : S &&& K = 0) :
    ∀ fuel i, prefAudioLoop S K fuel i = 0 := by
  intro fuel
  induction fuel with
  | zero => intro i; rfl
  | succ fuel ih =>
    intro i
    have hcond : ¬((K <<< i) &&& 128 ≠ 0 ∧ (S <<< i) &&& 128 ≠ 0) := by
      rintro ⟨hK, hS⟩
      rw [and128_ne_zero_iff, Nat.testBit_shiftLeft] at hK hS
      have h7 : 7 ≥ i := by
        by_contra h7
        simp [h7] at hK
      have hKb : K.testBit (7 - i) = true := by simpa [h7] using hK
      have hSb : S.testBit (7 - i) = true := by simpa [h7] using hS
      have hb : (S &&& K).testBit (7 - i) = true := by
        rw [Nat.testBit_and, hSb, hKb]
        rfl
      rw [h] at hb
      simp [Nat.zero_testBit] at hb
    show (if (K <<< i) &&& 128 ≠ 0 ∧ (S <<< i) &&& 128 ≠ 0
      then 1 <<< (7 - i) else prefAudioLoop S K fuel (i + 1)) = 0
    rw [if_neg hcond]
    exact ih (i + 1)

/-- `wfd_get_prefered_audio_codec` of disjoint masks is 0. -/
theorem wfd_get_prefered_audio_codec_zero (S K : Nat) (h : S &&& K = 0) :
    wfd_get_prefered_audio_codec S K = 0 :=
  prefAudioLoop_eq_zero S K h 8 0

/-- With an empty mask intersection no iteration of the resolution scan
can fire. -/
theorem prefResolutionLoop_eq_zero (S K : Nat) (h : S &&& K = 0) :
    ∀ fuel i, prefResolutionLoop S K fuel i = 0 := by
  intro fuel
  induction fuel with
  | zero => intro i; rfl
  | succ fuel ih =>
    intro i
    have hcond : ¬((K <<< i) &&& 2147483648 ≠ 0 ∧
        (S <<< i) &&& 2147483648 ≠ 0) := by
      rintro ⟨hK, hS⟩
      rw [and2pow31_ne_zero_iff, Nat.testBit_shiftLeft] at hK hS
      have h31 : 31 ≥ i := by
        by_contra h31
        simp [h31] at hK
      have hKb : K.testBit (31 - i) = true := by simpa [h31] using hK
      have hSb : S.testBit (31 - i) = true := by simpa [h31] using hS
      have hb : (S &&& K).testBit (31 - i) = true := by
        rw [Nat.testBit_and, hSb, hKb]
        rfl
      rw [h] at hb
      simp [Nat.zero_testBit] at hb
    show (if (K <<< i) &&& 2147483648 ≠ 0 ∧ (S <<< i) &&& 2147483648 ≠ 0
      then 1 <<< (31 - i) else prefResolutionLoop S K fuel (i + 1)) = 0
    rw [if_neg hcond]
    exact ih (i + 1)

/-- The video negotiation writes only the mode fields: the session's
negotiated audio codec passes through every branch. -/
theorem negotiateM4Video_caCodec (p : WFDClientPriv) :
    (negotiateM4Video p).1.caCodec = p.caCodec := by
  unfold negotiateM4Video
  split_ifs <;> rfl

/-- Session state used by the concrete negotiation theorems: source
prefers LPCM|AAC and the sink offers LPCM|AAC too, CEA family with a
common 640x480p60 bit. -/
def privBothLPCMAAC : WFDClientPriv :=
  { audio_codec := 3, caCodec := 3, cFreq := 3, cChanels := 1,
    cBitwidth := 16, caLatency := 0, video_native_resolution := 0,
    video_resolution_supported := 1, cCEAResolution := 1,
    cVESAResolution := 0, cHHResolution := 0, cvCodec := 0, cProfile := 0,
    cLevel := 0, cMaxWidth := 0, cMaxHeight := 0, cFramerate := 0,
    cInterleaved := 0, cvLatency := 0, cmin_slice_size := 0,
    cslice_enc_params := 0, cframe_rate_control := 0, crtp_port0 := 19000,
    crtp_port1 := 0, host_address := some (strBytes "10.0.0.9") }

/-- Session state with empty audio and CEA intersections: source LPCM
only vs sink AAC only, source CEA bit 0 vs sink CEA bit 1. -/
def privDisjoint : WFDClientPriv :=
  { privBothLPCMAAC with audio_codec := 1, caCodec := 2, cCEAResolution := 2 }

/-- C1 counterexample: with both sides supporting LPCM and AAC
(`S = K = 3`), the claim's priority order LPCM > AAC > AC3 demands
LPCM (1); building M4 negotiates AAC (2) instead, because the scan runs
from bit 7 downward and so prefers the numerically highest common
bit. -/
theorem audio_codec_priority_counterexample :
    (set_wfd_message_body_M4 privBothLPCMAAC).map (fun r => r.1.caCodec) =
        some GST_WFD_AUDIO_AAC ∧
      privBothLPCMAAC.audio_codec &&& privBothLPCMAAC.caCodec &&&
          GST_WFD_AUDIO_LPCM ≠ 0 ∧
      GST_WFD_AUDIO_AAC ≠ GST_WFD_AUDIO_LPCM := by decide

/-- C1 (amended): for audio masks over {LPCM, AAC, AC3} with a nonempty
intersection, the codec negotiated while building M4 is the
highest-valued bit of `S & K`, i.e. the priority order is
AC3 > AAC > LPCM (AC3 whenever both sides support it, then AAC, last
LPCM) - the reverse of the claimed order. -/
theorem audio_codec_negotiation_highest_bit (S K : Nat) (hS : S < 8)
    (hK : K < 8) (hne : S &&& K ≠ 0) :
    wfd_get_prefered_audio_codec S K =
      (if S &&& K &&& GST_WFD_AUDIO_AC3 ≠ 0 then GST_WFD_AUDIO_AC3
       else if S &&& K &&& GST_WFD_AUDIO_AAC ≠ 0 then GST_WFD_AUDIO_AAC
       else GST_WFD_AUDIO_LPCM) := by
  interval_cases S <;> interval_cases K <;>
    first
      | exact absurd (by decide) hne
      | decide

/-- Witness for the amended C1 theorem at `S = 7`, `K = 5` (both sides
support AC3, so AC3 wins). -/
theorem audio_codec_negotiation_highest_bit_witness :
    (7 : Nat) < 8 ∧ (5 : Nat) < 8 ∧ (7 : Nat) &&& 5 ≠ 0 ∧
      wfd_get_prefered_audio_codec 7 5 =
        (if 7 &&& 5 &&& GST_WFD_AUDIO_AC3 ≠ 0 then GST_WFD_AUDIO_AC3
         else if 7 &&& 5 &&& GST_WFD_AUDIO_AAC ≠ 0 then GST_WFD_AUDIO_AAC
         else GST_WFD_AUDIO_LPCM) :=
  ⟨by decide, by decide, by decide,
    audio_codec_negotiation_highest_bit 7 5 (by decide) (by decide)
      (by decide)⟩

/-- C2 counterexample: with `S & K = 0` for the audio masks and
disjoint CEA masks, the M4 body is still built (no
NegotiationFailure); the session stores codec 0 and resolution 0x0 and
proceeds to serialize the message. -/
theorem negotiation_failure_counterexample :
    privDisjoint.audio_codec &&& privDisjoint.caCodec = 0 ∧
      privDisjoint.video_resolution_supported &&&
          privDisjoint.cCEAResolution = 0 ∧
      (set_wfd_message_body_M4 privDisjoint).isSome = true ∧
      (set_wfd_message_body_M4 privDisjoint).map
          (fun r => (r.1.caCodec, r.1.cMaxWidth, r.1.cMaxHeight)) =
        some (GST_WFD_AUDIO_UNKNOWN, 0, 0) := by decide

/-- C2 (amended): building the M4 body never fails once the host
address is known, whichever capability intersection is empty: an empty
audio intersection alone records codec 0, and an empty resolution
intersection of whichever native family is chosen (CEA, VESA or HH)
alone records resolution 0x0; the message is built and sent with those
parameters, with no NegotiationFailure of any kind. -/
theorem empty_intersection_still_builds_M4 (priv : WFDClientPriv)
    (host : List Nat) (hh : priv.host_address = some host) :
    (set_wfd_message_body_M4 priv).isSome = true ∧
      (priv.audio_codec &&& priv.caCodec = 0 →
        (set_wfd_message_body_M4 priv).map (fun r => r.1.caCodec) =
          some GST_WFD_AUDIO_UNKNOWN) ∧
      ((priv.video_native_resolution = GST_WFD_VIDEO_CEA_RESOLUTION ∧
          priv.video_resolution_supported &&& priv.cCEAResolution = 0) ∨
        (priv.video_native_resolution = GST_WFD_VIDEO_VESA_RESOLUTION ∧
          priv.video_resolution_supported &&& priv.cVESAResolution = 0) ∨
        (priv.video_native_resolution = GST_WFD_VIDEO_HH_RESOLUTION ∧
          priv.video_resolution_supported &&& priv.cHHResolution = 0) →
        (set_wfd_message_body_M4 priv).map
            (fun r => (r.1.cMaxWidth, r.1.cMaxHeight)) = some (0, 0)) := by
  unfold set_wfd_message_body_M4
  rw [hh]
  refine ⟨rfl, ?_, ?_⟩
  · intro ha
    have hac : wfd_get_prefered_audio_codec priv.audio_codec priv.caCodec =
        0 := wfd_get_prefered_audio_codec_zero _ _ ha
    simp only [Option.map_some]
    simp [negotiateM4Audio, hac, GST_WFD_AUDIO_UNKNOWN,
      negotiateM4Video_caCodec]
  · intro hv
    have hcea : ceaInfo 0 = ⟨0, 0, 0, 0⟩ := by decide
    have hvesa : vesaInfo 0 = ⟨0, 0, 0, 0⟩ := by decide
    have hhh : hhInfo 0 = ⟨0, 0, 0, 0⟩ := by decide
    rcases hv with ⟨hn, hm⟩ | ⟨hn, hm⟩ | ⟨hn, hm⟩ <;>
      (have hres := prefResolutionLoop_eq_zero _ _ hm 32 0
       simp only [Option.map_some]
       simp [negotiateM4Video, negotiateM4Audio, hn,
         wfd_get_prefered_resolution, GST_WFD_VIDEO_CEA_RESOLUTION,
         GST_WFD_VIDEO_VESA_RESOLUTION, GST_WFD_VIDEO_HH_RESOLUTION,
         hres, hcea, hvesa, hhh])

/-- Witness for the amended C2 theorem at the concrete disjoint
session (CEA family, both intersections empty, so both implications
fire). -/
theorem empty_intersection_still_builds_M4_witness :
    privDisjoint.host_address = some (strBytes "10.0.0.9") ∧
      ((set_wfd_message_body_M4 privDisjoint).isSome = true ∧
        (privDisjoint.audio_codec &&& privDisjoint.caCodec = 0 →
          (set_wfd_message_body_M4 privDisjoint).map
              (fun r => r.1.caCodec) = some GST_WFD_AUDIO_UNKNOWN) ∧
        ((privDisjoint.video_native_resolution =
              GST_WFD_VIDEO_CEA_RESOLUTION ∧
            privDisjoint.video_resolution_supported &&&
              privDisjoint.cCEAResolution = 0) ∨
          (privDisjoint.video_native_resolution =
              GST_WFD_VIDEO_VESA_RESOLUTION ∧
            privDisjoint.video_resolution_supported &&&
              privDisjoint.cVESAResolution = 0) ∨
          (privDisjoint.video_native_resolution =
              GST_WFD_VIDEO_HH_RESOLUTION ∧
            privDisjoint.video_resolution_supported &&&
              privDisjoint.cHHResolution = 0) →
          (set_wfd_message_body_M4 privDisjoint).map
              (fun r => (r.1.cMaxWidth, r.1.cMaxHeight)) =
            some (0, 0))) :=
  ⟨by decide,
    empty_intersection_still_builds_M4 privDisjoint (strBytes "10.0.0.9")
      (by decide)⟩

/-! # Keep-alive machinery (`rtsp-client-wfd.c`)

Per-session keep-alive state as the sources manipulate it:
`keep_alive_flag` (true means the response to the last M16 has been
observed), the number of scheduled-but-unfired 5-second response
checks, and whether the `wfd_keep_alive_fail` signal was emitted.  All
three callbacks run on the same dispatcher, so the behaviour is a
sequence of atomic events: a keep-alive cycle (`keep_alive_condition`,
every `DEFAULT_WFD_TIMEOUT - 5` seconds: arm a check if the flag is
still down, send M16, lower the flag), an incoming empty-body response
after M1/M4 (`handle_wfd_response`: raise the flag), and the firing of
an armed check five seconds after its cycle
(`wfd_ckeck_keep_alive_response`: emit the failure signal unless the
flag is up). -/

structure KeepAliveState where
  keep_alive_flag : Bool
  checks_pending : Nat
  failed : Bool
deriving Repr, DecidableEq

/-- The initial keep-alive state (`priv->keep_alive_flag = FALSE` in
`gst_rtsp_wfd_client_init`, no timers, no failure). -/
def keepAliveInit : KeepAliveState :=
  { keep_alive_flag := false, checks_pending := 0, failed := false }

inductive KAEvent where
  | cycle
  | response
  | checkFire
deriving Repr, DecidableEq

/-- One dispatcher event.  `cycle` is `keep_alive_condition` with a
successful M16 send; `response` is the keep-alive branch of
`handle_wfd_response`; `checkFire` is `wfd_ckeck_keep_alive_response`
(a no-op if no check is armed). -/
def kaStep (s : KeepAliveState) : KAEvent → KeepAliveState
  | .cycle =>
    let s1 :=
      if !s.keep_alive_flag then
        { s with checks_pending := s.checks_pending + 1 }
      else s
    { s1 with keep_alive_flag := false }
  | .response =>
    if s.keep_alive_flag = false then { s with keep_alive_flag := true }
    else s
  | .checkFire =>
    if s.checks_pending > 0 then
      if s.keep_alive_flag then
        { s with checks_pending := s.checks_pending - 1 }
      else
        { s with checks_pending := s.checks_pending - 1, failed := true }
    else s

/-- Running a sequence of dispatcher events. -/
def kaRun (s : KeepAliveState) (evs : List KAEvent) : KeepAliveState :=
  evs.foldl kaStep s

/-- The event trace refuting C4: cycle 1 (M16 number 1, check armed
since the flag starts down), its response, the armed check (passes);
cycle 2 (M16 number 2) whose response never arrives; cycle 3 (M16
number 3, check armed because the flag is still down), a response
within its 5-second window, the check (passes). -/
def kaTraceLostResponse : List KAEvent :=
  [.cycle, .response, .checkFire, .cycle, .cycle, .response, .checkFire]

/-- C4 counterexample: in `kaTraceLostResponse` the M16 of the second
cycle (event index 3) gets no response before the next M16 send (event
index 4) - and none ever - yet no keep-alive-fail is emitted, because
`keep_alive_condition` arms the 5-second check only when a cycle starts
with the flag still down, and the third cycle's response arrives within
that window.  The claim ("if no response to that M16 has been observed
five seconds after that send, the keep-alive-fail event is emitted" /
"between two consecutive M16 sends exactly one response must be
observed or the failure event fires") is therefore false. -/
theorem keepalive_lost_response_counterexample :
    kaTraceLostResponse.get? 3 = some KAEvent.cycle ∧
      kaTraceLostResponse.get? 4 = some KAEvent.cycle ∧
      (kaRun keepAliveInit kaTraceLostResponse).failed = false := by decide

/-- C4 (amended): from any quiescent state (no armed check, no failure
emitted yet), a keep-alive cycle arms the 5-second check exactly when
the previous M16 is still unanswered; when a check was armed,
keep-alive-fail fires at the check iff no response arrived between the
new M16 send and the check; a cycle that starts with the response
already observed arms nothing, so a later silent loss stays undetected
until the following cycle. -/
theorem keepalive_check_mechanism (s : KeepAliveState)
    (hq : s.checks_pending = 0) (hf : s.failed = false) :
    (s.keep_alive_flag = false →
        (kaRun s [KAEvent.cycle, KAEvent.checkFire]).failed = true) ∧
      (s.keep_alive_flag = false →
        (kaRun s [KAEvent.cycle, KAEvent.response, KAEvent.checkFire]).failed
          = false) ∧
      (s.keep_alive_flag = true →
        (kaRun s [KAEvent.cycle, KAEvent.checkFire]).failed = false) := by
  obtain ⟨flag, pending, failed⟩ := s
  simp only at hq hf
  subst hq hf
  cases flag <;> simp [kaRun, kaStep, List.foldl]

/-- Witness for the amended C4 theorem at the initial state. -/
theorem keepalive_check_mechanism_witness :
    keepAliveInit.checks_pending = 0 ∧ keepAliveInit.failed = false ∧
      ((keepAliveInit.keep_alive_flag = false →
          (kaRun keepAliveInit [KAEvent.cycle, KAEvent.checkFire]).failed
            = true) ∧
        (keepAliveInit.keep_alive_flag = false →
          (kaRun keepAliveInit
              [KAEvent.cycle, KAEvent.response, KAEvent.checkFire]).failed
            = false) ∧
        (keepAliveInit.keep_alive_flag = true →
          (kaRun keepAliveInit [KAEvent.cycle, KAEvent.checkFire]).failed
            = false)) :=
  ⟨rfl, rfl, keepalive_check_mechanism keepAliveInit rfl rfl⟩

/-! # SET_PARAMETER request handling (`handle_wfd_set_param_request`) -/

/-- Observable outcome of `handle_wfd_set_param_request`. -/
inductive WFDResponseAction where
  | ok200
  | bad400
  | noResponse
deriving Repr, DecidableEq

/-- `handle_wfd_set_param_request`: empty bodies (keep-alive) get 200;
a NULL body pointer with nonzero size is a bad request; a nonempty body
gets 200 unless `g_strcmp0 (data, "wfd_idr_request")` returns 0 - for
the exact body "wfd_idr_request" the only `send_generic_wfd_response`
call in reach is inside `#if 0`, so nothing is sent. -/
def handle_wfd_set_param_request (data : Option (List Nat)) (size : Nat) :
    WFDResponseAction :=
  if size = 0 then .ok200
  else
    match data with
    | some d =>
      if d ≠ strBytes "wfd_idr_request" then .ok200 else .noResponse
    | none => .bad400

/-- C5 counterexample: a SET_PARAMETER whose body is exactly
"wfd_idr_request" receives no response at all, not the claimed
200 OK. -/
theorem idr_request_no_response_counterexample :
    handle_wfd_set_param_request (some (strBytes "wfd_idr_request")) 15 =
        WFDResponseAction.noResponse ∧
      WFDResponseAction.noResponse ≠ WFDResponseAction.ok200 := by decide

/-- C5 (amended): every nonempty SET_PARAMETER body other than exactly
"wfd_idr_request" is answered 200 OK; the exact body
"wfd_idr_request" is not answered at all. -/
theorem set_param_response_behavior (d : List Nat) (size : Nat)
    (hs : size ≠ 0) :
    handle_wfd_set_param_request (some d) size =
      (if d = strBytes "wfd_idr_request" then WFDResponseAction.noResponse
       else WFDResponseAction.ok200) := by
  unfold handle_wfd_set_param_request
  rw [if_neg hs]
  by_cases h : d = strBytes "wfd_idr_request" <;> simp [h]

/-- Witness for the amended C5 theorem at a body of "wfd_route: x". -/
theorem set_param_response_behavior_witness :
    (12 : Nat) ≠ 0 ∧
      handle_wfd_set_param_request (some (strBytes "wfd_route: x")) 12 =
        (if strBytes "wfd_route: x" = strBytes "wfd_idr_request" then
          WFDResponseAction.noResponse
         else WFDResponseAction.ok200) :=
  ⟨by decide, set_param_response_behavior (strBytes "wfd_route: x") 12
    (by decide)⟩

/-! # Content-protection query (`gst_wfd_message_get_contentprotection_type`)

The TCP port is extracted with `strtok_r (TCPPort, "=", &ptr)` followed
by `strtok_r (NULL, "=", &ptr)` and `atoi (result)`.  `strtok_r`
tokenizes IN PLACE: it overwrites the first delimiter with a NUL byte,
so the message's stored `TCPPort` string is mutated by the query.  The
model returns the port result together with the string as stored after
the call; `none` for the port covers both "loop not entered, output
never written" (first token NULL) and "second token NULL,
`atoi (NULL)` dereferences a null pointer" (undefined behaviour, in
practice a crash). -/

/-- Effect of the query on the stored `TCPPort` bytes: `strtok_r`
leaves the leading delimiters, then the first token, then writes NUL
over the delimiter that ended it (no write when the token runs to the
end of the string). -/
def strtokMutate (s : List Nat) : List Nat :=
  let lead := s.takeWhile (fun c => c = 61)
  let rest := s.dropWhile (fun c => c = 61)
  if rest = [] then s
  else
    let tok := rest.takeWhile (fun c => c ≠ 61)
    if rest.drop tok.length = [] then s
    else lead ++ tok

/-- Port value produced by the two-call `strtok_r` / `atoi` sequence,
`none` when the C either never writes the output or passes NULL to
`atoi`. -/
def strtokPortResult (s : List Nat) : Option Nat :=
  let rest := s.dropWhile (fun c => c = 61)
  if rest = [] then none
  else
    let tok := rest.takeWhile (fun c => c ≠ 61)
    let remainder := (rest.drop tok.length).drop 1
    let rest2 := remainder.dropWhile (fun c => c = 61)
    if rest2 = [] then none
    else some (strtoul10 (rest2.takeWhile (fun c => c ≠ 61)))

/-- `gst_wfd_message_get_contentprotection_type`: version from exact
string comparisons; for HDCP2.0/2.1 with a stored TCPPort string the
port is tokenized destructively as above, and the message is returned
as it stands after the call. -/
def gst_wfd_message_get_contentprotection_type (msg : GstWFDMessage) :
    (Nat × Option Nat) × GstWFDMessage :=
  match msg.content_protection with
  | none => ((GST_WFD_HDCP_NONE, none), msg)
  | some cp =>
    match cp.hdcp2_spec with
    | none => ((GST_WFD_HDCP_NONE, none), msg)
    | some sp =>
      if sp.hdcpversion = some (strBytes "none") then
        ((GST_WFD_HDCP_NONE, some 0), msg)
      else
        let ver :=
          if sp.hdcpversion = some (strBytes "HDCP2.0") then GST_WFD_HDCP_2_0
          else if sp.hdcpversion = some (strBytes "HDCP2.1") then
            GST_WFD_HDCP_2_1
          else GST_WFD_HDCP_NONE
        if ver = GST_WFD_HDCP_NONE then ((GST_WFD_HDCP_NONE, some 0), msg)
        else
          match sp.TCPPort with
          | none => ((ver, some 0), msg)
          | some s =>
            ((ver, strtokPortResult s),
              { msg with
                  content_protection := some
                    { hdcp2_spec := some
                        { sp with TCPPort := some (strtokMutate s) } } })

/-- Message holding `HDCP2.0, port=1234`, as
`gst_wfd_message_set_contentprotection_type` builds it. -/
def msgHdcpPort1234 : GstWFDMessage :=
  gst_wfd_message_set_contentprotection_type gst_wfd_message_new
    GST_WFD_HDCP_2_0 1234

/-- C9: the content-protection query is destructive.  On a message
storing `TCPPort = "port=1234"` the first query returns port 1234 but
overwrites the stored string's `=` with NUL, leaving "port"; the
message is changed, and a second identical query cannot return the
port again (its `atoi` argument is NULL).  The claim's non-destructive
reading is exactly what the spec requires and the code violates. -/
theorem contentprotection_get_mutates_tcpport :
    (gst_wfd_message_get_contentprotection_type msgHdcpPort1234).1 =
        (GST_WFD_HDCP_2_0, some 1234) ∧
      (gst_wfd_message_get_contentprotection_type msgHdcpPort1234).2 ≠
        msgHdcpPort1234 ∧
      ((gst_wfd_message_get_contentprotection_type
            msgHdcpPort1234).2.content_protection.bind
          (fun cp => cp.hdcp2_spec.bind (fun sp => sp.TCPPort))) =
        some (strBytes "port") ∧
      (gst_wfd_message_get_contentprotection_type
          (gst_wfd_message_get_contentprotection_type msgHdcpPort1234).2).1.2
        = none := by decide

/-! # Token and line lemmas shared by the parser proofs -/

/-- `takeWhile` passes over a fully satisfying prefix. -/
theorem takeWhile_append_of_all (p : Nat → Bool) (l r : List Nat)
    (h : ∀ x ∈ l, p x = true) :
    (l ++ r).takeWhile p = l ++ r.takeWhile p := by
  induction l with
  | nil => simp
  | cons a l ih =>
    have ha : p a = true := h a (by simp)
    simp only [List.cons_append, List.takeWhile_cons, ha]
    simp [ih fun x hx => h x (by simp [hx])]

/-- `dropWhile` drops a fully satisfying prefix. -/
theorem dropWhile_append_of_all (p : Nat → Bool) (l r : List Nat)
    (h : ∀ x ∈ l, p x = true) :
    (l ++ r).dropWhile p = r.dropWhile p := by
  induction l with
  | nil => simp
  | cons a l ih =>
    have ha : p a = true := h a (by simp)
    simp only [List.cons_append, List.dropWhile_cons, ha]
    simp [ih fun x hx => h x (by simp [hx])]

/-- The suffix begins with a token-ending byte (or is empty). -/
def headStops (p : Nat → Bool) : List Nat → Prop
  | [] => True
  | c :: _ => p c = false

/-- `takeWhile` of a prefix-satisfying list followed by a stopping
suffix. -/
theorem takeWhile_append_stop (p : Nat → Bool) (l r : List Nat)
    (h : ∀ x ∈ l, p x = true) (hr : headStops p r) :
    (l ++ r).takeWhile p = l := by
  rw [takeWhile_append_of_all p l r h]
  cases r with
  | nil => simp
  | cons c cs =>
    simp only [headStops] at hr
    simp [List.takeWhile_cons, hr]

/-- `dropWhile` counterpart of `takeWhile_append_stop`. -/
theorem dropWhile_append_stop (p : Nat → Bool) (l r : List Nat)
    (h : ∀ x ∈ l, p x = true) (hr : headStops p r) :
    (l ++ r).dropWhile p = r := by
  rw [dropWhile_append_of_all p l r h]
  cases r with
  | nil => simp
  | cons c cs =>
    simp only [headStops] at hr
    simp [List.dropWhile_cons, hr]

/-- A space-free token followed by a space (or end) reads off exactly. -/
theorem readToken_append (t r : List Nat)
    (ht : ∀ c ∈ t, isSpaceByte c = false)
    (hr : headStops (fun c => !isSpaceByte c) r) :
    readToken (t ++ r) = (t, r) := by
  unfold readToken
  have htw : (t ++ r).takeWhile (fun c => !isSpaceByte c) = t :=
    takeWhile_append_stop _ t r (fun x hx => by simp [ht x hx]) hr
  rw [htw]
  simp

/-- `strstr (hay, needle)` misses when the needle's first byte does not
occur in the haystack. -/
theorem containsSeq_eq_false_of_head_not_mem (l : List Nat) (c : Nat)
    (rest : List Nat) (h : c ∉ l) :
    containsSeq l (c :: rest) = false := by
  induction l with
  | nil => rfl
  | cons a l ih =>
    have hac : (a = c) = False := by
      simp only [eq_iff_iff, iff_false]
      intro hc
      exact h (by simp [hc])
    simp only [containsSeq, listStarts, hac]
    simp only [decide_False, Bool.false_and, Bool.false_or]
    exact ih (fun hc => h (by simp [hc]))

/-- One line followed by CRLF and more data yields the (truncated) line
and recursion on the rest. -/
theorem parseBufferLinesGo_step (F : Nat) (l rest : List Nat)
    (hl : ∀ c ∈ l, isLineEnd c = false) :
    parseBufferLinesGo (F + 1) (l ++ 13 :: 10 :: rest) =
      l.take 254 :: parseBufferLinesGo F rest := by
  have htw : (l ++ 13 :: 10 :: rest).takeWhile (fun c => !isLineEnd c) = l :=
    takeWhile_append_stop _ l _ (fun x hx => by simp [hl x hx])
      (by simp [headStops, isLineEnd])
  have hdw : (l ++ 13 :: 10 :: rest).dropWhile (fun c => !isLineEnd c) =
      13 :: 10 :: rest :=
    dropWhile_append_stop _ l _ (fun x hx => by simp [hl x hx])
      (by simp [headStops, isLineEnd])
  match hL : l ++ 13 :: 10 :: rest with
  | [] => exact absurd hL (by simp)
  | d :: ds =>
    rw [hL] at htw hdw
    simp only [parseBufferLinesGo, htw, hdw]

/-! # EDID query and the M3 EDID session update (`rtsp-client-wfd.c`) -/

/-- `gst_wfd_message_get_display_edid`: reports support only when the
stored block count is in (0, 256] and hands back a copy of the
`128 * count` payload bytes. -/
def gst_wfd_message_get_display_edid (msg : GstWFDMessage) :
    Bool × Nat × Option (List Nat) :=
  match msg.display_edid with
  | none => (false, 0, none)
  | some d =>
    if d.edid_supported ≠ 0 then
      if 0 < d.edid_block_count ∧ d.edid_block_count ≤ 256 then
        (true, d.edid_block_count,
          some ((d.edid_payload.getD []).take (128 * d.edid_block_count)))
      else (false, d.edid_block_count, none)
    else (false, 0, none)

/-- Session EDID summary fields of `GstRTSPWFDClientPrivate`. -/
structure EdidSession where
  edid_supported : Bool
  edid_hres : Nat
  edid_vres : Nat
deriving Repr, DecidableEq

/-- EDID slice of `handle_wfd_response` (M3 branch): query the parsed
message, read the detailed-timing bytes 54..61 of the payload
(unsigned `char` semantics, the platform's default), and reject
resolutions outside 640..1920 x 480..1080.  Payload bytes are unsigned
here; on a signed-`char` platform the same code would reject any mode
whose low resolution byte exceeds 0x7f. -/
def handle_wfd_response_edid (msg : GstWFDMessage) (s : EdidSession) :
    EdidSession :=
  match msg.display_edid with
  | none => s
  | some _ =>
    let g := gst_wfd_message_get_display_edid msg
    let s1 := { s with edid_supported := g.1 }
    if g.1 then
      let payload := g.2.2.getD []
      let hres := ((charAt payload (54 + 4)) >>> 4) <<< 8 |||
        charAt payload (54 + 2)
      let vres := ((charAt payload (54 + 7)) >>> 4) <<< 8 |||
        charAt payload (54 + 5)
      if hres < 640 ∨ vres < 480 ∨ hres > 1920 ∨ vres > 1080 then
        { edid_supported := false, edid_hres := 0, edid_vres := 0 }
      else { edid_supported := true, edid_hres := hres, edid_vres := vres }
    else s1

/-- Lowercase hex encoding of EDID payload bytes, as the claim's sink
transmits them (two hex characters per byte). -/
def hexEncodePayload (bytes : List Nat) : List Nat :=
  bytes.flatMap (fun b => [hexDigitChar (b / 16), hexDigitChar (b % 16)])

/-- The M3 response body of the claim: a single `wfd_display_edid` line
with block count 0001 and the hex payload. -/
def edidM3Body (payload : List Nat) : List Nat :=
  strBytes "wfd_display_edid: 0001 " ++ hexEncodePayload payload ++ crlf

/-- Disjoint nibble recombination: `(a << 4) | r = a * 16 + r` for a low
nibble `r`. -/
theorem shiftLeft4_or_small (a r : Nat) (h : r < 16) :
    (a <<< 4) ||| r = a * 16 + r := by
  apply Nat.eq_of_testBit_eq
  intro i
  have h16 : a * 16 + r = 2 ^ 4 * a + r := by ring
  have hr16 : r < 2 ^ 4 := by norm_num at h ⊢; omega
  rw [Nat.testBit_lor, Nat.testBit_shiftLeft, h16,
    Nat.testBit_mul_pow_two_add a hr16 i]
  rcases Nat.lt_or_ge i 4 with hi | hi
  · have h4 : ¬(i ≥ 4) := by omega
    simp [h4, hi]
  · have hrb : r.testBit i = false := by
      apply Nat.testBit_eq_false_of_lt
      exact Nat.lt_of_lt_of_le hr16 (Nat.pow_le_pow_right (by omega) hi)
    have hni : ¬ i < 4 := by omega
    simp [hi, hni, hrb]

/-- Length of the hex encoding. -/
theorem hexEncodePayload_length (l : List Nat) :
    (hexEncodePayload l).length = 2 * l.length := by
  induction l with
  | nil => rfl
  | cons b l ih =>
    simp only [hexEncodePayload, List.flatMap_cons] at ih ⊢
    simp [ih]
    omega

/-- Characters at positions `2j` and `2j+1` of the hex encoding are the
two digits of byte `j`. -/
theorem hexEncode_getD (l : List Nat) (j : Nat) (h : j < l.length) :
    (hexEncodePayload l).getD (2 * j) 0 = hexDigitChar (l.getD j 0 / 16) ∧
      (hexEncodePayload l).getD (2 * j + 1) 0 =
        hexDigitChar (l.getD j 0 % 16) := by
  induction l generalizing j with
  | nil => simp at h
  | cons b l ih =>
    cases j with
    | zero => simp [hexEncodePayload]
    | succ j =>
      have hj : j < l.length := by simpa using h
      have h2 : 2 * (j + 1) = (2 * j + 1) + 1 := by ring
      have h3 : 2 * (j + 1) + 1 = ((2 * j + 1) + 1) + 1 := by ring
      simp only [hexEncodePayload, List.flatMap_cons, List.cons_append,
        List.nil_append, h2, h3, List.getD_cons_succ]
      simpa [hexEncodePayload] using ih j hj

/-- Hex-digit characters fall in '0'..'9' or 'a'..'f'. -/
theorem hexDigitChar_range (d : Nat) (h : d < 16) :
    (48 ≤ hexDigitChar d ∧ hexDigitChar d ≤ 57) ∨
      (97 ≤ hexDigitChar d ∧ hexDigitChar d ≤ 102) := by
  unfold hexDigitChar
  by_cases hd : d < 10 <;> simp [hd] <;> omega

/-- Every character of the hex encoding of bytes below 256 is a hex
digit character. -/
theorem mem_hexEncode (l : List Nat) (hb : ∀ b ∈ l, b < 256) (c : Nat)
    (hc : c ∈ hexEncodePayload l) :
    (48 ≤ c ∧ c ≤ 57) ∨ (97 ≤ c ∧ c ≤ 102) := by
  simp only [hexEncodePayload, List.mem_flatMap] at hc
  obtain ⟨b, hbl, hcb⟩ := hc
  have hb256 : b < 256 := hb b hbl
  simp only [List.mem_cons, List.not_mem_nil, or_false] at hcb
  rcases hcb with hcb | hcb
  · subst hcb
    exact hexDigitChar_range _ (by omega)
  · subst hcb
    exact hexDigitChar_range _ (by omega)

/-- The EDID nibble decoder inverts `hexDigitChar` on nibbles. -/
theorem hexNibbleC_hexDigitChar (d : Nat) (h : d < 16) :
    hexNibbleC (hexDigitChar d) = d := by
  unfold hexNibbleC hexDigitChar
  by_cases hd : d < 10
  · simp only [hd, if_true]
    have h1 : 41 < 48 + d ∧ 48 + d < 64 := by omega
    simp [h1.1, h1.2]
  · simp only [hd, if_false]
    have h1 : ¬(41 < 87 + d ∧ 87 + d < 64) := by omega
    have h2 : 96 < 87 + d ∧ 87 + d < 103 := by omega
    rw [if_neg (by omega), if_pos (by constructor <;> omega)]
    omega

/-- Byte `j` of the decoded payload, by construction. -/
theorem decodeEdidPayload_getD (v : List Nat) (nbytes j : Nat)
    (h : j < nbytes) :
    (decodeEdidPayload v nbytes).getD j 0 =
      (hexNibbleC (charAt v (2 * j)) <<< 4) ||| hexNibbleC (charAt v (2 * j + 1)) := by
  simp [decodeEdidPayload, List.getD_eq_getElem?_getD, List.getElem?_map,
    List.getElem?_range, h]

/-- The decoded payload has exactly the requested number of bytes. -/
theorem decodeEdidPayload_length (v : List Nat) (nbytes : Nat) :
    (decodeEdidPayload v nbytes).length = nbytes := by
  simp [decodeEdidPayload]

/-- Reading inside the truncated prefix sees the original bytes. -/
theorem charAt_take (l : List Nat) (i n : Nat) (h : i < n) :
    charAt (l.take n) i = charAt l i := by
  simp [charAt, List.getD_eq_getElem?_getD, List.getElem?_take, h]

/-- Decoding the (254-byte-truncated) hex text recovers every payload
byte whose two characters survive the truncation. -/
theorem decode_take_hexEncode (payload : List Nat)
    (hb : ∀ b ∈ payload, b < 256) (hlen : payload.length = 128) (j : Nat)
    (hj : 2 * j + 1 < 231) (hj128 : j < 128) :
    (decodeEdidPayload ((hexEncodePayload payload).take 231) 128).getD j 0 =
      payload.getD j 0 := by
  have hbj : payload.getD j 0 < 256 := by
    have hjl : j < payload.length := by omega
    have hmem : payload.getD j 0 ∈ payload := by
      rw [List.getD_eq_getElem _ _ hjl]
      exact List.getElem_mem hjl
    exact hb _ hmem
  rw [decodeEdidPayload_getD _ _ _ hj128,
    charAt_take _ _ _ (by omega : 2 * j < 231), charAt_take _ _ _ hj]
  have hget := hexEncode_getD payload j (by omega)
  show (hexNibbleC ((hexEncodePayload payload).getD (2 * j) 0) <<< 4) |||
      hexNibbleC ((hexEncodePayload payload).getD (2 * j + 1) 0) =
    payload.getD j 0
  rw [hget.1, hget.2, hexNibbleC_hexDigitChar _ (by omega),
    hexNibbleC_hexDigitChar _ (by omega),
    shiftLeft4_or_small _ _ (by omega)]
  omega

/-- Parsing a `wfd_display_edid` line stores exactly the parsed EDID
record. -/
theorem parse_attribute_edid_line (tail : List Nat) (msg : GstWFDMessage) :
    gst_wfd_parse_attribute (strBytes "wfd_display_edid" ++ 58 :: tail)
        msg =
      { msg with display_edid := some (parseDisplayEdid tail) } := by
  unfold gst_wfd_parse_attribute
  have htw : (strBytes "wfd_display_edid" ++ 58 :: tail).takeWhile
      (fun c => c ≠ 58) = strBytes "wfd_display_edid" :=
    takeWhile_append_stop _ _ _ (by decide) (by simp [headStops])
  rw [htw]
  have hdrop : (strBytes "wfd_display_edid" ++ 58 :: tail).drop
      (strBytes "wfd_display_edid").length = 58 :: tail :=
    List.drop_left _ _
  simp only [hdrop, List.drop_succ_cons, List.drop_zero]
  have h1 : (strBytes "wfd_display_edid" = strBytes "wfd_audio_codecs") =
      False := by decide
  have h2 : (strBytes "wfd_display_edid" = strBytes "wfd_video_formats") =
      False := by decide
  have h3 : (strBytes "wfd_display_edid" =
      strBytes "wfd_content_protection") = False := by decide
  simp only [h1, h2, h3, if_false, if_true]

/-- Characters of the hex encoding never terminate a line. -/
theorem hexEncode_not_lineEnd (payload : List Nat)
    (hb : ∀ b ∈ payload, b < 256) :
    ∀ c ∈ hexEncodePayload payload, isLineEnd c = false := by
  intro c hc
  have := mem_hexEncode payload hb c hc
  simp only [isLineEnd]
  rcases this with ⟨h1, h2⟩ | ⟨h1, h2⟩ <;> simp <;> omega

/-- C8: a single-line M3 body `wfd_display_edid: 0001 <hex payload>`
whose detailed-timing bytes encode 1920x1080 makes the session record
`edid_supported = true`, `edid_hres = 1920`, `edid_vres = 1080` - the
255-byte line buffer truncates the 279-character line to 254
characters, but bytes 54..61 come from hex characters 108..123, all
inside the surviving 231. -/
theorem edid_extraction_records_1920x1080 (payload : List Nat)
    (hlen : payload.length = 128) (hb : ∀ b ∈ payload, b < 256)
    (hh : ((payload.getD 58 0) >>> 4) <<< 8 ||| payload.getD 56 0 = 1920)
    (hv : ((payload.getD 61 0) >>> 4) <<< 8 ||| payload.getD 59 0 = 1080) :
    handle_wfd_response_edid
        (gst_wfd_message_parse_buffer (edidM3Body payload))
        { edid_supported := false, edid_hres := 0, edid_vres := 0 } =
      { edid_supported := true, edid_hres := 1920, edid_vres := 1080 } := by
  have hexlen : (hexEncodePayload payload).length = 256 := by
    rw [hexEncodePayload_length, hlen]
  -- the body is one line plus CRLF
  have hbody : edidM3Body payload =
      (strBytes "wfd_display_edid: 0001 " ++ hexEncodePayload payload) ++
        13 :: 10 :: ([] : List Nat) := by
    simp [edidM3Body, crlf]
  have hlinechars : ∀ c ∈ strBytes "wfd_display_edid: 0001 " ++
      hexEncodePayload payload, isLineEnd c = false := by
    intro c hc
    rcases List.mem_append.mp hc with hc | hc
    · have hall : ∀ x ∈ strBytes "wfd_display_edid: 0001 ",
          isLineEnd x = false := by decide
      exact hall c hc
    · exact hexEncode_not_lineEnd payload hb c hc
  have h23 : (strBytes "wfd_display_edid: 0001 ").length = 23 := by decide
  have hbodylen : (edidM3Body payload).length = 281 := by
    simp [edidM3Body, hexlen, crlf, h23]
  have hlines : parseBufferLines (edidM3Body payload) =
      [(strBytes "wfd_display_edid: 0001 " ++
          hexEncodePayload payload).take 254] := by
    rw [parseBufferLines, hbodylen, hbody]
    rw [show (281 : Nat) = 280 + 1 from rfl,
      parseBufferLinesGo_step 280 _ _ hlinechars]
    rfl
  -- the truncated line splits as name, colon, value
  have hline : (strBytes "wfd_display_edid: 0001 " ++
      hexEncodePayload payload).take 254 =
      strBytes "wfd_display_edid" ++ 58 ::
        (strBytes " 0001 " ++ (hexEncodePayload payload).take 231) := by
    rw [List.take_append_eq_append_take,
      List.take_of_length_le (by decide)]
    rw [h23]
    have hsplit : strBytes "wfd_display_edid: 0001 " =
        strBytes "wfd_display_edid" ++ 58 :: strBytes " 0001 " := by decide
    rw [hsplit, List.append_assoc]
    rfl
  have hmsg : gst_wfd_message_parse_buffer (edidM3Body payload) =
      { gst_wfd_message_new with
          display_edid := some (parseDisplayEdid
            (strBytes " 0001 " ++ (hexEncodePayload payload).take 231)) } := by
    rw [gst_wfd_message_parse_buffer, hlines, hline]
    simp [List.foldl, parse_attribute_edid_line]
  -- the EDID branch parses block count 1 and decodes 128 bytes
  have hvalue : strBytes " 0001 " ++ (hexEncodePayload payload).take 231 =
      32 :: (strBytes "0001" ++
        (32 :: (hexEncodePayload payload).take 231)) := by
    have : strBytes " 0001 " = 32 :: (strBytes "0001" ++ [32]) := by decide
    rw [this]
    simp
  have hno_n : (110 : Nat) ∉ strBytes "0001" ++
      (32 :: (hexEncodePayload payload).take 231) := by
    intro hmem
    rcases List.mem_append.mp hmem with hc | hc
    · revert hc
      decide
    · rcases List.mem_cons.mp hc with hc | hc
      · omega
      · have := mem_hexEncode payload hb 110 (List.mem_of_mem_take hc)
        omega
  have hparsed : parseDisplayEdid
      (strBytes " 0001 " ++ (hexEncodePayload payload).take 231) =
      { edid_supported := 1, edid_block_count := 1,
        edid_payload := some (decodeEdidPayload
          ((hexEncodePayload payload).take 231) 128) } := by
    rw [hvalue]
    unfold parseDisplayEdid
    rw [if_neg (by simp)]
    simp only [skipSpace1, if_pos (by decide : isSpaceByte 32 = true)]
    have hcf : containsSeq (strBytes "0001" ++
        (32 :: (hexEncodePayload payload).take 231)) (strBytes "none") =
        false := by
      have hsp : strBytes "none" = 110 :: strBytes "one" := by decide
      rw [hsp]
      exact containsSeq_eq_false_of_head_not_mem _ _ _ hno_n
    rw [if_neg (by simp [hcf])]
    have htok : readToken (strBytes "0001" ++
        (32 :: (hexEncodePayload payload).take 231)) =
        (strBytes "0001", 32 :: (hexEncodePayload payload).take 231) :=
      readToken_append _ _ (by decide) (by simp [headStops]; decide)
    rw [htok]
    have hbc : strtoul16 (strBytes "0001") = 1 := by decide
    simp only [hbc, skipSpace1, if_pos (by decide : isSpaceByte 32 = true)]
    norm_num
  -- bytes 56..61 survive the truncation
  have h56 := decode_take_hexEncode payload hb hlen 56 (by omega) (by omega)
  have h58 := decode_take_hexEncode payload hb hlen 58 (by omega) (by omega)
  have h59 := decode_take_hexEncode payload hb hlen 59 (by omega) (by omega)
  have h61 := decode_take_hexEncode payload hb hlen 61 (by omega) (by omega)
  have hdlen : (decodeEdidPayload ((hexEncodePayload payload).take 231)
      128).length = 128 := decodeEdidPayload_length _ _
  rw [hmsg]
  unfold handle_wfd_response_edid
  simp only [gst_wfd_message_get_display_edid, hparsed]
  norm_num
  rw [List.take_of_length_le (by rw [hdlen])]
  simp only [charAt] at h56 h58 h59 h61 ⊢
  simp only [List.getD_eq_getElem?_getD] at h56 h58 h59 h61 hh hv
  norm_num [h56, h58, h59, h61, hh, hv]

/-- A concrete 128-byte EDID block whose detailed-timing descriptor
encodes 1920x1080 (bytes 54..61 = 00 00 80 a0 70 38 2d 40). -/
def edidPayload1080p : List Nat :=
  List.replicate 54 0 ++ [0, 0, 128, 160, 112, 56, 45, 64] ++
    List.replicate 66 0

set_option maxRecDepth 4096 in
/-- Witness for the C8 theorem at the concrete 1080p EDID block. -/
theorem edid_extraction_records_1920x1080_witness :
    edidPayload1080p.length = 128 ∧ (∀ b ∈ edidPayload1080p, b < 256) ∧
      ((edidPayload1080p.getD 58 0) >>> 4) <<< 8 |||
          edidPayload1080p.getD 56 0 = 1920 ∧
      ((edidPayload1080p.getD 61 0) >>> 4) <<< 8 |||
          edidPayload1080p.getD 59 0 = 1080 ∧
      handle_wfd_response_edid
          (gst_wfd_message_parse_buffer (edidM3Body edidPayload1080p))
          { edid_supported := false, edid_hres := 0, edid_vres := 0 } =
        { edid_supported := true, edid_hres := 1920, edid_vres := 1080 } :=
  ⟨by decide, by decide, by decide, by decide,
    edid_extraction_records_1920x1080 edidPayload1080p (by decide)
      (by decide) (by decide) (by decide)⟩

/-! # Digit round-trip lemmas for the serializer/parser proofs -/

/-- Fuel irrelevance for the hex digit loop: any fuel at least `n - 1`
gives the same digits. -/
theorem toHexDigitsGo_congr :
    ∀ f1 f2 n : Nat, n ≤ f1 + 1 → n ≤ f2 + 1 →
      toHexDigitsGo f1 n = toHexDigitsGo f2 n := by
  intro f1
  induction f1 with
  | zero =>
    intro f2 n h1 h2
    have hn : n < 16 := by omega
    cases f2 with
    | zero => rfl
    | succ f2 => simp [toHexDigitsGo, hn]
  | succ f1 ih =>
    intro f2 n h1 h2
    cases f2 with
    | zero =>
      have hn : n < 16 := by omega
      simp [toHexDigitsGo, hn]
    | succ f2 =>
      by_cases hn : n < 16
      · simp [toHexDigitsGo, hn]
      · simp only [toHexDigitsGo, hn, if_false]
        have hd : n / 16 ≤ f1 + 1 := by omega
        have hd2 : n / 16 ≤ f2 + 1 := by omega
        rw [ih f2 (n / 16) hd hd2]

/-- Unfolding equation of `toHexDigits`. -/
theorem toHexDigits_eq (n : Nat) :
    toHexDigits n =
      if n < 16 then [hexDigitChar n]
      else toHexDigits (n / 16) ++ [hexDigitChar (n % 16)] := by
  by_cases hn : n < 16
  · cases n with
    | zero => simp [toHexDigits, toHexDigitsGo, hn]
    | succ m => simp [toHexDigits, toHexDigitsGo, hn]
  · have h16 : 16 ≤ n := by omega
    obtain ⟨m, rfl⟩ : ∃ m, n = m + 1 := ⟨n - 1, by omega⟩
    simp only [toHexDigits, toHexDigitsGo, hn, if_false]
    rw [toHexDigitsGo_congr m ((m + 1) / 16) ((m + 1) / 16) (by omega)
      (by omega)]

/-- Every character of `toHexDigits` is a hex digit character. -/
theorem toHexDigits_mem_range (n : Nat) :
    ∀ c ∈ toHexDigits n,
      (48 ≤ c ∧ c ≤ 57) ∨ (97 ≤ c ∧ c ≤ 102) := by
  induction n using Nat.strong_induction_on with
  | _ n ih =>
    intro c hc
    rw [toHexDigits_eq] at hc
    by_cases hn : n < 16
    · simp [hn] at hc
      subst hc
      exact hexDigitChar_range n hn
    · simp only [hn, if_false, List.mem_append, List.mem_singleton] at hc
      rcases hc with hc | hc
      · exact ih (n / 16) (by omega) c hc
      · subst hc
        exact hexDigitChar_range _ (by omega)

/-- Every character of `toDecDigits` is a decimal digit character
(fuel-general form). -/
theorem toDecDigitsGo_mem_range :
    ∀ fuel n : Nat, ∀ c ∈ toDecDigitsGo fuel n,
      n < 10 + fuel * 9 → 48 ≤ c ∧ c ≤ 57 := by
  intro fuel
  induction fuel with
  | zero =>
    intro n c hc hn
    simp [toDecDigitsGo] at hc
    omega
  | succ fuel ih =>
    intro n c hc hn
    by_cases h10 : n < 10
    · simp [toDecDigitsGo, h10] at hc
      omega
    · simp only [toDecDigitsGo, h10, if_false, List.mem_append,
        List.mem_singleton] at hc
      rcases hc with hc | hc
      · exact ih (n / 10) c hc (by omega)
      · omega

/-- Every character of `toDecDigits` is a decimal digit character. -/
theorem toDecDigits_mem_range (n : Nat) :
    ∀ c ∈ toDecDigits n, 48 ≤ c ∧ c ≤ 57 := by
  intro c hc
  exact toDecDigitsGo_mem_range n n c hc (by omega)

/-- `strtoul16Go` accumulates over a hex-digit prefix. -/
theorem strtoul16Go_append (xs ys : List Nat) (acc : Nat)
    (h : ∀ c ∈ xs, (hexDigitVal c).isSome) :
    strtoul16Go (xs ++ ys) acc = strtoul16Go ys (strtoul16Go xs acc) := by
  induction xs generalizing acc with
  | nil => simp [strtoul16Go]
  | cons c xs ih =>
    have hc := h c (by simp)
    obtain ⟨d, hd⟩ := Option.isSome_iff_exists.mp hc
    simp only [List.cons_append, strtoul16Go, hd]
    exact ih _ (fun x hx => h x (by simp [hx]))

/-- Hex digit characters have a hex value. -/
theorem hexDigitVal_isSome_of_range (c : Nat)
    (h : (48 ≤ c ∧ c ≤ 57) ∨ (97 ≤ c ∧ c ≤ 102)) :
    (hexDigitVal c).isSome := by
  unfold hexDigitVal
  rcases h with ⟨h1, h2⟩ | ⟨h1, h2⟩
  · simp [h1, h2]
  · rw [if_neg (by omega), if_pos (by omega)]
    simp

/-- The hex digit of a nibble decodes back to the nibble. -/
theorem hexDigitVal_hexDigitChar (d : Nat) (h : d < 16) :
    hexDigitVal (hexDigitChar d) = some d := by
  unfold hexDigitVal hexDigitChar
  by_cases hd : d < 10
  · rw [if_pos hd, if_pos (by omega)]
    simp
  · rw [if_neg hd, if_neg (by omega), if_pos (by omega)]
    simp

/-- `strtoul` base 16 inverts the hex printer (accumulator form). -/
theorem strtoul16Go_toHexDigits (n : Nat) :
    ∀ acc, strtoul16Go (toHexDigits n) acc =
      acc * 16 ^ (toHexDigits n).length + n := by
  induction n using Nat.strong_induction_on with
  | _ n ih =>
    intro acc
    rw [toHexDigits_eq]
    by_cases hn : n < 16
    · simp only [hn, if_true, strtoul16Go, hexDigitVal_hexDigitChar n hn,
        List.length_singleton]
      simp [strtoul16Go]
    · simp only [hn, if_false]
      rw [strtoul16Go_append _ _ _
        (fun c hc => hexDigitVal_isSome_of_range c
          (toHexDigits_mem_range (n / 16) c hc))]
      rw [ih (n / 16) (by omega) acc]
      simp only [strtoul16Go, hexDigitVal_hexDigitChar (n % 16) (by omega)]
      rw [List.length_append, List.length_singleton, pow_succ]
      have hmod : 16 * (n / 16) + n % 16 = n := Nat.div_add_mod n 16
      ring_nf
      omega

/-- Zero padding does not change the parsed value. -/
theorem strtoul16Go_replicate48 (k : Nat) (ys : List Nat) :
    strtoul16Go (List.replicate k 48 ++ ys) 0 = strtoul16Go ys 0 := by
  induction k with
  | zero => simp
  | succ k ih =>
    simp only [List.replicate_succ, List.cons_append, strtoul16Go]
    have h48 : hexDigitVal 48 = some 0 := by decide
    simp only [h48]
    simpa using ih

/-- `strtoul (hexPad w n, NULL, 16) = n`. -/
theorem strtoul16_hexPad (w n : Nat) : strtoul16 (hexPad w n) = n := by
  unfold strtoul16 hexPad zeroPad
  rw [strtoul16Go_replicate48, strtoul16Go_toHexDigits]
  simp

/-- Fuel irrelevance for the decimal digit loop. -/
theorem toDecDigitsGo_congr :
    ∀ f1 f2 n : Nat, n ≤ f1 + 1 → n ≤ f2 + 1 →
      toDecDigitsGo f1 n = toDecDigitsGo f2 n := by
  intro f1
  induction f1 with
  | zero =>
    intro f2 n h1 h2
    have hn : n < 10 := by omega
    cases f2 with
    | zero => rfl
    | succ f2 => simp [toDecDigitsGo, hn]
  | succ f1 ih =>
    intro f2 n h1 h2
    cases f2 with
    | zero =>
      have hn : n < 10 := by omega
      simp [toDecDigitsGo, hn]
    | succ f2 =>
      by_cases hn : n < 10
      · simp [toDecDigitsGo, hn]
      · simp only [toDecDigitsGo, hn, if_false]
        have hd : n / 10 ≤ f1 + 1 := by omega
        have hd2 : n / 10 ≤ f2 + 1 := by omega
        rw [ih f2 (n / 10) hd hd2]

/-- Unfolding equation of `toDecDigits`. -/
theorem toDecDigits_eq (n : Nat) :
    toDecDigits n =
      if n < 10 then [48 + n]
      else toDecDigits (n / 10) ++ [48 + n % 10] := by
  by_cases hn : n < 10
  · cases n with
    | zero => simp [toDecDigits, toDecDigitsGo, hn]
    | succ m => simp [toDecDigits, toDecDigitsGo, hn]
  · obtain ⟨m, rfl⟩ : ∃ m, n = m + 1 := ⟨n - 1, by omega⟩
    simp only [toDecDigits, toDecDigitsGo, hn, if_false]
    rw [toDecDigitsGo_congr m ((m + 1) / 10) ((m + 1) / 10) (by omega)
      (by omega)]

/-- `strtoul10Go` accumulates over a decimal-digit prefix. -/
theorem strtoul10Go_append (xs ys : List Nat) (acc : Nat)
    (h : ∀ c ∈ xs, (decDigitVal c).isSome) :
    strtoul10Go (xs ++ ys) acc = strtoul10Go ys (strtoul10Go xs acc) := by
  induction xs generalizing acc with
  | nil => simp [strtoul10Go]
  | cons c xs ih =>
    have hc := h c (by simp)
    obtain ⟨d, hd⟩ := Option.isSome_iff_exists.mp hc
    simp only [List.cons_append, strtoul10Go, hd]
    exact ih _ (fun x hx => h x (by simp [hx]))

/-- `strtoul` base 10 inverts the decimal printer (accumulator form). -/
theorem strtoul10Go_toDecDigits (n : Nat) :
    ∀ acc, strtoul10Go (toDecDigits n) acc =
      acc * 10 ^ (toDecDigits n).length + n := by
  induction n using Nat.strong_induction_on with
  | _ n ih =>
    intro acc
    rw [toDecDigits_eq]
    by_cases hn : n < 10
    · have hd : decDigitVal (48 + n) = some n := by
        unfold decDigitVal
        rw [if_pos (by omega)]
        simp
      simp only [hn, if_true, strtoul10Go, hd, List.length_singleton]
      simp [strtoul10Go]
    · simp only [hn, if_false]
      have hdig : ∀ c ∈ toDecDigits (n / 10), (decDigitVal c).isSome := by
        intro c hc
        have := toDecDigits_mem_range (n / 10) c hc
        unfold decDigitVal
        rw [if_pos (by omega)]
        simp
      rw [strtoul10Go_append _ _ _ hdig, ih (n / 10) (by omega) acc]
      have hd : decDigitVal (48 + n % 10) = some (n % 10) := by
        unfold decDigitVal
        rw [if_pos (by omega)]
        simp
      simp only [strtoul10Go, hd]
      rw [List.length_append, List.length_singleton, pow_succ]
      have hmod : 10 * (n / 10) + n % 10 = n := Nat.div_add_mod n 10
      ring_nf
      omega

/-- `strtoul (toDecDigits n, NULL, 10) = n` (printf `%d` round trip). -/
theorem strtoul10_toDecDigits (n : Nat) : strtoul10 (toDecDigits n) = n := by
  unfold strtoul10
  rw [strtoul10Go_toDecDigits]
  simp

/-- Characters printed by `hexPad` are never white space. -/
theorem hexPad_nonspace (w n : Nat) :
    ∀ c ∈ hexPad w n, isSpaceByte c = false := by
  intro c hc
  unfold hexPad zeroPad at hc
  rcases List.mem_append.mp hc with hc | hc
  · have := List.eq_of_mem_replicate hc
    subst this
    decide
  · have := toHexDigits_mem_range n c hc
    simp only [isSpaceByte]
    simp
    omega

/-- Characters printed by `hexPad` never end a line. -/
theorem hexPad_not_lineEnd (w n : Nat) :
    ∀ c ∈ hexPad w n, isLineEnd c = false := by
  intro c hc
  unfold hexPad zeroPad at hc
  rcases List.mem_append.mp hc with hc | hc
  · have := List.eq_of_mem_replicate hc
    subst this
    decide
  · have := toHexDigits_mem_range n c hc
    simp only [isLineEnd]
    simp
    omega

/-- Characters printed by `toDecDigits` are never white space. -/
theorem toDecDigits_nonspace (n : Nat) :
    ∀ c ∈ toDecDigits n, isSpaceByte c = false := by
  intro c hc
  have := toDecDigits_mem_range n c hc
  simp only [isSpaceByte]
  simp
  omega

/-- Characters printed by `toDecDigits` never end a line. -/
theorem toDecDigits_not_lineEnd (n : Nat) :
    ∀ c ∈ toDecDigits n, isLineEnd c = false := by
  intro c hc
  have := toDecDigits_mem_range n c hc
  simp only [isLineEnd]
  simp
  omega

/-! # Token and line helpers for the round-trip proofs -/

/-- `takeWhile` keeps a list all of whose elements satisfy the
predicate. -/
theorem takeWhile_all (p : Nat → Bool) (l : List Nat)
    (h : ∀ x ∈ l, p x = true) : l.takeWhile p = l := by
  have := takeWhile_append_of_all p l [] h
  simpa using this

/-- A space-free token followed by a space reads off exactly. -/
theorem readToken_space (t rest : List Nat)
    (ht : ∀ c ∈ t, isSpaceByte c = false) :
    readToken (t ++ 32 :: rest) = (t, 32 :: rest) :=
  readToken_append t (32 :: rest) ht (by simp [headStops, isSpaceByte])

/-- A space-free token at the end of the value reads off exactly. -/
theorem readToken_whole (t : List Nat)
    (ht : ∀ c ∈ t, isSpaceByte c = false) :
    readToken t = (t, []) := by
  have := readToken_append t [] ht (by simp [headStops])
  simpa using this

/-- `WFD_SKIP_SPACE` on a leading space character. -/
theorem skipSpace1_space (x : List Nat) : skipSpace1 (32 :: x) = x := by
  simp [skipSpace1, isSpaceByte]

/-- `hexPad` pads to the width or keeps the longer digit string. -/
theorem hexPad_length (w n : Nat) :
    (hexPad w n).length = max w (toHexDigits n).length := by
  unfold hexPad zeroPad
  simp [List.length_append]
  omega

/-- `toHexDigits` is never empty. -/
theorem toHexDigits_length_pos (n : Nat) : 1 ≤ (toHexDigits n).length := by
  rw [toHexDigits_eq]
  by_cases hn : n < 16 <;> simp [hn]

/-- A value below `16^k` prints in at most `k` hex digits. -/
theorem toHexDigits_length_le (k : Nat) :
    ∀ n, 1 ≤ k → n < 16 ^ k → (toHexDigits n).length ≤ k := by
  induction k with
  | zero => intro n hk; omega
  | succ k ih =>
    intro n _ hn
    rw [toHexDigits_eq]
    by_cases h16 : n < 16
    · rw [if_pos h16]
      simp
    · simp only [h16, if_false, List.length_append, List.length_singleton]
      have hk1 : 1 ≤ k := by
        by_contra hk0
        have : k = 0 := by omega
        subst this
        simp [pow_succ] at hn
        omega
      have hdiv : n / 16 < 16 ^ k := by
        rw [Nat.div_lt_iff_lt_mul (by omega)]
        calc n < 16 ^ (k + 1) := hn
        _ = 16 ^ k * 16 := by rw [pow_succ]
      have := ih (n / 16) hk1 hdiv
      omega

/-- A value below `16^w` prints as exactly `w` padded hex digits. -/
theorem hexPad_length_eq (w n : Nat) (hw : 1 ≤ w) (h : n < 16 ^ w) :
    (hexPad w n).length = w := by
  rw [hexPad_length]
  have := toHexDigits_length_le w n hw h
  omega

/-- Width-`w` hex padding of a value below `16^k` stays within `k`
characters (`w ≤ k`). -/
theorem hexPad_length_le (w k n : Nat) (hk : 1 ≤ k) (hw : w ≤ k)
    (h : n < 16 ^ k) : (hexPad w n).length ≤ k := by
  rw [hexPad_length]
  have := toHexDigits_length_le k n hk h
  omega

/-- A value below `10^k` prints in at most `k` decimal digits. -/
theorem toDecDigits_length_le (k : Nat) :
    ∀ n, 1 ≤ k → n < 10 ^ k → (toDecDigits n).length ≤ k := by
  induction k with
  | zero => intro n hk; omega
  | succ k ih =>
    intro n _ hn
    rw [toDecDigits_eq]
    by_cases h10 : n < 10
    · rw [if_pos h10]
      simp
    · simp only [h10, if_false, List.length_append, List.length_singleton]
      have hk1 : 1 ≤ k := by
        by_contra hk0
        have : k = 0 := by omega
        subst this
        simp [pow_succ] at hn
        omega
      have hdiv : n / 10 < 10 ^ k := by
        rw [Nat.div_lt_iff_lt_mul (by omega)]
        calc n < 10 ^ (k + 1) := hn
        _ = 10 ^ k * 10 := by rw [pow_succ]
      have := ih (n / 10) hk1 hdiv
      omega

/-- Splitting a CRLF-joined list of clean lines recovers the (truncated)
lines, for any fuel at least the buffer length. -/
theorem parseBufferLinesGo_joinCrlf :
    ∀ (lines : List (List Nat)) (F : Nat),
      (∀ l ∈ lines, ∀ c ∈ l, isLineEnd c = false) →
      (joinCrlf lines).length ≤ F →
      parseBufferLinesGo F (joinCrlf lines) = lines.map (List.take 254) := by
  intro lines
  induction lines with
  | nil =>
    intro F _ _
    cases F <;> rfl
  | cons l rest ih =>
    intro F h hF
    have hjoin : joinCrlf (l :: rest) = l ++ 13 :: 10 :: joinCrlf rest := by
      simp [joinCrlf, crlf]
    have hlen : (joinCrlf (l :: rest)).length =
        l.length + 2 + (joinCrlf rest).length := by
      rw [hjoin]
      simp
      omega
    obtain ⟨F', rfl⟩ : ∃ F', F = F' + 1 := ⟨F - 1, by omega⟩
    rw [hjoin, parseBufferLinesGo_step F' l (joinCrlf rest)
      (h l (by simp))]
    rw [ih F' (fun x hx => h x (by simp [hx])) (by omega)]
    simp

/-- `gst_wfd_message_parse_buffer`'s line splitter is the identity on a
CRLF-joined list of clean lines of at most 254 characters. -/
theorem parseBufferLines_joinCrlf (lines : List (List Nat))
    (h : ∀ l ∈ lines, ∀ c ∈ l, isLineEnd c = false)
    (hlen : ∀ l ∈ lines, l.length ≤ 254) :
    parseBufferLines (joinCrlf lines) = lines := by
  unfold parseBufferLines
  rw [parseBufferLinesGo_joinCrlf lines (joinCrlf lines).length h le_rfl]
  have htake : ∀ l' ∈ lines, l'.take 254 = l' := fun l' hl' =>
    List.take_of_length_le (hlen l' hl')
  calc lines.map (List.take 254) = lines.map id :=
    List.map_congr_left (fun a ha => htake a ha)
  _ = lines := List.map_id lines

/-! # Serialized attribute values of the setter sub-grammar

Each `...Tail` is the byte string a present attribute contributes after
its `:`, written in head-normal form for the token lemmas. -/

/-- The `max_hres`/`max_vres` token: `%04x`, or the literal `none` for
zero. -/
def maxresTok (x : Nat) : List Nat :=
  if x = 0 then strBytes "none" else hexPad 4 x

/-- `wfd_audio_codecs` value for a one-entry list. -/
def audioTail (name : List Nat) (modes lat : Nat) : List Nat :=
  32 :: (name ++ 32 :: (hexPad 8 modes ++ 32 :: hexPad 2 lat))

/-- `wfd_video_formats` value for a preferred-display-mode-supported
codec entry. -/
def videoTail (native prof lev cea vesa hh lat mss sep frc hres vres :
    Nat) : List Nat :=
  32 :: (hexPad 2 native ++ 32 :: (hexPad 2 1 ++ 32 :: (hexPad 2 prof ++
    32 :: (hexPad 2 lev ++ 32 :: (hexPad 8 cea ++ 32 :: (hexPad 8 vesa ++
    32 :: (hexPad 8 hh ++ 32 :: (hexPad 2 lat ++ 32 :: (hexPad 4 mss ++
    32 :: (hexPad 4 sep ++ 32 :: (hexPad 2 frc ++ 32 :: (maxresTok hres ++
    32 :: maxresTok vres))))))))))))

/-- `wfd_content_protection` value. -/
def cpTail (ver : List Nat) (port : Nat) : List Nat :=
  32 :: (ver ++ 32 :: (strBytes "port=" ++ toDecDigits port))

/-- `wfd_presentation_URL` value. -/
def urlTail (u0 u1 : List Nat) : List Nat :=
  32 :: (u0 ++ 32 :: u1)

/-- `wfd_client_rtp_ports` value. -/
def portsTail (prof : List Nat) (p0 p1 : Nat) : List Nat :=
  32 :: (prof ++ 32 :: (toDecDigits p0 ++ 32 :: (toDecDigits p1 ++
    32 :: strBytes "mode=play")))

/-- `wfd_av_format_change_timing` value. -/
def timingTail (pts dts : Nat) : List Nat :=
  32 :: (hexPad 10 pts ++ 32 :: hexPad 10 dts)

/-- The audio line the serializer emits for a NUL-free codec name. -/
theorem audioCodecsText_eq (name : List Nat) (modes lat : Nat)
    (hz : ∀ c ∈ name, c ≠ 0) :
    audioCodecsText { list := some [⟨some name, modes, lat⟩] } =
      strBytes "wfd_audio_codecs" ++ 58 :: audioTail name modes lat := by
  unfold audioCodecsText audioTail
  have htw : List.takeWhile (fun c => !decide (c = 0)) name = name :=
    takeWhile_all _ name (fun x hx => by simp [hz x hx])
  have h1 : strBytes " " = [32] := rfl
  have h2 : strBytes ":" = [58] := rfl
  simp [h1, h2, htw, audioEntriesText, audioEntryText, percentS,
    List.append_assoc]

/-- The video line the serializer emits for a
`preferred_display_mode_supported = 1` entry. -/
theorem videoFormatsText_eq (v : GstWFDVideoCodec)
    (hp : v.preferred_display_mode_supported = 1) :
    videoFormatsText { list := some v } =
      strBytes "wfd_video_formats" ++ 58 ::
        videoTail v.native v.H264_codec.profile v.H264_codec.level
          v.H264_codec.misc_params.CEA_Support
          v.H264_codec.misc_params.VESA_Support
          v.H264_codec.misc_params.HH_Support
          v.H264_codec.misc_params.latency
          v.H264_codec.misc_params.min_slice_size
          v.H264_codec.misc_params.slice_enc_params
          v.H264_codec.misc_params.frame_rate_control_support
          v.H264_codec.max_hres v.H264_codec.max_vres := by
  obtain ⟨nv, pdms, pr, lv, ⟨cea, vesa, hhm, lat, mss, sep, frc⟩, hres, vres⟩ := v
  simp only at hp
  subst hp
  unfold videoFormatsText videoTail maxresTok
  have h1 : strBytes " " = [32] := rfl
  have h2 : strBytes ":" = [58] := rfl
  have h3 : strBytes " none" = 32 :: strBytes "none" := rfl
  by_cases hh : hres = 0 <;> by_cases hv : vres = 0 <;>
    simp [hh, hv, h1, h2, h3, List.append_assoc]

/-- The content-protection line the serializer emits for a NUL-free
version string and a `port=N` port string. -/
theorem contentProtectionText_eq (ver : List Nat) (port : Nat)
    (hz : ∀ c ∈ ver, c ≠ 0) :
    contentProtectionText
        ⟨some ⟨some ver, some (strBytes "port=" ++ toDecDigits port)⟩⟩ =
      strBytes "wfd_content_protection" ++ 58 :: cpTail ver port := by
  unfold contentProtectionText cpTail percentS
  have htw : List.takeWhile (fun c => !decide (c = 0)) ver = ver :=
    takeWhile_all _ ver (fun x hx => by simp [hz x hx])
  have htp : List.takeWhile (fun c => !decide (c = 0))
      (strBytes "port=" ++ toDecDigits port) =
      strBytes "port=" ++ toDecDigits port := by
    apply takeWhile_all
    intro x hx
    rcases List.mem_append.mp hx with hx | hx
    · have hall : ∀ y ∈ strBytes "port=", (!decide (y = 0)) = true := by
        decide
      exact hall x hx
    · have := toDecDigits_mem_range port x hx
      simp
      omega
  have h1 : strBytes " " = [32] := rfl
  have h2 : strBytes ":" = [58] := rfl
  simp [h1, h2, htw, htp, List.append_assoc]

/-- The `none` EDID line the serializer emits for an unsupported EDID
record. -/
theorem displayEdidText_eq :
    displayEdidText ⟨0, 0, none⟩ =
      strBytes "wfd_display_edid" ++ 58 :: strBytes " none" := by
  decide

/-- The presentation-URL line the serializer emits for NUL-free URLs. -/
theorem presentationUrlText_eq (u0 u1 : List Nat)
    (hz0 : ∀ c ∈ u0, c ≠ 0) (hz1 : ∀ c ∈ u1, c ≠ 0) :
    presentationUrlText ⟨some u0, some u1⟩ =
      strBytes "wfd_presentation_URL" ++ 58 :: urlTail u0 u1 := by
  unfold presentationUrlText urlTail
  have htw0 : List.takeWhile (fun c => !decide (c = 0)) u0 = u0 :=
    takeWhile_all _ u0 (fun x hx => by simp [hz0 x hx])
  have htw1 : List.takeWhile (fun c => !decide (c = 0)) u1 = u1 :=
    takeWhile_all _ u1 (fun x hx => by simp [hz1 x hx])
  have h1 : strBytes " " = [32] := rfl
  have h2 : strBytes ":" = [58] := rfl
  simp [h1, h2, htw0, htw1, List.append_assoc]

/-- The client-RTP-ports line the serializer emits for a NUL-free
profile string. -/
theorem clientRtpPortsText_eq (prof : List Nat) (p0 p1 : Nat)
    (hz : ∀ c ∈ prof, c ≠ 0) :
    clientRtpPortsText ⟨some prof, p0, p1, some (strBytes "mode=play")⟩ =
      strBytes "wfd_client_rtp_ports" ++ 58 :: portsTail prof p0 p1 := by
  unfold clientRtpPortsText portsTail percentS
  have htw : List.takeWhile (fun c => !decide (c = 0)) prof = prof :=
    takeWhile_all _ prof (fun x hx => by simp [hz x hx])
  have htm : List.takeWhile (fun c => !decide (c = 0))
      (strBytes "mode=play") = strBytes "mode=play" := by decide
  have h1 : strBytes " " = [32] := rfl
  have h2 : strBytes ":" = [58] := rfl
  simp [h1, h2, htw, htm, List.append_assoc]

/-- The AV-format-change-timing line the serializer emits. -/
theorem avFormatChangeTimingText_eq (pts dts : Nat) :
    avFormatChangeTimingText ⟨pts, dts⟩ =
      strBytes "wfd_av_format_change_timing" ++ 58 :: timingTail pts dts := by
  unfold avFormatChangeTimingText timingTail
  have h1 : strBytes " " = [32] := rfl
  have h2 : strBytes ":" = [58] := rfl
  simp [h1, h2, List.append_assoc]

/-! # Parser round trips on the serialized values -/

/-- `maxresTok` never prints white space. -/
theorem maxresTok_nonspace (x : Nat) :
    ∀ c ∈ maxresTok x, isSpaceByte c = false := by
  intro c hc
  unfold maxresTok at hc
  by_cases hx : x = 0
  · rw [if_pos hx] at hc
    have hall : ∀ y ∈ strBytes "none", isSpaceByte y = false := by decide
    exact hall c hc
  · rw [if_neg hx] at hc
    exact hexPad_nonspace 4 x c hc

/-- `maxresTok` never prints a line terminator. -/
theorem maxresTok_not_lineEnd (x : Nat) :
    ∀ c ∈ maxresTok x, isLineEnd c = false := by
  intro c hc
  unfold maxresTok at hc
  by_cases hx : x = 0
  · rw [if_pos hx] at hc
    have hall : ∀ y ∈ strBytes "none", isLineEnd y = false := by decide
    exact hall c hc
  · rw [if_neg hx] at hc
    exact hexPad_not_lineEnd 4 x c hc

/-- `strtoul` base 16 recovers the value from a `maxresTok` (`none`
scans as 0). -/
theorem strtoul16_maxresTok (x : Nat) : strtoul16 (maxresTok x) = x := by
  unfold maxresTok
  by_cases hx : x = 0
  · rw [if_pos hx, hx]
    decide
  · rw [if_neg hx]
    exact strtoul16_hexPad 4 x

/-- `maxresTok` is at most 8 characters for a `guint32` value. -/
theorem maxresTok_length_le (x : Nat) (h : x < 4294967296) :
    (maxresTok x).length ≤ 8 := by
  unfold maxresTok
  by_cases hx : x = 0
  · rw [if_pos hx]
    decide
  · rw [if_neg hx]
    exact hexPad_length_le 4 8 x (by omega) (by omega) (by norm_num at h ⊢; omega)

/-- Timing value round trip. -/
theorem parseAvFormatChangeTiming_roundtrip (pts dts : Nat) :
    parseAvFormatChangeTiming (timingTail pts dts) = ⟨pts, dts⟩ := by
  unfold parseAvFormatChangeTiming timingTail
  rw [if_neg (by simp)]
  simp only [skipSpace1_space,
    readToken_space (hexPad 10 pts) (hexPad 10 dts) (hexPad_nonspace 10 pts),
    readToken_whole (hexPad 10 dts) (hexPad_nonspace 10 dts),
    strtoul16_hexPad]

/-- Presentation-URL value round trip. -/
theorem parsePresentationUrl_roundtrip (u0 u1 : List Nat)
    (hs0 : ∀ c ∈ u0, isSpaceByte c = false)
    (hs1 : ∀ c ∈ u1, isSpaceByte c = false) :
    parsePresentationUrl (urlTail u0 u1) = ⟨some u0, some u1⟩ := by
  unfold parsePresentationUrl urlTail
  rw [if_neg (by simp)]
  simp only [skipSpace1_space, readToken_space u0 u1 hs0,
    readToken_whole u1 hs1]

/-- The serialized `none` EDID value parses back to the unsupported
record. -/
theorem parseDisplayEdid_none :
    parseDisplayEdid (strBytes " none") = ⟨0, 0, none⟩ := by decide

/-- Client-RTP-ports value round trip. -/
theorem parseClientRtpPorts_roundtrip (prof : List Nat) (p0 p1 : Nat)
    (hns : ∀ c ∈ prof, isSpaceByte c = false) :
    parseClientRtpPorts (portsTail prof p0 p1) =
      ⟨some prof, p0, p1, some (strBytes "mode=play")⟩ := by
  unfold parseClientRtpPorts portsTail
  rw [if_neg (by simp)]
  simp only [skipSpace1_space, readToken_space prof _ hns,
    readToken_space (toDecDigits p0) _ (toDecDigits_nonspace p0),
    readToken_space (toDecDigits p1) _ (toDecDigits_nonspace p1),
    readToken_whole (strBytes "mode=play") (by decide),
    strtoul10_toDecDigits]

/-- Content-protection value round trip: the version token must not
contain the byte `n` (110), or the `strstr (v, "none")` guard could
fire. -/
theorem parseContentProtection_roundtrip (ver : List Nat) (port : Nat)
    (hns : ∀ c ∈ ver, isSpaceByte c = false) (h110 : 110 ∉ ver) :
    parseContentProtection (cpTail ver port) =
      ⟨some ⟨some ver, some (strBytes "port=" ++ toDecDigits port)⟩⟩ := by
  unfold parseContentProtection cpTail
  rw [if_neg (by simp)]
  have hnone : strBytes "none" = 110 :: strBytes "one" := rfl
  have hmem : 110 ∉ ver ++ 32 :: (strBytes "port=" ++ toDecDigits port) := by
    intro hmem
    rcases List.mem_append.mp hmem with hm | hm
    · exact h110 hm
    · rcases List.mem_cons.mp hm with hm | hm
      · omega
      · rcases List.mem_append.mp hm with hm | hm
        · have : (110 : Nat) ∉ strBytes "port=" := by decide
          exact this hm
        · have := toDecDigits_mem_range port 110 hm
          omega
  have hseq : containsSeq (ver ++ 32 :: (strBytes "port=" ++
      toDecDigits port)) (strBytes "none") = false := by
    rw [hnone]
    exact containsSeq_eq_false_of_head_not_mem _ 110 _ hmem
  have hport : ∀ c ∈ strBytes "port=" ++ toDecDigits port,
      isSpaceByte c = false := by
    intro c hc
    rcases List.mem_append.mp hc with hc | hc
    · have hall : ∀ y ∈ strBytes "port=", isSpaceByte y = false := by decide
      exact hall c hc
    · exact toDecDigits_nonspace port c hc
  simp only [skipSpace1_space, hseq, Bool.false_eq_true, if_false,
    readToken_space ver _ hns, readToken_whole _ hport]

/-- Audio value round trip: a 3- or 4-character codec name and `guint32`
modes/latency keep the value length in `[16, 31]`, so `strlen (v) / 16`
allocates exactly one entry. -/
theorem parseAudioCodecs_roundtrip (name : List Nat) (modes lat : Nat)
    (hns : ∀ c ∈ name, isSpaceByte c = false)
    (hnl : name.length = 3 ∨ name.length = 4)
    (hm : modes < 4294967296) (hl : lat < 4294967296) :
    parseAudioCodecs (audioTail name modes lat) =
      { list := some [⟨some name, modes, lat⟩] } := by
  have hml : (hexPad 8 modes).length = 8 :=
    hexPad_length_eq 8 modes (by omega) (by norm_num; omega)
  have hll2 : 2 ≤ (hexPad 2 lat).length := by
    rw [hexPad_length]
    omega
  have hll8 : (hexPad 2 lat).length ≤ 8 :=
    hexPad_length_le 2 8 lat (by omega) (by omega) (by norm_num; omega)
  have hTlen : (audioTail name modes lat).length =
      11 + name.length + (hexPad 2 lat).length := by
    simp [audioTail, hml]
    omega
  unfold parseAudioCodecs
  rw [hTlen]
  rw [if_neg (by omega)]
  have hdiv : (11 + name.length + (hexPad 2 lat).length) / 16 = 1 := by
    rcases hnl with h | h <;> omega
  rw [hdiv]
  rw [if_neg (by omega)]
  unfold parseAudioEntries audioTail
  simp only [skipSpace1_space, readToken_space name _ hns,
    readToken_space (hexPad 8 modes) _ (hexPad_nonspace 8 modes),
    readToken_whole (hexPad 2 lat) (hexPad_nonspace 2 lat),
    strtoul16_hexPad]
  simp [skipComma1, parseAudioEntries]

/-- Video value round trip: every field is recovered, including the two
resolution-bound tokens (`%04x` or `none`). -/
theorem parseVideoFormats_roundtrip (native prof lev cea vesa hh lat mss
    sep frc hres vres : Nat) :
    parseVideoFormats (videoTail native prof lev cea vesa hh lat mss sep
        frc hres vres) =
      { list := some ⟨native, 1, ⟨prof, lev,
          ⟨cea, vesa, hh, lat, mss, sep, frc⟩, hres, vres⟩⟩ } := by
  unfold parseVideoFormats videoTail
  rw [if_neg (by simp)]
  simp only [skipSpace1_space,
    readToken_space (hexPad 2 native) _ (hexPad_nonspace 2 native),
    readToken_space (hexPad 2 1) _ (hexPad_nonspace 2 1),
    readToken_space (hexPad 2 prof) _ (hexPad_nonspace 2 prof),
    readToken_space (hexPad 2 lev) _ (hexPad_nonspace 2 lev),
    readToken_space (hexPad 8 cea) _ (hexPad_nonspace 8 cea),
    readToken_space (hexPad 8 vesa) _ (hexPad_nonspace 8 vesa),
    readToken_space (hexPad 8 hh) _ (hexPad_nonspace 8 hh),
    readToken_space (hexPad 2 lat) _ (hexPad_nonspace 2 lat),
    readToken_space (hexPad 4 mss) _ (hexPad_nonspace 4 mss),
    readToken_space (hexPad 4 sep) _ (hexPad_nonspace 4 sep),
    readToken_space (hexPad 2 frc) _ (hexPad_nonspace 2 frc),
    readToken_space (maxresTok hres) _ (maxresTok_nonspace hres),
    readToken_whole (maxresTok vres) (maxresTok_nonspace vres),
    strtoul16_hexPad, strtoul16_maxresTok]
  simp

/-! # Attribute dispatch on each serialized line -/

/-- `gst_wfd_parse_attribute` on a `wfd_audio_codecs` line. -/
theorem parse_attribute_audio_line (tail : List Nat) (msg : GstWFDMessage) :
    gst_wfd_parse_attribute (strBytes "wfd_audio_codecs" ++ 58 :: tail) msg =
      { msg with audio_codecs := some (parseAudioCodecs tail) } := by
  unfold gst_wfd_parse_attribute
  have htw : (strBytes "wfd_audio_codecs" ++ 58 :: tail).takeWhile
      (fun c => c ≠ 58) = strBytes "wfd_audio_codecs" :=
    takeWhile_append_stop _ _ _ (by decide) (by simp [headStops])
  rw [htw]
  have hdrop : (strBytes "wfd_audio_codecs" ++ 58 :: tail).drop
      (strBytes "wfd_audio_codecs").length = 58 :: tail :=
    List.drop_left _ _
  simp only [hdrop, List.drop_succ_cons, List.drop_zero]
  simp only [if_true]

/-- `gst_wfd_parse_attribute` on a `wfd_video_formats` line. -/
theorem parse_attribute_video_line (tail : List Nat) (msg : GstWFDMessage) :
    gst_wfd_parse_attribute (strBytes "wfd_video_formats" ++ 58 :: tail) msg =
      { msg with video_formats := some (parseVideoFormats tail) } := by
  unfold gst_wfd_parse_attribute
  have htw : (strBytes "wfd_video_formats" ++ 58 :: tail).takeWhile
      (fun c => c ≠ 58) = strBytes "wfd_video_formats" :=
    takeWhile_append_stop _ _ _ (by decide) (by simp [headStops])
  rw [htw]
  have hdrop : (strBytes "wfd_video_formats" ++ 58 :: tail).drop
      (strBytes "wfd_video_formats").length = 58 :: tail :=
    List.drop_left _ _
  simp only [hdrop, List.drop_succ_cons, List.drop_zero]
  have h1 : (strBytes "wfd_video_formats" = strBytes "wfd_audio_codecs") =
      False := by decide
  simp only [h1, if_false, if_true]

/-- `gst_wfd_parse_attribute` on a `wfd_content_protection` line. -/
theorem parse_attribute_cp_line (tail : List Nat) (msg : GstWFDMessage) :
    gst_wfd_parse_attribute (strBytes "wfd_content_protection" ++ 58 :: tail) msg =
      { msg with content_protection := some (parseContentProtection tail) } := by
  unfold gst_wfd_parse_attribute
  have htw : (strBytes "wfd_content_protection" ++ 58 :: tail).takeWhile
      (fun c => c ≠ 58) = strBytes "wfd_content_protection" :=
    takeWhile_append_stop _ _ _ (by decide) (by simp [headStops])
  rw [htw]
  have hdrop : (strBytes "wfd_content_protection" ++ 58 :: tail).drop
      (strBytes "wfd_content_protection").length = 58 :: tail :=
    List.drop_left _ _
  simp only [hdrop, List.drop_succ_cons, List.drop_zero]
  have h1 : (strBytes "wfd_content_protection" = strBytes "wfd_audio_codecs") =
      False := by decide
  have h2 : (strBytes "wfd_content_protection" = strBytes "wfd_video_formats") =
      False := by decide
  simp only [h1, h2, if_false, if_true]

/-- `gst_wfd_parse_attribute` on a `wfd_presentation_URL` line. -/
theorem parse_attribute_url_line (tail : List Nat) (msg : GstWFDMessage) :
    gst_wfd_parse_attribute (strBytes "wfd_presentation_URL" ++ 58 :: tail) msg =
      { msg with presentation_url := some (parsePresentationUrl tail) } := by
  unfold gst_wfd_parse_attribute
  have htw : (strBytes "wfd_presentation_URL" ++ 58 :: tail).takeWhile
      (fun c => c ≠ 58) = strBytes "wfd_presentation_URL" :=
    takeWhile_append_stop _ _ _ (by decide) (by simp [headStops])
  rw [htw]
  have hdrop : (strBytes "wfd_presentation_URL" ++ 58 :: tail).drop
      (strBytes "wfd_presentation_URL").length = 58 :: tail :=
    List.drop_left _ _
  simp only [hdrop, List.drop_succ_cons, List.drop_zero]
  have h1 : (strBytes "wfd_presentation_URL" = strBytes "wfd_audio_codecs") =
      False := by decide
  have h2 : (strBytes "wfd_presentation_URL" = strBytes "wfd_video_formats") =
      False := by decide
  have h3 : (strBytes "wfd_presentation_URL" = strBytes "wfd_content_protection") =
      False := by decide
  have h4 : (strBytes "wfd_presentation_URL" = strBytes "wfd_display_edid") =
      False := by decide
  simp only [h1, h2, h3, h4, if_false, if_true]

/-- `gst_wfd_parse_attribute` on a `wfd_client_rtp_ports` line. -/
theorem parse_attribute_ports_line (tail : List Nat) (msg : GstWFDMessage) :
    gst_wfd_parse_attribute (strBytes "wfd_client_rtp_ports" ++ 58 :: tail) msg =
      { msg with client_rtp_ports := some (parseClientRtpPorts tail) } := by
  unfold gst_wfd_parse_attribute
  have htw : (strBytes "wfd_client_rtp_ports" ++ 58 :: tail).takeWhile
      (fun c => c ≠ 58) = strBytes "wfd_client_rtp_ports" :=
    takeWhile_append_stop _ _ _ (by decide) (by simp [headStops])
  rw [htw]
  have hdrop : (strBytes "wfd_client_rtp_ports" ++ 58 :: tail).drop
      (strBytes "wfd_client_rtp_ports").length = 58 :: tail :=
    List.drop_left _ _
  simp only [hdrop, List.drop_succ_cons, List.drop_zero]
  have h1 : (strBytes "wfd_client_rtp_ports" = strBytes "wfd_audio_codecs") =
      False := by decide
  have h2 : (strBytes "wfd_client_rtp_ports" = strBytes "wfd_video_formats") =
      False := by decide
  have h3 : (strBytes "wfd_client_rtp_ports" = strBytes "wfd_content_protection") =
      False := by decide
  have h4 : (strBytes "wfd_client_rtp_ports" = strBytes "wfd_display_edid") =
      False := by decide
  have h5 : (strBytes "wfd_client_rtp_ports" = strBytes "wfd_presentation_URL") =
      False := by decide
  simp only [h1, h2, h3, h4, h5, if_false, if_true]

/-- `gst_wfd_parse_attribute` on a `wfd_av_format_change_timing` line. -/
theorem parse_attribute_timing_line (tail : List Nat) (msg : GstWFDMessage) :
    gst_wfd_parse_attribute (strBytes "wfd_av_format_change_timing" ++ 58 :: tail) msg =
      { msg with av_format_change_timing := some (parseAvFormatChangeTiming tail) } := by
  unfold gst_wfd_parse_attribute
  have htw : (strBytes "wfd_av_format_change_timing" ++ 58 :: tail).takeWhile
      (fun c => c ≠ 58) = strBytes "wfd_av_format_change_timing" :=
    takeWhile_append_stop _ _ _ (by decide) (by simp [headStops])
  rw [htw]
  have hdrop : (strBytes "wfd_av_format_change_timing" ++ 58 :: tail).drop
      (strBytes "wfd_av_format_change_timing").length = 58 :: tail :=
    List.drop_left _ _
  simp only [hdrop, List.drop_succ_cons, List.drop_zero]
  have h1 : (strBytes "wfd_av_format_change_timing" = strBytes "wfd_audio_codecs") =
      False := by decide
  have h2 : (strBytes "wfd_av_format_change_timing" = strBytes "wfd_video_formats") =
      False := by decide
  have h3 : (strBytes "wfd_av_format_change_timing" = strBytes "wfd_content_protection") =
      False := by decide
  have h4 : (strBytes "wfd_av_format_change_timing" = strBytes "wfd_display_edid") =
      False := by decide
  have h5 : (strBytes "wfd_av_format_change_timing" = strBytes "wfd_presentation_URL") =
      False := by decide
  have h6 : (strBytes "wfd_av_format_change_timing" = strBytes "wfd_client_rtp_ports") =
      False := by decide
  simp only [h1, h2, h3, h4, h5, h6, if_false, if_true]

/-! # Messages built through the recognized setters -/

/-- Codec name the audio setter stores for a recognized codec. -/
def audioName (a_codec : Nat) : List Nat :=
  if a_codec = GST_WFD_AUDIO_LPCM then strBytes "LPCM"
  else if a_codec = GST_WFD_AUDIO_AAC then strBytes "AAC"
  else strBytes "AC3"

/-- Modes field the audio setter stores: sampling frequencies for LPCM,
channels otherwise. -/
def audioModes (a_codec a_freq a_channels : Nat) : Nat :=
  if a_codec = GST_WFD_AUDIO_LPCM then a_freq else a_channels

/-- Version string the content-protection setter stores for a
recognized HDCP version. -/
def cpVersionStr (hdcpversion : Nat) : List Nat :=
  if hdcpversion = GST_WFD_HDCP_2_0 then strBytes "HDCP2.0"
  else strBytes "HDCP2.1"

/-- Profile string `gst_wfd_messge_set_prefered_rtp_ports` concatenates
from the transport, profile and lower-transport selectors. -/
def rtpProfileStr (trans rtspProfileSel lowertrans : Nat) : List Nat :=
  let s1 :=
    if trans = GST_WFD_RTSP_TRANS_RTP then strBytes "RTP"
    else if trans = GST_WFD_RTSP_TRANS_RDT then strBytes "RDT" else []
  let s2 :=
    if rtspProfileSel = GST_WFD_RTSP_PROFILE_AVP then s1 ++ strBytes "/AVP"
    else if rtspProfileSel = GST_WFD_RTSP_PROFILE_SAVP then
      s1 ++ strBytes "/SAVP"
    else s1
  if lowertrans = GST_WFD_RTSP_LOWER_TRANS_UDP then
    s2 ++ strBytes "/UDP;unicast"
  else if lowertrans = GST_WFD_RTSP_LOWER_TRANS_UDP_MCAST then
    s2 ++ strBytes "/UDP;multicast"
  else if lowertrans = GST_WFD_RTSP_LOWER_TRANS_TCP then
    s2 ++ strBytes "/TCP;unicast"
  else if lowertrans = GST_WFD_RTSP_LOWER_TRANS_HTTP then
    s2 ++ strBytes "/HTTP"
  else s2

/-- The audio setter for a recognized codec. -/
theorem set_prefered_audio_format_eq (msg : GstWFDMessage)
    (a_codec a_freq a_channels a_bitwidth a_latency : Nat)
    (h : a_codec = GST_WFD_AUDIO_LPCM ∨ a_codec = GST_WFD_AUDIO_AAC ∨
      a_codec = GST_WFD_AUDIO_AC3) :
    gst_wfd_message_set_prefered_audio_format msg a_codec a_freq
        a_channels a_bitwidth a_latency =
      { msg with audio_codecs := some { list := some [⟨some
          (audioName a_codec), audioModes a_codec a_freq a_channels,
          a_latency⟩] } } := by
  rcases h with rfl | rfl | rfl <;> rfl

/-- The supported-video setter for a recognized codec. -/
theorem set_supported_video_format_eq (msg : GstWFDMessage)
    (v_codec v_native v_native_resolution v_cea v_vesa v_hh v_profile
      v_level v_latency v_max_height v_max_width mss sep frc : Nat)
    (h : v_codec ≠ GST_WFD_VIDEO_UNKNOWN) :
    gst_wfd_message_set_supported_video_format msg v_codec v_native
        v_native_resolution v_cea v_vesa v_hh v_profile v_level
        v_latency v_max_height v_max_width mss sep frc =
      { msg with video_formats := some ⟨some
          ⟨supportedNativeField v_native v_native_resolution, 1,
            ⟨v_profile, v_level, ⟨v_cea % 4294967296, v_vesa % 4294967296,
              v_hh % 4294967296, v_latency, mss, sep, frc⟩,
              v_max_height, v_max_width⟩⟩⟩ } := by
  unfold gst_wfd_message_set_supported_video_format
  rw [if_pos h]

/-- The content-protection setter for a recognized HDCP version and an
in-range port. -/
theorem set_contentprotection_type_eq (msg : GstWFDMessage)
    (hdcpversion TCPPort : Nat)
    (h : hdcpversion = GST_WFD_HDCP_2_0 ∨ hdcpversion = GST_WFD_HDCP_2_1)
    (hport : TCPPort ≤ 65535) :
    gst_wfd_message_set_contentprotection_type msg hdcpversion TCPPort =
      { msg with content_protection := some ⟨some ⟨some
          (cpVersionStr hdcpversion),
          some (strBytes "port=" ++ toDecDigits TCPPort)⟩⟩ } := by
  rcases h with rfl | rfl <;>
    (unfold gst_wfd_message_set_contentprotection_type cpVersionStr
     rw [if_neg (by omega)]
     rfl)

/-- The RTP-ports setter for a recognized transport. -/
theorem set_prefered_rtp_ports_eq (msg : GstWFDMessage)
    (trans rtspProfileSel lowertrans p0 p1 : Nat)
    (h : trans = GST_WFD_RTSP_TRANS_RTP ∨ trans = GST_WFD_RTSP_TRANS_RDT) :
    gst_wfd_messge_set_prefered_rtp_ports msg trans rtspProfileSel
        lowertrans p0 p1 =
      { msg with client_rtp_ports := some ⟨some
          (rtpProfileStr trans rtspProfileSel lowertrans), p0, p1,
          some (strBytes "mode=play")⟩ } := by
  rcases h with rfl | rfl <;>
    (unfold gst_wfd_messge_set_prefered_rtp_ports rtpProfileStr
     rw [if_pos (by decide)])

/-- The URL setter with both URLs present. -/
theorem set_presentation_url_eq (msg : GstWFDMessage) (u0 u1 : List Nat) :
    gst_wfd_message_set_presentation_url msg (some u0) (some u1) =
      { msg with presentation_url := some ⟨some u0, some u1⟩ } := rfl

/-- The EDID setter with support off, on a fresh message. -/
theorem set_display_edid_zero (bc : Nat) (p : Option (List Nat)) :
    gst_wfd_message_set_display_edid gst_wfd_message_new 0 bc p =
      { gst_wfd_message_new with display_edid := some ⟨0, 0, none⟩ } := rfl

/-- A message built through the full chain of recognized setters
(`rtsp-client-wfd.c` builds its M4 body from exactly these calls). -/
def buildWfdMsg (a_codec a_freq a_channels a_bitwidth a_latency
    v_codec v_native v_native_resolution v_cea v_vesa v_hh v_profile
    v_level v_lat v_maxh v_maxw v_mss v_sep v_frc
    hdcpver tcpport edid_bc : Nat) (edid_payload : Option (List Nat))
    (url0 url1 : List Nat) (trans profSel ltrans p0 p1 pts dts : Nat) :
    GstWFDMessage :=
  gst_wfd_message_set_av_format_change_timing
    (gst_wfd_messge_set_prefered_rtp_ports
      (gst_wfd_message_set_presentation_url
        (gst_wfd_message_set_contentprotection_type
          (gst_wfd_message_set_supported_video_format
            (gst_wfd_message_set_prefered_audio_format
              (gst_wfd_message_set_display_edid gst_wfd_message_new 0
                edid_bc edid_payload)
              a_codec a_freq a_channels a_bitwidth a_latency)
            v_codec v_native v_native_resolution v_cea v_vesa v_hh
            v_profile v_level v_lat v_maxh v_maxw v_mss v_sep v_frc)
          hdcpver tcpport)
        (some url0) (some url1))
      trans profSel ltrans p0 p1)
    pts dts

/-- A message the prefered-video setter builds with a 1280x720 bound:
`preferred_display_mode_supported` is serialized as `00`, so the parser
never reads the resolution bounds back. -/
def mC3prefVideo : GstWFDMessage :=
  gst_wfd_message_set_prefered_video_format gst_wfd_message_new 1 0 32 32
    0 0 1 1 0 1280 720 0 0 0

/-- C3: the round trip `parse (serialize m) = m` FAILS for a message
built through the recognized setter
`gst_wfd_message_set_prefered_video_format`: it stores
`preferred_display_mode_supported = 0` together with the 1280x720
resolution bounds, but the parser reads the bound fields only when that
flag parses as 1, so the bounds come back as 0. -/
theorem roundtrip_counterexample :
    gst_wfd_message_parse_buffer (gst_wfd_message_as_text mC3prefVideo) ≠
      mC3prefVideo := by decide

/-! # Byte-class and length facts about the serialized lines -/

/-- A line of the form `name: value` is clean when its pieces are. -/
theorem lineClean (nameStr tail : List Nat)
    (hname : ∀ c ∈ nameStr, isLineEnd c = false)
    (htail : ∀ c ∈ tail, isLineEnd c = false) :
    ∀ c ∈ nameStr ++ 58 :: tail, isLineEnd c = false := by
  intro c hc
  rcases List.mem_append.mp hc with h | h
  · exact hname c h
  · rcases List.mem_cons.mp h with rfl | h
    · decide
    · exact htail c h

/-- Characters of the serialized audio value. -/
theorem audioTail_not_lineEnd (name : List Nat) (modes lat : Nat)
    (hn : ∀ c ∈ name, isLineEnd c = false) :
    ∀ c ∈ audioTail name modes lat, isLineEnd c = false := by
  intro c hc
  simp only [audioTail, List.mem_cons, List.mem_append] at hc
  rcases hc with rfl | (h | rfl | h | rfl | h)
  · decide
  · exact hn c h
  · decide
  · exact hexPad_not_lineEnd 8 modes c h
  · decide
  · exact hexPad_not_lineEnd 2 lat c h

/-- Characters of the serialized video value. -/
theorem videoTail_not_lineEnd (native prof lev cea vesa hh lat mss sep
    frc hres vres : Nat) :
    ∀ c ∈ videoTail native prof lev cea vesa hh lat mss sep frc hres vres,
      isLineEnd c = false := by
  intro c hc
  simp only [videoTail, List.mem_cons, List.mem_append] at hc
  rcases hc with rfl | (h | rfl | h | rfl | h | rfl | h | rfl | h | rfl |
      h | rfl | h | rfl | h | rfl | h | rfl | h | rfl | h | rfl | h |
      rfl | h)
  all_goals first
    | decide
    | exact hexPad_not_lineEnd _ _ c h
    | exact maxresTok_not_lineEnd _ c h

/-- Characters of the serialized content-protection value. -/
theorem cpTail_not_lineEnd (ver : List Nat) (port : Nat)
    (hv : ∀ c ∈ ver, isLineEnd c = false) :
    ∀ c ∈ cpTail ver port, isLineEnd c = false := by
  intro c hc
  simp only [cpTail, List.mem_cons, List.mem_append] at hc
  rcases hc with rfl | (h | rfl | h | h)
  · decide
  · exact hv c h
  · decide
  · have hall : ∀ y ∈ strBytes "port=", isLineEnd y = false := by decide
    exact hall c h
  · exact toDecDigits_not_lineEnd port c h

/-- Characters of the serialized presentation-URL value. -/
theorem urlTail_not_lineEnd (u0 u1 : List Nat)
    (h0 : ∀ c ∈ u0, isLineEnd c = false)
    (h1 : ∀ c ∈ u1, isLineEnd c = false) :
    ∀ c ∈ urlTail u0 u1, isLineEnd c = false := by
  intro c hc
  simp only [urlTail, List.mem_cons, List.mem_append] at hc
  rcases hc with rfl | (h | rfl | h)
  · decide
  · exact h0 c h
  · decide
  · exact h1 c h

/-- Characters of the serialized client-RTP-ports value. -/
theorem portsTail_not_lineEnd (prof : List Nat) (p0 p1 : Nat)
    (hp : ∀ c ∈ prof, isLineEnd c = false) :
    ∀ c ∈ portsTail prof p0 p1, isLineEnd c = false := by
  intro c hc
  simp only [portsTail, List.mem_cons, List.mem_append] at hc
  rcases hc with rfl | (h | rfl | h | rfl | h | rfl | h)
  · decide
  · exact hp c h
  · decide
  · exact toDecDigits_not_lineEnd p0 c h
  · decide
  · exact toDecDigits_not_lineEnd p1 c h
  · decide
  · have hall : ∀ y ∈ strBytes "mode=play", isLineEnd y = false := by decide
    exact hall c h

/-- Characters of the serialized timing value. -/
theorem timingTail_not_lineEnd (pts dts : Nat) :
    ∀ c ∈ timingTail pts dts, isLineEnd c = false := by
  intro c hc
  simp only [timingTail, List.mem_cons, List.mem_append] at hc
  rcases hc with rfl | (h | rfl | h)
  · decide
  · exact hexPad_not_lineEnd 10 pts c h
  · decide
  · exact hexPad_not_lineEnd 10 dts c h

/-- The `oring` of two `guint32` values stays below `2^32`. -/
theorem or_lt_2pow32 (x y : Nat) (hx : x < 4294967296)
    (hy : y < 4294967296) : (x ||| y) < 4294967296 := by
  have h32 : (4294967296 : Nat) = 2 ^ 32 := by norm_num
  rw [h32] at hx hy ⊢
  exact Nat.or_lt_two_pow hx hy

/-- The native field the supported-video setter computes is a
`guint32`. -/
theorem supportedNativeField_lt (a b : Nat) :
    supportedNativeField a b < 4294967296 := by
  unfold supportedNativeField
  have hbase : (((bitLength b + 4294967295) % 4294967296) <<< 3) %
      4294967296 < 4294967296 := Nat.mod_lt _ (by norm_num)
  by_cases h1 : a = GST_WFD_VIDEO_VESA_RESOLUTION
  · rw [if_pos h1]
    exact or_lt_2pow32 _ _ hbase (by norm_num)
  · rw [if_neg h1]
    by_cases h2 : a = GST_WFD_VIDEO_HH_RESOLUTION
    · rw [if_pos h2]
      exact or_lt_2pow32 _ _ hbase (by norm_num)
    · rw [if_neg h2]
      exact hbase

/-- Length of the serialized audio value. -/
theorem audioTail_length_le (name : List Nat) (modes lat : Nat)
    (hnl : name.length ≤ 4) (hm : modes < 4294967296)
    (hl : lat < 4294967296) :
    (audioTail name modes lat).length ≤ 23 := by
  have h1 : (hexPad 8 modes).length ≤ 8 :=
    hexPad_length_le 8 8 modes (by omega) (by omega) (by norm_num; omega)
  have h2 : (hexPad 2 lat).length ≤ 8 :=
    hexPad_length_le 2 8 lat (by omega) (by omega) (by norm_num; omega)
  simp [audioTail]
  omega

/-- Length of the serialized video value. -/
theorem videoTail_length_le (native prof lev cea vesa hh lat mss sep frc
    hres vres : Nat) (h1 : native < 4294967296) (h2 : prof < 4294967296)
    (h3 : lev < 4294967296) (h4 : cea < 4294967296)
    (h5 : vesa < 4294967296) (h6 : hh < 4294967296)
    (h7 : lat < 4294967296) (h8 : mss < 4294967296)
    (h9 : sep < 4294967296) (h10 : frc < 4294967296)
    (h11 : hres < 4294967296) (h12 : vres < 4294967296) :
    (videoTail native prof lev cea vesa hh lat mss sep frc hres
      vres).length ≤ 117 := by
  have e32 : (4294967296 : Nat) = 16 ^ 8 := by norm_num
  rw [e32] at h1 h2 h3 h4 h5 h6 h7 h8 h9 h10 h11 h12
  have b1 := hexPad_length_le 2 8 native (by omega) (by omega) h1
  have b2 := hexPad_length_le 2 8 1 (by omega) (by omega) (by norm_num)
  have b3 := hexPad_length_le 2 8 prof (by omega) (by omega) h2
  have b4 := hexPad_length_le 2 8 lev (by omega) (by omega) h3
  have b5 := hexPad_length_le 8 8 cea (by omega) (by omega) h4
  have b6 := hexPad_length_le 8 8 vesa (by omega) (by omega) h5
  have b7 := hexPad_length_le 8 8 hh (by omega) (by omega) h6
  have b8 := hexPad_length_le 2 8 lat (by omega) (by omega) h7
  have b9 := hexPad_length_le 4 8 mss (by omega) (by omega) h8
  have b10 := hexPad_length_le 4 8 sep (by omega) (by omega) h9
  have b11 := hexPad_length_le 2 8 frc (by omega) (by omega) h10
  have b12 := maxresTok_length_le hres (by rw [e32]; exact h11)
  have b13 := maxresTok_length_le vres (by rw [e32]; exact h12)
  simp [videoTail]
  omega

/-- Length of the serialized content-protection value. -/
theorem cpTail_length_le (ver : List Nat) (port : Nat)
    (hv : ver.length ≤ 7) (hp : port ≤ 65535) :
    (cpTail ver port).length ≤ 19 := by
  have h1 : (toDecDigits port).length ≤ 5 :=
    toDecDigits_length_le 5 port (by omega) (by omega)
  have h2 : (strBytes "port=").length = 5 := by decide
  simp [cpTail]
  omega

/-- Length of the serialized presentation-URL value. -/
theorem urlTail_length_le (u0 u1 : List Nat)
    (h : u0.length + u1.length ≤ 231) :
    (urlTail u0 u1).length ≤ 233 := by
  simp [urlTail]
  omega

/-- Length of the serialized client-RTP-ports value. -/
theorem portsTail_length_le (prof : List Nat) (p0 p1 : Nat)
    (hprof : prof.length ≤ 22) (hp0 : p0 < 4294967296)
    (hp1 : p1 < 4294967296) :
    (portsTail prof p0 p1).length ≤ 55 := by
  have h1 : (toDecDigits p0).length ≤ 10 :=
    toDecDigits_length_le 10 p0 (by omega) (by norm_num; omega)
  have h2 : (toDecDigits p1).length ≤ 10 :=
    toDecDigits_length_le 10 p1 (by omega) (by norm_num; omega)
  have h3 : (strBytes "mode=play").length = 9 := by decide
  simp [portsTail]
  omega

/-- Length of the serialized timing value. -/
theorem timingTail_length_le (pts dts : Nat)
    (hp : pts < 18446744073709551616) (hd : dts < 18446744073709551616) :
    (timingTail pts dts).length ≤ 34 := by
  have e64 : (18446744073709551616 : Nat) = 16 ^ 16 := by norm_num
  rw [e64] at hp hd
  have h1 := hexPad_length_le 10 16 pts (by omega) (by omega) hp
  have h2 := hexPad_length_le 10 16 dts (by omega) (by omega) hd
  simp [timingTail]
  omega

/-- Character and length facts about the RTP profile string, for the
recognized selector values. -/
theorem rtpProfileStr_facts (t p lt : Nat)
    (ht : t = GST_WFD_RTSP_TRANS_RTP ∨ t = GST_WFD_RTSP_TRANS_RDT)
    (hp : p = GST_WFD_RTSP_PROFILE_UNKNOWN ∨ p = GST_WFD_RTSP_PROFILE_AVP ∨
      p = GST_WFD_RTSP_PROFILE_SAVP)
    (hlt : lt = GST_WFD_RTSP_LOWER_TRANS_UNKNOWN ∨
      lt = GST_WFD_RTSP_LOWER_TRANS_UDP ∨
      lt = GST_WFD_RTSP_LOWER_TRANS_UDP_MCAST ∨
      lt = GST_WFD_RTSP_LOWER_TRANS_TCP ∨
      lt = GST_WFD_RTSP_LOWER_TRANS_HTTP) :
    (∀ c ∈ rtpProfileStr t p lt,
      isSpaceByte c = false ∧ isLineEnd c = false ∧ c ≠ 0) ∧
      (rtpProfileStr t p lt).length ≤ 22 := by
  rcases ht with rfl | rfl <;> rcases hp with rfl | rfl | rfl <;>
    rcases hlt with rfl | rfl | rfl | rfl | rfl <;> decide

/-- A non-space, non-NUL byte never terminates a line. -/
theorem not_lineEnd_of_nonspace_nz (c : Nat) (hs : isSpaceByte c = false)
    (hz : c ≠ 0) : isLineEnd c = false := by
  simp [isSpaceByte] at hs
  simp [isLineEnd]
  omega

/-- C3 (amended): `parse (serialize m) = m` does hold on the sub-grammar
of messages built through the full chain of recognized setters when the
selector arguments are recognized enum values (audio codec LPCM/AAC/AC3,
video codec not UNKNOWN, HDCP version 2.0/2.1 with an in-range port,
transport RTP/RDT with recognized profile and lower-transport selectors),
the EDID attribute is set unsupported, the numeric arguments fit the C
field types, and the URLs are non-empty-safe space-free NUL-free strings
short enough that the presentation-URL line stays within the 254-byte
line buffer. -/
theorem setter_subgrammar_roundtrip
    (a_codec a_freq a_channels a_bitwidth a_latency : Nat)
    (v_codec v_native v_nres v_cea v_vesa v_hh v_profile v_level v_lat
      v_maxh v_maxw v_mss v_sep v_frc : Nat)
    (hdcpver tcpport edid_bc : Nat) (edid_payload : Option (List Nat))
    (url0 url1 : List Nat) (trans profSel ltrans p0 p1 pts dts : Nat)
    (hac : a_codec = GST_WFD_AUDIO_LPCM ∨ a_codec = GST_WFD_AUDIO_AAC ∨
      a_codec = GST_WFD_AUDIO_AC3)
    (hfr : a_freq < 4294967296) (hch : a_channels < 4294967296)
    (hal : a_latency < 4294967296)
    (hvc : v_codec ≠ GST_WFD_VIDEO_UNKNOWN)
    (hvp : v_profile < 4294967296) (hvl : v_level < 4294967296)
    (hvlat : v_lat < 4294967296) (hmaxh : v_maxh < 4294967296)
    (hmaxw : v_maxw < 4294967296) (hmssb : v_mss < 4294967296)
    (hsepb : v_sep < 4294967296) (hfrcb : v_frc < 4294967296)
    (hhd : hdcpver = GST_WFD_HDCP_2_0 ∨ hdcpver = GST_WFD_HDCP_2_1)
    (hport : tcpport ≤ 65535)
    (hu0 : ∀ c ∈ url0, isSpaceByte c = false ∧ c ≠ 0)
    (hu1 : ∀ c ∈ url1, isSpaceByte c = false ∧ c ≠ 0)
    (hulen : url0.length + url1.length ≤ 231)
    (htr : trans = GST_WFD_RTSP_TRANS_RTP ∨
      trans = GST_WFD_RTSP_TRANS_RDT)
    (hps : profSel = GST_WFD_RTSP_PROFILE_UNKNOWN ∨
      profSel = GST_WFD_RTSP_PROFILE_AVP ∨
      profSel = GST_WFD_RTSP_PROFILE_SAVP)
    (hlt : ltrans = GST_WFD_RTSP_LOWER_TRANS_UNKNOWN ∨
      ltrans = GST_WFD_RTSP_LOWER_TRANS_UDP ∨
      ltrans = GST_WFD_RTSP_LOWER_TRANS_UDP_MCAST ∨
      ltrans = GST_WFD_RTSP_LOWER_TRANS_TCP ∨
      ltrans = GST_WFD_RTSP_LOWER_TRANS_HTTP)
    (hp0 : p0 < 4294967296) (hp1 : p1 < 4294967296)
    (hpts : pts < 18446744073709551616)
    (hdts : dts < 18446744073709551616) :
    gst_wfd_message_parse_buffer (gst_wfd_message_as_text
        (buildWfdMsg a_codec a_freq a_channels a_bitwidth a_latency
          v_codec v_native v_nres v_cea v_vesa v_hh v_profile v_level
          v_lat v_maxh v_maxw v_mss v_sep v_frc hdcpver tcpport edid_bc
          edid_payload url0 url1 trans profSel ltrans p0 p1 pts dts)) =
      buildWfdMsg a_codec a_freq a_channels a_bitwidth a_latency v_codec
        v_native v_nres v_cea v_vesa v_hh v_profile v_level v_lat v_maxh
        v_maxw v_mss v_sep v_frc hdcpver tcpport edid_bc edid_payload
        url0 url1 trans profSel ltrans p0 p1 pts dts := by
  have haN : ∀ c ∈ audioName a_codec,
      isSpaceByte c = false ∧ isLineEnd c = false ∧ c ≠ 0 := by
    rcases hac with rfl | rfl | rfl <;> decide
  have haL : (audioName a_codec).length = 3 ∨
      (audioName a_codec).length = 4 := by
    rcases hac with rfl | rfl | rfl <;> decide
  have haL4 : (audioName a_codec).length ≤ 4 := by
    rcases haL with h | h <;> omega
  have hmodes : audioModes a_codec a_freq a_channels < 4294967296 := by
    unfold audioModes
    split_ifs <;> omega
  have hvN : ∀ c ∈ cpVersionStr hdcpver,
      isSpaceByte c = false ∧ isLineEnd c = false ∧ c ≠ 0 := by
    rcases hhd with rfl | rfl <;> decide
  have hv110 : 110 ∉ cpVersionStr hdcpver := by
    rcases hhd with rfl | rfl <;> decide
  have hvL : (cpVersionStr hdcpver).length = 7 := by
    rcases hhd with rfl | rfl <;> decide
  obtain ⟨hPc, hPl⟩ := rtpProfileStr_facts trans profSel ltrans htr hps hlt
  have hu0le : ∀ c ∈ url0, isLineEnd c = false := fun c hc =>
    not_lineEnd_of_nonspace_nz c (hu0 c hc).1 (hu0 c hc).2
  have hu1le : ∀ c ∈ url1, isLineEnd c = false := fun c hc =>
    not_lineEnd_of_nonspace_nz c (hu1 c hc).1 (hu1 c hc).2
  have hM : buildWfdMsg a_codec a_freq a_channels a_bitwidth a_latency
      v_codec v_native v_nres v_cea v_vesa v_hh v_profile v_level v_lat
      v_maxh v_maxw v_mss v_sep v_frc hdcpver tcpport edid_bc
      edid_payload url0 url1 trans profSel ltrans p0 p1 pts dts =
      { audio_codecs := some { list := some [⟨some (audioName a_codec),
          audioModes a_codec a_freq a_channels, a_latency⟩] }
        video_formats := some ⟨some ⟨supportedNativeField v_native v_nres,
          1, ⟨v_profile, v_level, ⟨v_cea % 4294967296, v_vesa % 4294967296,
          v_hh % 4294967296, v_lat, v_mss, v_sep, v_frc⟩, v_maxh,
          v_maxw⟩⟩⟩
        content_protection := some ⟨some ⟨some (cpVersionStr hdcpver),
          some (strBytes "port=" ++ toDecDigits tcpport)⟩⟩
        display_edid := some ⟨0, 0, none⟩
        presentation_url := some ⟨some url0, some url1⟩
        client_rtp_ports := some ⟨some (rtpProfileStr trans profSel
          ltrans), p0, p1, some (strBytes "mode=play")⟩
        av_format_change_timing := some ⟨pts, dts⟩ } := by
    unfold buildWfdMsg
    rw [set_display_edid_zero,
      set_prefered_audio_format_eq _ _ _ _ _ _ hac,
      set_supported_video_format_eq _ _ _ _ _ _ _ _ _ _ _ _ _ _ _ hvc,
      set_contentprotection_type_eq _ _ _ hhd hport,
      set_presentation_url_eq,
      set_prefered_rtp_ports_eq _ _ _ _ _ _ htr]
    rfl
  rw [hM]
  unfold gst_wfd_message_as_text
  have hbodies : msgLineBodies
      { audio_codecs := some { list := some [⟨some (audioName a_codec),
          audioModes a_codec a_freq a_channels, a_latency⟩] }
        video_formats := some ⟨some ⟨supportedNativeField v_native v_nres,
          1, ⟨v_profile, v_level, ⟨v_cea % 4294967296, v_vesa % 4294967296,
          v_hh % 4294967296, v_lat, v_mss, v_sep, v_frc⟩, v_maxh,
          v_maxw⟩⟩⟩
        content_protection := some ⟨some ⟨some (cpVersionStr hdcpver),
          some (strBytes "port=" ++ toDecDigits tcpport)⟩⟩
        display_edid := some ⟨0, 0, none⟩
        presentation_url := some ⟨some url0, some url1⟩
        client_rtp_ports := some ⟨some (rtpProfileStr trans profSel
          ltrans), p0, p1, some (strBytes "mode=play")⟩
        av_format_change_timing := some ⟨pts, dts⟩ } =
      [audioCodecsText { list := some [⟨some (audioName a_codec),
          audioModes a_codec a_freq a_channels, a_latency⟩] },
        videoFormatsText ⟨some ⟨supportedNativeField v_native v_nres, 1,
          ⟨v_profile, v_level, ⟨v_cea % 4294967296, v_vesa % 4294967296,
          v_hh % 4294967296, v_lat, v_mss, v_sep, v_frc⟩, v_maxh,
          v_maxw⟩⟩⟩,
        contentProtectionText ⟨some ⟨some (cpVersionStr hdcpver),
          some (strBytes "port=" ++ toDecDigits tcpport)⟩⟩,
        displayEdidText ⟨0, 0, none⟩,
        presentationUrlText ⟨some url0, some url1⟩,
        clientRtpPortsText ⟨some (rtpProfileStr trans profSel ltrans),
          p0, p1, some (strBytes "mode=play")⟩,
        avFormatChangeTimingText ⟨pts, dts⟩] := rfl
  rw [hbodies,
    audioCodecsText_eq _ _ _ (fun c hc => (haN c hc).2.2),
    videoFormatsText_eq _ rfl,
    contentProtectionText_eq _ _ (fun c hc => (hvN c hc).2.2),
    displayEdidText_eq,
    presentationUrlText_eq _ _ (fun c hc => (hu0 c hc).2)
      (fun c hc => (hu1 c hc).2),
    clientRtpPortsText_eq _ _ _ (fun c hc => (hPc c hc).2.2),
    avFormatChangeTimingText_eq]
  unfold gst_wfd_message_parse_buffer
  rw [parseBufferLines_joinCrlf _ ?hclean ?hlen]
  case hclean =>
    intro l hl
    simp only [List.mem_cons, List.not_mem_nil, or_false] at hl
    rcases hl with rfl | rfl | rfl | rfl | rfl | rfl | rfl
    · exact lineClean _ _ (by decide)
        (audioTail_not_lineEnd _ _ _ (fun c hc => (haN c hc).2.1))
    · exact lineClean _ _ (by decide)
        (videoTail_not_lineEnd _ _ _ _ _ _ _ _ _ _ _ _)
    · exact lineClean _ _ (by decide)
        (cpTail_not_lineEnd _ _ (fun c hc => (hvN c hc).2.1))
    · exact lineClean _ _ (by decide) (by decide)
    · exact lineClean _ _ (by decide) (urlTail_not_lineEnd _ _ hu0le hu1le)
    · exact lineClean _ _ (by decide)
        (portsTail_not_lineEnd _ _ _ (fun c hc => (hPc c hc).2.1))
    · exact lineClean _ _ (by decide) (timingTail_not_lineEnd _ _)
  case hlen =>
    intro l hl
    simp only [List.mem_cons, List.not_mem_nil, or_false] at hl
    have hn1 : (strBytes "wfd_audio_codecs").length = 16 := by decide
    have hn2 : (strBytes "wfd_video_formats").length = 17 := by decide
    have hn3 : (strBytes "wfd_content_protection").length = 22 := by decide
    have hn4 : (strBytes "wfd_display_edid").length = 16 := by decide
    have hn5 : (strBytes "wfd_presentation_URL").length = 20 := by decide
    have hn6 : (strBytes "wfd_client_rtp_ports").length = 20 := by decide
    have hn7 : (strBytes "wfd_av_format_change_timing").length = 27 := by
      decide
    rcases hl with rfl | rfl | rfl | rfl | rfl | rfl | rfl
    · have hb := audioTail_length_le (audioName a_codec)
        (audioModes a_codec a_freq a_channels) a_latency haL4 hmodes hal
      simp only [List.length_append, List.length_cons, hn1]
      omega
    · have hb := videoTail_length_le (supportedNativeField v_native
          v_nres) v_profile v_level (v_cea % 4294967296)
        (v_vesa % 4294967296) (v_hh % 4294967296) v_lat v_mss v_sep v_frc
        v_maxh v_maxw (supportedNativeField_lt v_native v_nres) hvp hvl
        (Nat.mod_lt _ (by norm_num)) (Nat.mod_lt _ (by norm_num))
        (Nat.mod_lt _ (by norm_num)) hvlat hmssb hsepb hfrcb hmaxh hmaxw
      simp only [List.length_append, List.length_cons, hn2]
      omega
    · have hb := cpTail_length_le (cpVersionStr hdcpver) tcpport
        (by omega) hport
      simp only [List.length_append, List.length_cons, hn3]
      omega
    · simp only [List.length_append, List.length_cons, hn4]
      have hb : (strBytes " none").length = 5 := by decide
      omega
    · have hb := urlTail_length_le url0 url1 hulen
      simp only [List.length_append, List.length_cons, hn5]
      omega
    · have hb := portsTail_length_le (rtpProfileStr trans profSel ltrans)
        p0 p1 hPl hp0 hp1
      simp only [List.length_append, List.length_cons, hn6]
      omega
    · have hb := timingTail_length_le pts dts hpts hdts
      simp only [List.length_append, List.length_cons, hn7]
      omega
  simp only [List.foldl_cons, List.foldl_nil]
  rw [parse_attribute_audio_line, parse_attribute_video_line,
    parse_attribute_cp_line, parse_attribute_edid_line,
    parse_attribute_url_line, parse_attribute_ports_line,
    parse_attribute_timing_line]
  rw [parseAudioCodecs_roundtrip _ _ _ (fun c hc => (haN c hc).1) haL
      hmodes hal,
    parseVideoFormats_roundtrip,
    parseContentProtection_roundtrip _ _ (fun c hc => (hvN c hc).1) hv110,
    parseDisplayEdid_none,
    parsePresentationUrl_roundtrip _ _ (fun c hc => (hu0 c hc).1)
      (fun c hc => (hu1 c hc).1),
    parseClientRtpPorts_roundtrip _ _ _ (fun c hc => (hPc c hc).1),
    parseAvFormatChangeTiming_roundtrip]

/-- Concrete instance of the amended C3 round trip: AAC audio, H264
video with CEA 640x480p60 and no resolution bounds, HDCP 2.0 on port
1234, RTP/AVP/UDP;unicast ports 5000/0, URLs `rtsp://a` and `b`. -/
theorem setter_subgrammar_roundtrip_witness :
    (((2 : Nat) = GST_WFD_AUDIO_LPCM ∨ (2 : Nat) = GST_WFD_AUDIO_AAC ∨
        (2 : Nat) = GST_WFD_AUDIO_AC3) ∧
      (3 : Nat) < 4294967296 ∧
      (1 : Nat) ≠ GST_WFD_VIDEO_UNKNOWN ∧
      (1 : Nat) < 4294967296 ∧
      (0 : Nat) < 4294967296 ∧
      ((1 : Nat) = GST_WFD_HDCP_2_0 ∨ (1 : Nat) = GST_WFD_HDCP_2_1) ∧
      (1234 : Nat) ≤ 65535 ∧
      (∀ c ∈ strBytes "rtsp://a", isSpaceByte c = false ∧ c ≠ 0) ∧
      (∀ c ∈ strBytes "b", isSpaceByte c = false ∧ c ≠ 0) ∧
      (strBytes "rtsp://a").length + (strBytes "b").length ≤ 231 ∧
      ((1 : Nat) = GST_WFD_RTSP_TRANS_RTP ∨
        (1 : Nat) = GST_WFD_RTSP_TRANS_RDT) ∧
      ((1 : Nat) = GST_WFD_RTSP_PROFILE_UNKNOWN ∨
        (1 : Nat) = GST_WFD_RTSP_PROFILE_AVP ∨
        (1 : Nat) = GST_WFD_RTSP_PROFILE_SAVP) ∧
      ((1 : Nat) = GST_WFD_RTSP_LOWER_TRANS_UNKNOWN ∨
        (1 : Nat) = GST_WFD_RTSP_LOWER_TRANS_UDP ∨
        (1 : Nat) = GST_WFD_RTSP_LOWER_TRANS_UDP_MCAST ∨
        (1 : Nat) = GST_WFD_RTSP_LOWER_TRANS_TCP ∨
        (1 : Nat) = GST_WFD_RTSP_LOWER_TRANS_HTTP) ∧
      (5000 : Nat) < 4294967296 ∧
      (0 : Nat) < 18446744073709551616) ∧
    gst_wfd_message_parse_buffer (gst_wfd_message_as_text
        (buildWfdMsg 2 3 3 0 0 1 0 1 1 0 0 1 1 0 0 0 0 0 0 1 1234 0 none
          (strBytes "rtsp://a") (strBytes "b") 1 1 1 5000 0 0 0)) =
      buildWfdMsg 2 3 3 0 0 1 0 1 1 0 0 1 1 0 0 0 0 0 0 1 1234 0 none
        (strBytes "rtsp://a") (strBytes "b") 1 1 1 5000 0 0 0 :=
  ⟨by decide,
    setter_subgrammar_roundtrip 2 3 3 0 0 1 0 1 1 0 0 1 1 0 0 0 0 0 0 1
      1234 0 none (strBytes "rtsp://a") (strBytes "b") 1 1 1 5000 0 0 0
      (Or.inr (Or.inl rfl)) (by norm_num) (by norm_num) (by norm_num)
      (by decide) (by norm_num) (by norm_num) (by norm_num) (by norm_num)
      (by norm_num) (by norm_num) (by norm_num) (by norm_num)
      (Or.inl rfl) (by norm_num) (by decide) (by decide) (by decide)
      (Or.inl rfl) (Or.inr (Or.inl rfl)) (Or.inr (Or.inl rfl))
      (by norm_num) (by norm_num) (by norm_num) (by norm_num)⟩
